import Mathlib

/-!
Verification of the constrained grid pathfinder (day 17) of an Advent of Code
2023 repository, together with the byte-grid parsing helper it relies on.

The Rust source is shallowly embedded as executable Lean definitions:
machine integers (`u8`, `u32`, `usize`) become `Nat`; `checked_sub` becomes an
`Option`-returning step; the `BinaryHeap` (a max-heap over the reversed
ordering on `cost + heuristic`, i.e. a min-priority queue on `cost +
heuristic` with unspecified tie-breaking) becomes a leftist heap whose `pop`
returns a minimal-priority element — one legal tie-break of the source's
heap; the `HashSet` of visited `(position, direction, run-length)` triples
becomes a bitmask over an (on all reachable keys) injective key encoding;
`Result`/`collect` becomes `Except` with `mapM`. The unbounded while loop
becomes a fuel-indexed recursion; `searchFuel` is provably larger than the
number of loop iterations (every iteration either consumes a queue entry or
marks one of the finitely many states visited, pushing at most three
entries), so the fuel never runs out — `none` is returned only when the
queue is exhausted.
-/

namespace Aoc2023

/-! ### Byte-grid parsing (`utils.rs`) -/

/-- `InvalidCharacter(u8)` from `utils.rs`. -/
structure InvalidCharacter where
  byte : Nat
  deriving DecidableEq, Repr

/-- `LinesIterator` / `ascii_lines` from `utils.rs`: split a byte slice at each
`'\n'` (byte 10); a trailing newline does not produce a trailing empty line,
but interior empty lines are kept. -/
def asciiLines : List Nat → List (List Nat)
  | [] => []
  | c :: cs =>
    if c = 10 then [] :: asciiLines cs
    else
      match asciiLines cs with
      | [] => [[c]]
      | line :: rest => (c :: line) :: rest

/-- `GridLike` from `utils.rs`: flattened cells plus the declared width and
height. -/
structure GridLike (C : Type) where
  cells : List C
  width : Nat
  height : Nat
  deriving DecidableEq, Repr

/-- `AsciiUtils::grid_like` from `utils.rs`: convert every byte of every line
in order, stopping at the first conversion error; the width is the length of
the first line (0 if there is none) and the height is the number of lines.
Rows of differing lengths are not detected. -/
def gridLike {C E : Type} (tryFrom : Nat → Except E C) (input : List Nat) :
    Except E (GridLike C) := do
  let cells ← ((asciiLines input).flatten).mapM tryFrom
  let width := ((asciiLines input).head?.map List.length).getD 0
  let height := (asciiLines input).length
  pure { cells := cells, width := width, height := height }

/-! ### Day 17 data model (`day17.rs`) -/

namespace Day17

/-- `Cell` from `day17.rs`: a single grid cell holding a cost `0..=9`. -/
structure Cell where
  cost : Nat
  deriving DecidableEq, Repr

/-- `impl TryFrom<u8> for Cell`: bytes `b'0'..=b'9'` (48–57) convert to a cell
of cost `c - b'0'`; anything else is an `InvalidCharacter` error. -/
def Cell.tryFrom (c : Nat) : Except InvalidCharacter Cell :=
  if 48 ≤ c ∧ c ≤ 57 then .ok ⟨c - 48⟩ else .error ⟨c⟩

/-- `Direction` from `day17.rs`. -/
inductive Direction where
  | up
  | down
  | left
  | right
  deriving DecidableEq, Repr

/-- `Direction::all()`, in source order. -/
def Direction.all : List Direction := [.up, .down, .left, .right]

/-- `Direction::opposite`. -/
def Direction.opposite : Direction → Direction
  | .up => .down
  | .down => .up
  | .left => .right
  | .right => .left

/-- `Pos` from `day17.rs` (`u32` coordinates, modelled as `Nat`). -/
structure Pos where
  x : Nat
  y : Nat
  deriving DecidableEq, Repr

/-- `Pos::manhattan_distance`: sum of the absolute coordinate differences. -/
def Pos.manhattanDistance (p q : Pos) : Nat :=
  Nat.dist p.x q.x + Nat.dist p.y q.y

/-- `Pos::step`: move one cell in a direction; `checked_sub` makes a step off
the top or left edge return `none`. -/
def Pos.step (p : Pos) : Direction → Option Pos
  | .up => if p.y = 0 then none else some ⟨p.x, p.y - 1⟩
  | .down => some ⟨p.x, p.y + 1⟩
  | .left => if p.x = 0 then none else some ⟨p.x - 1, p.y⟩
  | .right => some ⟨p.x + 1, p.y⟩

/-- `Grid` from `day17.rs`: row-major cells with a width and height. -/
structure Grid where
  cells : List Cell
  width : Nat
  height : Nat
  deriving DecidableEq, Repr

/-- `FromGridLike::from_cells` composed with `GridLike::into_grid`. -/
def Grid.fromCells (g : GridLike Cell) : Grid :=
  { cells := g.cells, width := g.width, height := g.height }

/-- `Grid::contains`. -/
def Grid.contains (g : Grid) (p : Pos) : Bool :=
  p.x < g.width && p.y < g.height

/-- `Grid::get` (indexing `cells[y * width + x]`; every call site is guarded
by `contains`, the default is never read on those calls). -/
def Grid.get (g : Grid) (p : Pos) : Cell :=
  g.cells.getD (p.y * g.width + p.x) ⟨0⟩

/-- `Grid::neighbors`: for each direction in source order, the stepped
position together with its cell, kept only when inside the grid. -/
def Grid.neighbors (g : Grid) (p : Pos) : List (Direction × Pos × Cell) :=
  Direction.all.filterMap fun d =>
    match p.step d with
    | none => none
    | some q => if g.contains q then some (d, q, g.get q) else none

/-- `SearchNode` from `day17.rs`. -/
structure SearchNode where
  pos : Pos
  cost : Nat
  heuristic : Nat
  direction : Direction
  steps_in_direction : Nat
  deriving DecidableEq, Repr

/-- The priority the `Ord` instance compares (reversed in the source to turn
the max-heap into a min-heap): `cost + heuristic`. -/
def SearchNode.pri (n : SearchNode) : Nat := n.cost + n.heuristic

/-- The visited-set key of a node: `(position, direction, run-length)`. -/
def SearchNode.key (n : SearchNode) : Pos × Direction × Nat :=
  (n.pos, n.direction, n.steps_in_direction)

/-- The priority queue. The source uses `BinaryHeap`, whose contract is:
`push` adds an element, `pop` removes and returns an element of maximal `Ord`
(= minimal `cost + heuristic`, since the ordering is reversed), the
tie-breaking among equal priorities being unspecified. We realize the same
contract with a leftist heap: `pop` returns a minimal-priority element (one
legal tie-break of the source's heap). -/
inductive Heap where
  | nil : Heap
  | node (rk : Nat) (val : SearchNode) (l r : Heap) : Heap
  deriving DecidableEq, Repr

/-- Number of elements of a heap. -/
def Heap.size : Heap → Nat
  | .nil => 0
  | .node _ _ l r => l.size + r.size + 1

/-- Stored rank of a leftist heap (length of its rightmost spine). -/
def Heap.rank : Heap → Nat
  | .nil => 0
  | .node k _ _ _ => k

/-- Rebuild a node, placing the larger-rank child on the left. -/
def Heap.mk (v : SearchNode) (l r : Heap) : Heap :=
  if r.rank ≤ l.rank then .node (r.rank + 1) v l r else .node (l.rank + 1) v r l

/-- Leftist-heap merge (the smaller root wins, recursing along right
spines), indexed by fuel so that it is structurally recursive and reduces
inside the kernel. Fuel at least `size h₁ + size h₂` always suffices; the
searches below thread a fuel that provably dominates every live heap size. -/
def Heap.mergeFuel : Nat → Heap → Heap → Heap
  | _, .nil, h => h
  | _, h, .nil => h
  | 0, h, _ => h
  | fuel + 1, .node ka a al ar, .node kb b bl br =>
    if a.pri ≤ b.pri then
      Heap.mk a al (Heap.mergeFuel fuel ar (.node kb b bl br))
    else
      Heap.mk b bl (Heap.mergeFuel fuel (.node ka a al ar) br)

/-- `BinaryHeap::push` (with merge fuel `F`). -/
def Heap.push (F : Nat) (n : SearchNode) (h : Heap) : Heap :=
  Heap.mergeFuel F (.node 1 n .nil .nil) h

/-- `BinaryHeap::pop` (with merge fuel `F`): the root, a minimal-priority
element, and the merge of its subtrees. -/
def Heap.pop (F : Nat) : Heap → Option (SearchNode × Heap)
  | .nil => none
  | .node _ a l r => some (a, Heap.mergeFuel F l r)

/-- The multiset of elements of a heap. -/
def Heap.elems : Heap → Multiset SearchNode
  | .nil => 0
  | .node _ a l r => a ::ₘ (l.elems + r.elems)

/-- Index of a direction, for the visited-set encoding. -/
def Direction.idx : Direction → Nat
  | .up => 0
  | .down => 1
  | .left => 2
  | .right => 3

/-- The visited set. The source uses a `HashSet` of `(position, direction,
run-length)` triples; we encode each key as a bit index and keep the set as a
`Nat` bitmask. Every key the search ever inserts or queries has `x < width`
(positions are `contains`-checked) and run-length `≤ max mx 1 < mx + 2`
(proven below), on which domain the encoding is injective, so the bitmask
behaves exactly like the source's set of triples. -/
def keyIdx (w mx : Nat) (k : Pos × Direction × Nat) : Nat :=
  k.2.2 + (mx + 2) * (k.2.1.idx + 4 * (k.1.x + w * k.1.y))

/-- `HashSet::contains` on the bitmask. -/
def visMem (w mx : Nat) (v : Nat) (k : Pos × Direction × Nat) : Bool :=
  Nat.testBit v (keyIdx w mx k)

/-- `HashSet::insert` on the bitmask. -/
def visInsert (w mx : Nat) (v : Nat) (k : Pos × Direction × Nat) : Nat :=
  v ||| 1 <<< keyIdx w mx k

/-- The successor nodes pushed when expanding `n` (the body of the inner
`for` loop of `find_path`): reversal is skipped; continuing straight requires
`steps_in_direction < max` and increments the run; turning requires
`steps_in_direction ≥ min` and resets the run to 1. -/
def successors (g : Grid) (endP : Pos) (mn mx : Nat) (n : SearchNode) :
    List SearchNode :=
  (g.neighbors n.pos).filterMap fun dpc =>
    let d := dpc.1
    let p := dpc.2.1
    let cell := dpc.2.2
    if n.direction = d.opposite then none
    else if n.direction = d then
      if mx ≤ n.steps_in_direction then none
      else some { pos := p, cost := n.cost + cell.cost,
                  heuristic := p.manhattanDistance endP, direction := d,
                  steps_in_direction := n.steps_in_direction + 1 }
    else if mn ≤ n.steps_in_direction then
      some { pos := p, cost := n.cost + cell.cost,
             heuristic := p.manhattanDistance endP, direction := d,
             steps_in_direction := 1 }
    else none

/-- The initial queue of `find_path`: one node per in-bounds neighbor of
`start`, with that neighbor's cell cost, the Manhattan-distance heuristic and
a run length of 1. -/
def initQueue (g : Grid) (start endP : Pos) (F : Nat) : Heap :=
  (g.neighbors start).foldl
    (fun q dpc =>
      Heap.push F { pos := dpc.2.1, cost := dpc.2.2.cost,
                    heuristic := dpc.2.1.manhattanDistance endP,
                    direction := dpc.1, steps_in_direction := 1 } q)
    .nil

/-- The `while let Some(node) = queue.pop()` loop of `find_path`, indexed by
fuel. A popped node at the end position immediately yields its cost; a node
whose key is already visited is dropped; otherwise the key is marked visited
and the successors are pushed. -/
def findPathAux (g : Grid) (endP : Pos) (mn mx F : Nat) (fuel : Nat) (q : Heap)
    (visited : Nat) : Option Nat :=
  match Heap.pop F q with
  | none => none
  | some (n, q') =>
    match fuel with
    | 0 => none
    | fuel' + 1 =>
      if n.pos = endP then some n.cost
      else if visMem g.width mx visited n.key then
        findPathAux g endP mn mx F fuel' q' visited
      else
        findPathAux g endP mn mx F fuel'
          ((successors g endP mn mx n).foldl (fun q s => Heap.push F s q) q')
          (visInsert g.width mx visited n.key)

/-- The same loop as `findPathAux`, written as a resumable stepper: after `k`
iterations without an answer it returns the current queue and visited set
(`findPathAux_eq_searchGo` below proves the two agree). This lets long
concrete runs be replayed in bounded-size slices, which keeps the kernel's
reduction depth bounded. -/
def searchGo (g : Grid) (endP : Pos) (mn mx F : Nat) :
    Nat → Heap → Nat → (Heap × Nat) ⊕ Option Nat
  | 0, q, visited => .inl (q, visited)
  | k + 1, q, visited =>
    match Heap.pop F q with
    | none => .inr none
    | some (n, q') =>
      if n.pos = endP then .inr (some n.cost)
      else if visMem g.width mx visited n.key then
        searchGo g endP mn mx F k q' visited
      else
        searchGo g endP mn mx F k
          ((successors g endP mn mx n).foldl (fun q s => Heap.push F s q) q')
          (visInsert g.width mx visited n.key)

/-- Fuel that provably exceeds the number of loop iterations (each iteration
either drops a queue entry or marks one of the at most
`width * height * 4 * (mx + 1)` states visited while pushing at most three
entries) and hence also every live heap size. -/
def searchFuel (g : Grid) (mx : Nat) : Nat :=
  16 * g.width * g.height * (mx + 1) + 8

/-- `find_path` from `day17.rs`. -/
def find_path (g : Grid) (start endP : Pos) (mn mx : Nat) : Option Nat :=
  findPathAux g endP mn mx (searchFuel g mx) (searchFuel g mx)
    (initQueue g start endP (searchFuel g mx)) 0

/-- `parse` from `day17.rs` (`#[aoc_generator(day17)]`), without the panic on
error: the byte input through `grid_like::<Cell>` and `into_grid`. -/
def parse (input : List Nat) : Except InvalidCharacter Grid :=
  (gridLike Cell.tryFrom input).map Grid.fromCells

/-- `part1` from `day17.rs`, without the final `unwrap`: top-left to
bottom-right with `MIN_STEPS_IN_DIRECTION = 1`, `MAX_STEPS_IN_DIRECTION = 3`. -/
def part1 (g : Grid) : Option Nat :=
  find_path g ⟨0, 0⟩ ⟨g.width - 1, g.height - 1⟩ 1 3

/-- `part2` from `day17.rs`, without the final `unwrap`: top-left to
bottom-right with `MIN_STEPS_IN_DIRECTION = 4`, `MAX_STEPS_IN_DIRECTION = 10`. -/
def part2 (g : Grid) : Option Nat :=
  find_path g ⟨0, 0⟩ ⟨g.width - 1, g.height - 1⟩ 4 10

/-! ### The specification's constrained-walk semantics

`ReachCost g start mn mx p d r c` holds exactly when some valid constrained
walk leaves `start` and arrives at position `p` heading `d` with a current
straight run of `r` cells, having entered cells of total cost `c`: the first
move goes to any in-bounds neighbor with run 1 (no minimum-run requirement,
there being no incoming direction); afterwards reversal is forbidden,
continuing straight requires the run to be below `mx` and increments it, and
turning requires the finished run to be at least `mn` and resets it to 1.
Every cell entered contributes its cost; the start cell itself does not. -/
inductive ReachCost (g : Grid) (start : Pos) (mn mx : Nat) :
    Pos → Direction → Nat → Nat → Prop where
  | seed (d : Direction) (q : Pos) :
      start.step d = some q → g.contains q = true →
      ReachCost g start mn mx q d 1 (g.get q).cost
  | straight (p : Pos) (d : Direction) (r c : Nat) (q : Pos) :
      ReachCost g start mn mx p d r c →
      p.step d = some q → g.contains q = true → r < mx →
      ReachCost g start mn mx q d (r + 1) (c + (g.get q).cost)
  | turn (p : Pos) (d : Direction) (r c : Nat) (d' : Direction) (q : Pos) :
      ReachCost g start mn mx p d r c →
      p.step d' = some q → g.contains q = true →
      d' ≠ d → d' ≠ d.opposite → mn ≤ r →
      ReachCost g start mn mx q d' 1 (c + (g.get q).cost)

/-- The state space bounding the search: in-bounds positions, the four
directions, run lengths `1 .. max mx 1`. Every key the loop ever marks
visited lies in this finite set, which bounds the number of iterations. -/
def allKeys (g : Grid) (mx : Nat) : Finset (Pos × Direction × Nat) :=
  ((Finset.range g.width ×ˢ Finset.range g.height) ×ˢ
      (({.up, .down, .left, .right} : Finset Direction) ×ˢ
        Finset.Icc 1 (max mx 1))).image
    fun x => (⟨x.1.1, x.1.2⟩, x.2.1, x.2.2)

/-! ### Concrete inputs used by the tests and the analyses below -/

/-- The worked 13x13 example input of `day17.rs` (`example_tests!`), as the
byte grid the test harness passes to `parse` after unindenting. -/
def exampleInput : List Nat :=
  ([[2,4,1,3,4,3,2,3,1,1,3,2,3],
    [3,2,1,5,4,5,3,5,3,5,6,2,3],
    [3,2,5,5,2,4,5,6,5,4,2,5,4],
    [3,4,4,6,5,8,5,8,4,5,4,5,2],
    [4,5,4,6,6,5,7,8,6,7,5,3,6],
    [1,4,3,8,5,9,8,7,9,8,4,5,4],
    [4,4,5,7,8,7,6,9,8,7,7,6,6],
    [3,6,3,7,8,7,7,9,7,9,6,5,3],
    [4,6,5,4,9,6,7,9,8,6,8,8,7],
    [4,5,6,4,6,7,9,9,8,6,4,5,3],
    [1,2,2,4,6,8,6,8,6,5,5,6,3],
    [2,5,4,6,5,4,8,8,8,7,7,3,5],
    [4,3,2,2,6,7,4,6,5,5,5,3,3]].map
    (fun r => r.map (fun d => d + 48) ++ [10])).flatten

/-- The parsed 13x13 example grid. -/
def exampleGrid : Grid :=
  { cells := exampleInput.filterMap
      (fun b => if b = 10 then none else some ⟨b - 48⟩),
    width := 13, height := 13 }

/-- `b"1111\n".repeat(4)`, the input of the `uniform_cost` test. -/
def uniformInput : List Nat :=
  ([[49,49,49,49,10], [49,49,49,49,10], [49,49,49,49,10],
    [49,49,49,49,10]]).flatten

/-- `b"911111\n119991".repeat(4)`, the input of the `forced_turn` test (note
that the repetitions concatenate without separating newlines). -/
def forcedTurnInput : List Nat :=
  ([[57,49,49,49,49,49,10,49,49,57,57,57,49],
    [57,49,49,49,49,49,10,49,49,57,57,57,49],
    [57,49,49,49,49,49,10,49,49,57,57,57,49],
    [57,49,49,49,49,49,10,49,49,57,57,57,49]]).flatten

/-- A 1x1 grid holding a single cell of cost `c`. -/
def oneCellGrid (c : Nat) : Grid := { cells := [⟨c⟩], width := 1, height := 1 }

/-- A 1x2 grid of cost-1 cells. -/
def twoCellGrid : Grid := { cells := [⟨1⟩, ⟨1⟩], width := 2, height := 1 }

/-- A 1x3 grid of cost-1 cells. -/
def threeCellGrid : Grid := { cells := [⟨1⟩, ⟨1⟩, ⟨1⟩], width := 3, height := 1 }

/-- A 2x2 grid of cost-1 cells. -/
def squareGrid : Grid := { cells := [⟨1⟩, ⟨1⟩, ⟨1⟩, ⟨1⟩], width := 2, height := 2 }

/-- A 2x3 grid (rows `01 / 00 / 00`) on which the inadmissible Manhattan
heuristic makes the search return 1 from (0,2) to (0,0) with `mn = mx = 1`,
although the zero-cost walk right, up, left, up is valid. -/
def zeroCostGrid : Grid :=
  { cells := [⟨0⟩, ⟨1⟩, ⟨0⟩, ⟨0⟩, ⟨0⟩, ⟨0⟩], width := 2, height := 3 }

/-- A 4x2 grid (rows `0020 / 1002`) on which raising `mx` from 1 to 2 raises
the returned cost from 2 to 3 (searched from (3,0) to (0,0) with `mn = 1`). -/
def monoGrid : Grid :=
  { cells := [⟨0⟩, ⟨0⟩, ⟨2⟩, ⟨0⟩, ⟨1⟩, ⟨0⟩, ⟨0⟩, ⟨2⟩], width := 4, height := 2 }

/-- The queue of the part-1 search on `exampleGrid` after 425 loop
iterations (verified by computation in the slice theorems below);
recorded literally so that the long run can be replayed in
bounded-depth slices. -/
def exampleHeap425 : Heap :=
  (.node 5 ⟨⟨4,4⟩,33,16,.down,1⟩ (.node 4 ⟨⟨4,1⟩,30,19,.up,1⟩ (.node 3 ⟨⟨1,0⟩,26,23,.right,1⟩ (.node 3 ⟨⟨1,6⟩,33,17,.left,1⟩ (.node 2 ⟨⟨7,1⟩,37,16,.up,1⟩ (.node 1 ⟨⟨7,3⟩,39,14,.right,1⟩ .nil .nil) (.node 1 ⟨⟨7,3⟩,40,14,.down,1⟩ .nil .nil)) (.node 2 ⟨⟨4,4⟩,34,16,.right,1⟩ (.node 1 ⟨⟨0,6⟩,35,18,.left,2⟩ .nil .nil) (.node 1 ⟨⟨6,4⟩,38,14,.down,2⟩ .nil .nil))) (.node 2 ⟨⟨0,7⟩,33,17,.down,1⟩ (.node 1 ⟨⟨0,5⟩,31,19,.up,1⟩ (.node 2 ⟨⟨3,5⟩,34,16,.down,1⟩ (.node 1 ⟨⟨3,1⟩,31,20,.up,2⟩ .nil .nil) (.node 1 ⟨⟨2,2⟩,31,20,.left,1⟩ .nil .nil)) .nil) (.node 1 ⟨⟨7,1⟩,37,16,.left,1⟩ .nil .nil))) (.node 3 ⟨⟨1,7⟩,33,16,.down,1⟩ (.node 2 ⟨⟨1,3⟩,30,20,.left,2⟩ (.node 1 ⟨⟨7,2⟩,36,15,.right,1⟩ (.node 1 ⟨⟨3,4⟩,35,17,.left,1⟩ .nil .nil) .nil) (.node 1 ⟨⟨8,2⟩,37,14,.down,2⟩ .nil .nil)) (.node 2 ⟨⟨9,1⟩,37,14,.right,1⟩ (.node 1 ⟨⟨7,2⟩,38,15,.down,2⟩ .nil .nil) (.node 1 ⟨⟨6,1⟩,35,17,.left,1⟩ .nil .nil)))) (.node 4 ⟨⟨1,0⟩,26,23,.left,1⟩ (.node 5 ⟨⟨8,1⟩,34,15,.down,1⟩ (.node 4 ⟨⟨5,4⟩,34,15,.down,2⟩ (.node 4 ⟨⟨1,6⟩,32,17,.left,1⟩ (.node 3 ⟨⟨3,0⟩,29,21,.left,1⟩ (.node 2 ⟨⟨4,3⟩,34,17,.left,1⟩ (.node 1 ⟨⟨6,4⟩,40,14,.right,2⟩ .nil .nil) (.node 1 ⟨⟨5,3⟩,41,16,.up,1⟩ .nil .nil)) (.node 2 ⟨⟨2,7⟩,35,15,.right,1⟩ (.node 2 ⟨⟨0,3⟩,29,21,.up,2⟩ (.node 2 ⟨⟨7,1⟩,35,16,.down,1⟩ (.node 1 ⟨⟨1,8⟩,38,15,.down,3⟩ .nil .nil) (.node 1 ⟨⟨0,7⟩,35,17,.left,1⟩ .nil .nil)) (.node 1 ⟨⟨1,4⟩,31,19,.right,1⟩ .nil .nil)) (.node 1 ⟨⟨2,2⟩,31,20,.up,1⟩ .nil .nil))) (.node 3 ⟨⟨3,5⟩,33,16,.down,1⟩ (.node 2 ⟨⟨0,4⟩,31,20,.left,1⟩ (.node 1 ⟨⟨3,7⟩,39,14,.right,1⟩ (.node 1 ⟨⟨1,7⟩,38,16,.left,1⟩ .nil .nil) .nil) (.node 1 ⟨⟨9,1⟩,37,14,.down,1⟩ .nil .nil)) (.node 2 ⟨⟨2,8⟩,37,14,.down,3⟩ (.node 2 ⟨⟨3,7⟩,38,14,.right,1⟩ (.node 2 ⟨⟨6,3⟩,37,15,.right,1⟩ (.node 1 ⟨⟨4,3⟩,37,17,.left,1⟩ .nil .nil) (.node 1 ⟨⟨5,5⟩,42,14,.down,1⟩ .nil .nil)) (.node 1 ⟨⟨1,7⟩,37,16,.left,1⟩ .nil .nil)) (.node 1 ⟨⟨5,4⟩,37,15,.down,3⟩ .nil .nil)))) (.node 3 ⟨⟨2,2⟩,29,20,.up,2⟩ (.node 3 ⟨⟨6,3⟩,35,15,.right,2⟩ (.node 2 ⟨⟨0,3⟩,29,21,.left,1⟩ (.node 1 ⟨⟨3,6⟩,35,15,.right,1⟩ .nil .nil) (.node 1 ⟨⟨3,6⟩,36,15,.right,1⟩ .nil .nil)) (.node 2 ⟨⟨5,4⟩,35,15,.down,1⟩ (.node 1 ⟨⟨3,4⟩,38,17,.up,1⟩ .nil .nil) (.node 1 ⟨⟨3,6⟩,39,15,.down,1⟩ .nil .nil))) (.node 2 ⟨⟨4,5⟩,34,15,.down,3⟩ (.node 1 ⟨⟨4,1⟩,32,19,.up,2⟩ .nil .nil) (.node 1 ⟨⟨4,5⟩,37,15,.right,3⟩ (.node 1 ⟨⟨3,2⟩,33,19,.left,1⟩ .nil .nil) .nil)))) (.node 4 ⟨⟨1,2⟩,28,21,.down,1⟩ (.node 3 ⟨⟨6,3⟩,34,15,.down,1⟩ (.node 2 ⟨⟨1,2⟩,28,21,.right,1⟩ (.node 2 ⟨⟨6,1⟩,32,17,.up,1⟩ (.node 1 ⟨⟨4,4⟩,33,16,.right,1⟩ .nil .nil) (.node 1 ⟨⟨0,1⟩,29,23,.up,3⟩ (.node 1 ⟨⟨4,0⟩,33,20,.left,1⟩ .nil .nil) .nil)) (.node 1 ⟨⟨3,3⟩,32,18,.up,1⟩ (.node 1 ⟨⟨3,5⟩,35,16,.down,2⟩ (.node 1 ⟨⟨0,6⟩,34,18,.left,1⟩ .nil .nil) .nil) .nil)) (.node 2 ⟨⟨2,7⟩,35,15,.down,1⟩ (.node 1 ⟨⟨1,7⟩,37,16,.down,1⟩ .nil .nil) (.node 1 ⟨⟨4,5⟩,37,15,.down,2⟩ (.node 1 ⟨⟨5,4⟩,37,15,.right,1⟩ (.node 1 ⟨⟨1,7⟩,36,16,.down,3⟩ .nil .nil) .nil) .nil))) (.node 3 ⟨⟨2,1⟩,28,21,.up,1⟩ (.node 4 ⟨⟨3,6⟩,34,15,.right,1⟩ (.node 3 ⟨⟨5,3⟩,33,16,.right,1⟩ (.node 2 ⟨⟨0,8⟩,33,16,.down,3⟩ (.node 1 ⟨⟨4,1⟩,31,19,.down,1⟩ .nil .nil) (.node 1 ⟨⟨3,0⟩,30,21,.left,2⟩ .nil .nil)) (.node 2 ⟨⟨2,4⟩,31,18,.left,1⟩ (.node 2 ⟨⟨2,4⟩,31,18,.right,1⟩ (.node 2 ⟨⟨4,5⟩,35,15,.right,2⟩ (.node 1 ⟨⟨5,2⟩,34,17,.up,1⟩ (.node 1 ⟨⟨3,1⟩,31,20,.left,2⟩ .nil .nil) .nil) (.node 1 ⟨⟨2,3⟩,32,19,.up,2⟩ .nil .nil)) (.node 1 ⟨⟨0,1⟩,29,23,.up,1⟩ .nil .nil)) (.node 1 ⟨⟨7,1⟩,33,16,.down,1⟩ (.node 1 ⟨⟨7,2⟩,35,15,.right,2⟩ .nil .nil) .nil))) (.node 3 ⟨⟨8,1⟩,34,15,.right,2⟩ (.node 3 ⟨⟨4,1⟩,30,19,.left,1⟩ (.node 3 ⟨⟨5,4⟩,34,15,.right,1⟩ (.node 4 ⟨⟨6,0⟩,31,18,.up,2⟩ (.node 3 ⟨⟨1,2⟩,28,21,.up,2⟩ (.node 3 ⟨⟨4,4⟩,34,16,.right,1⟩ (.node 2 ⟨⟨1,7⟩,35,16,.right,1⟩ (.node 1 ⟨⟨3,4⟩,36,17,.up,1⟩ .nil .nil) (.node 1 ⟨⟨4,3⟩,36,17,.up,1⟩ .nil .nil)) (.node 2 ⟨⟨2,4⟩,32,18,.left,1⟩ (.node 1 ⟨⟨3,5⟩,36,16,.down,3⟩ .nil .nil) (.node 1 ⟨⟨4,5⟩,36,15,.down,1⟩ .nil .nil))) (.node 2 ⟨⟨3,3⟩,31,18,.left,1⟩ (.node 1 ⟨⟨2,2⟩,29,20,.down,1⟩ .nil .nil) (.node 1 ⟨⟨5,4⟩,36,15,.right,3⟩ (.node 1 ⟨⟨1,3⟩,31,20,.up,2⟩ (.node 1 ⟨⟨3,6⟩,37,15,.down,1⟩ .nil .nil) .nil) .nil))) (.node 3 ⟨⟨0,6⟩,31,18,.down,1⟩ (.node 2 ⟨⟨5,0⟩,30,19,.left,1⟩ (.node 2 ⟨⟨3,3⟩,31,18,.up,1⟩ (.node 2 ⟨⟨6,3⟩,36,15,.down,3⟩ (.node 1 ⟨⟨5,2⟩,35,17,.left,1⟩ .nil .nil) (.node 1 ⟨⟨7,2⟩,37,15,.right,1⟩ .nil .nil)) (.node 1 ⟨⟨1,4⟩,31,19,.up,1⟩ .nil .nil)) (.node 1 ⟨⟨5,2⟩,32,17,.right,1⟩ (.node 2 ⟨⟨2,3⟩,30,19,.right,1⟩ (.node 1 ⟨⟨5,3⟩,34,16,.right,3⟩ .nil .nil) (.node 1 ⟨⟨6,3⟩,34,15,.right,1⟩ (.node 1 ⟨⟨1,0⟩,27,23,.left,3⟩ .nil .nil) .nil)) .nil)) (.node 2 ⟨⟨5,1⟩,31,18,.left,1⟩ (.node 2 ⟨⟨3,5⟩,33,16,.right,3⟩ (.node 1 ⟨⟨1,2⟩,29,21,.left,3⟩ (.node 1 ⟨⟨2,5⟩,34,17,.up,1⟩ .nil .nil) .nil) (.node 1 ⟨⟨0,3⟩,29,21,.down,1⟩ .nil .nil)) (.node 1 ⟨⟨6,3⟩,35,15,.down,2⟩ (.node 1 ⟨⟨0,4⟩,31,20,.up,1⟩ .nil .nil) .nil)))) (.node 2 ⟨⟨6,0⟩,31,18,.right,1⟩ (.node 1 ⟨⟨7,0⟩,33,17,.up,1⟩ (.node 1 ⟨⟨7,2⟩,36,15,.down,1⟩ .nil .nil) .nil) (.node 1 ⟨⟨2,6⟩,35,16,.right,1⟩ (.node 1 ⟨⟨5,2⟩,34,17,.left,1⟩ .nil .nil) .nil))) (.node 2 ⟨⟨3,4⟩,34,17,.right,1⟩ (.node 2 ⟨⟨7,0⟩,34,17,.up,1⟩ (.node 2 ⟨⟨4,5⟩,37,15,.down,1⟩ (.node 1 ⟨⟨7,2⟩,37,15,.down,1⟩ (.node 1 ⟨⟨4,3⟩,37,17,.up,1⟩ .nil .nil) .nil) (.node 1 ⟨⟨3,4⟩,38,17,.left,1⟩ .nil .nil)) (.node 1 ⟨⟨5,3⟩,35,16,.right,2⟩ .nil .nil)) (.node 1 ⟨⟨1,4⟩,33,19,.left,1⟩ .nil .nil))) (.node 2 ⟨⟨2,3⟩,31,19,.down,1⟩ (.node 2 ⟨⟨4,0⟩,30,20,.up,1⟩ (.node 2 ⟨⟨7,0⟩,34,17,.up,1⟩ (.node 1 ⟨⟨3,4⟩,34,17,.left,1⟩ .nil .nil) (.node 1 ⟨⟨7,2⟩,37,15,.down,1⟩ .nil .nil)) (.node 1 ⟨⟨5,3⟩,39,16,.left,1⟩ .nil .nil)) (.node 1 ⟨⟨1,0⟩,30,23,.up,1⟩ .nil .nil)))) (.node 2 ⟨⟨2,7⟩,34,15,.down,1⟩ (.node 2 ⟨⟨8,1⟩,35,15,.right,1⟩ (.node 1 ⟨⟨3,2⟩,31,19,.left,2⟩ (.node 1 ⟨⟨2,4⟩,32,18,.left,1⟩ (.node 1 ⟨⟨0,3⟩,31,21,.up,1⟩ .nil .nil) .nil) .nil) (.node 1 ⟨⟨8,2⟩,38,14,.down,1⟩ (.node 1 ⟨⟨1,5⟩,35,18,.up,1⟩ .nil .nil) .nil)) (.node 1 ⟨⟨8,0⟩,34,16,.up,1⟩ .nil .nil))))) (.node 3 ⟨⟨3,4⟩,32,17,.right,3⟩ (.node 3 ⟨⟨1,7⟩,34,16,.right,1⟩ (.node 2 ⟨⟨7,1⟩,34,16,.right,1⟩ (.node 1 ⟨⟨3,6⟩,39,15,.right,3⟩ .nil .nil) (.node 1 ⟨⟨2,5⟩,35,17,.up,1⟩ .nil .nil)) (.node 2 ⟨⟨5,1⟩,34,18,.left,1⟩ (.node 1 ⟨⟨3,6⟩,38,15,.right,2⟩ .nil .nil) (.node 1 ⟨⟨1,4⟩,36,19,.up,2⟩ .nil .nil))) (.node 2 ⟨⟨2,3⟩,30,19,.up,1⟩ (.node 1 ⟨⟨5,3⟩,34,16,.down,3⟩ .nil .nil) (.node 1 ⟨⟨2,5⟩,34,17,.right,1⟩ (.node 1 ⟨⟨0,5⟩,32,19,.left,1⟩ (.node 1 ⟨⟨2,3⟩,32,19,.left,2⟩ (.node 1 ⟨⟨3,4⟩,34,17,.down,1⟩ (.node 1 ⟨⟨3,2⟩,33,19,.up,1⟩ .nil .nil) .nil) .nil) .nil) .nil)))))

/-- The visited bitmask of the part-1 search on `exampleGrid` after 425
loop iterations. -/
def exampleVis425 : Nat :=
  31631755671909068681680632011966208865887203507097218351928463695691690717997483548047711384618592885746281042906636904229015914940852608008229123361251685180905853067988862052917385088807160398560667672088342778580883821967119123195204100175147764848086981987139480313999583778360758493825848176044746492960595302090258227105819701039281887893589059574764784073465407152473338973261754901898815329591239473986338463705357511078791364670062209254432315269165316117097649330380955244581565027437965459952280950051521151347275483899861995968505484754410297379272718

/-- The queue of the part-1 search on `exampleGrid` after 850 loop
iterations (verified by computation in the slice theorems below);
recorded literally so that the long run can be replayed in
bounded-depth slices. -/
def exampleHeap850 : Heap :=
  (.node 5 ⟨⟨11,1⟩,46,12,.right,1⟩ (.node 4 ⟨⟨0,8⟩,42,16,.left,1⟩ (.node 3 ⟨⟨6,2⟩,43,16,.left,1⟩ (.node 2 ⟨⟨0,8⟩,44,16,.down,1⟩ (.node 1 ⟨⟨0,6⟩,44,18,.up,1⟩ (.node 1 ⟨⟨9,2⟩,49,13,.left,1⟩ .nil .nil) .nil) (.node 1 ⟨⟨10,1⟩,49,13,.up,1⟩ (.node 1 ⟨⟨6,5⟩,49,13,.down,2⟩ .nil .nil) .nil)) (.node 2 ⟨⟨5,5⟩,45,14,.down,1⟩ (.node 3 ⟨⟨4,6⟩,45,14,.right,1⟩ (.node 2 ⟨⟨10,3⟩,49,11,.down,2⟩ (.node 1 ⟨⟨11,3⟩,52,10,.right,1⟩ .nil .nil) (.node 1 ⟨⟨9,3⟩,52,12,.left,1⟩ .nil .nil)) (.node 2 ⟨⟨8,3⟩,48,13,.right,1⟩ (.node 1 ⟨⟨9,3⟩,49,12,.right,1⟩ .nil .nil) (.node 1 ⟨⟨6,3⟩,49,15,.left,1⟩ .nil .nil))) (.node 1 ⟨⟨7,4⟩,52,13,.down,3⟩ .nil .nil))) (.node 3 ⟨⟨2,6⟩,42,16,.left,1⟩ (.node 5 ⟨⟨3,5⟩,42,16,.left,1⟩ (.node 4 ⟨⟨2,5⟩,41,17,.down,1⟩ (.node 3 ⟨⟨8,2⟩,45,14,.down,1⟩ (.node 2 ⟨⟨2,5⟩,43,17,.up,2⟩ (.node 1 ⟨⟨7,2⟩,45,15,.up,1⟩ (.node 2 ⟨⟨8,4⟩,49,12,.down,1⟩ (.node 1 ⟨⟨1,4⟩,43,19,.left,3⟩ .nil .nil) (.node 1 ⟨⟨5,6⟩,50,13,.down,1⟩ .nil .nil)) .nil) (.node 1 ⟨⟨4,9⟩,51,11,.right,1⟩ .nil .nil)) (.node 2 ⟨⟨2,8⟩,45,14,.right,1⟩ (.node 1 ⟨⟨7,1⟩,45,16,.left,2⟩ .nil .nil) (.node 1 ⟨⟨2,9⟩,51,13,.left,1⟩ .nil .nil))) (.node 3 ⟨⟨3,5⟩,42,16,.up,1⟩ (.node 2 ⟨⟨2,3⟩,42,19,.up,1⟩ (.node 1 ⟨⟨1,8⟩,46,15,.left,1⟩ .nil .nil) (.node 1 ⟨⟨2,9⟩,50,13,.right,1⟩ .nil .nil)) (.node 2 ⟨⟨7,0⟩,42,17,.left,2⟩ (.node 1 ⟨⟨3,0⟩,39,21,.left,1⟩ .nil .nil) (.node 1 ⟨⟨2,9⟩,46,13,.down,2⟩ (.node 1 ⟨⟨0,9⟩,48,15,.left,1⟩ .nil .nil) .nil)))) (.node 4 ⟨⟨9,2⟩,45,13,.right,3⟩ (.node 3 ⟨⟨8,3⟩,45,13,.down,1⟩ (.node 3 ⟨⟨3,5⟩,42,16,.right,1⟩ (.node 2 ⟨⟨9,2⟩,45,13,.right,2⟩ (.node 1 ⟨⟨8,3⟩,45,13,.down,1⟩ (.node 1 ⟨⟨8,1⟩,44,15,.up,1⟩ (.node 1 ⟨⟨8,2⟩,46,14,.left,1⟩ .nil .nil) .nil) .nil) (.node 1 ⟨⟨4,7⟩,49,13,.right,1⟩ .nil .nil)) (.node 2 ⟨⟨12,0⟩,46,12,.right,3⟩ (.node 2 ⟨⟨1,5⟩,40,18,.left,2⟩ (.node 1 ⟨⟨1,2⟩,39,21,.left,1⟩ .nil .nil) (.node 1 ⟨⟨3,2⟩,42,19,.right,1⟩ .nil .nil)) (.node 1 ⟨⟨2,7⟩,44,15,.left,1⟩ .nil .nil))) (.node 2 ⟨⟨11,2⟩,47,11,.down,2⟩ (.node 4 ⟨⟨3,8⟩,45,13,.down,2⟩ (.node 3 ⟨⟨1,5⟩,40,18,.down,1⟩ (.node 4 ⟨⟨0,8⟩,43,16,.left,1⟩ (.node 3 ⟨⟨6,1⟩,42,17,.down,1⟩ (.node 2 ⟨⟨6,4⟩,45,14,.right,3⟩ (.node 1 ⟨⟨5,5⟩,47,14,.down,1⟩ .nil .nil) (.node 1 ⟨⟨5,3⟩,44,16,.right,1⟩ (.node 1 ⟨⟨3,3⟩,42,18,.left,1⟩ .nil .nil) .nil)) (.node 2 ⟨⟨2,6⟩,43,16,.right,1⟩ (.node 2 ⟨⟨3,8⟩,48,13,.down,1⟩ (.node 1 ⟨⟨5,0⟩,42,19,.left,3⟩ (.node 1 ⟨⟨7,2⟩,49,15,.up,1⟩ .nil .nil) .nil) (.node 1 ⟨⟨3,6⟩,51,15,.up,1⟩ .nil .nil)) (.node 1 ⟨⟨0,6⟩,42,18,.left,1⟩ (.node 1 ⟨⟨1,5⟩,42,18,.up,2⟩ .nil .nil) .nil))) (.node 3 ⟨⟨1,10⟩,46,13,.down,2⟩ (.node 2 ⟨⟨3,10⟩,49,11,.down,2⟩ (.node 1 ⟨⟨2,7⟩,46,15,.up,1⟩ .nil .nil) (.node 1 ⟨⟨2,9⟩,49,13,.down,1⟩ (.node 1 ⟨⟨4,1⟩,43,19,.left,1⟩ .nil .nil) .nil)) (.node 2 ⟨⟨11,0⟩,47,13,.up,1⟩ (.node 1 ⟨⟨1,3⟩,40,20,.up,1⟩ (.node 1 ⟨⟨11,2⟩,50,11,.down,1⟩ .nil .nil) .nil) (.node 1 ⟨⟨2,9⟩,50,13,.right,1⟩ (.node 1 ⟨⟨0,9⟩,48,15,.left,1⟩ .nil .nil) .nil)))) (.node 2 ⟨⟨6,1⟩,42,17,.right,1⟩ (.node 1 ⟨⟨0,4⟩,40,20,.left,3⟩ .nil .nil) (.node 1 ⟨⟨7,4⟩,48,13,.right,3⟩ (.node 1 ⟨⟨3,4⟩,44,17,.right,1⟩ (.node 1 ⟨⟨1,4⟩,43,19,.left,1⟩ (.node 1 ⟨⟨10,1⟩,49,13,.up,1⟩ .nil .nil) .nil) .nil) .nil))) (.node 3 ⟨⟨2,4⟩,40,18,.right,1⟩ (.node 3 ⟨⟨9,3⟩,46,12,.down,1⟩ (.node 4 ⟨⟨9,3⟩,46,12,.down,3⟩ (.node 4 ⟨⟨3,9⟩,46,12,.down,2⟩ (.node 4 ⟨⟨3,5⟩,42,16,.down,1⟩ (.node 3 ⟨⟨7,2⟩,44,15,.left,1⟩ (.node 3 ⟨⟨12,1⟩,48,11,.right,3⟩ (.node 2 ⟨⟨6,2⟩,45,16,.up,1⟩ (.node 1 ⟨⟨5,4⟩,47,15,.left,1⟩ .nil .nil) (.node 1 ⟨⟨7,4⟩,50,13,.right,1⟩ .nil .nil)) (.node 2 ⟨⟨10,3⟩,50,11,.right,1⟩ (.node 1 ⟨⟨8,3⟩,50,13,.left,1⟩ (.node 1 ⟨⟨9,4⟩,53,11,.down,3⟩ .nil .nil) .nil) (.node 1 ⟨⟨3,5⟩,46,16,.up,1⟩ .nil .nil))) (.node 2 ⟨⟨9,3⟩,47,12,.right,1⟩ (.node 3 ⟨⟨5,2⟩,42,17,.right,1⟩ (.node 3 ⟨⟨11,0⟩,47,13,.up,1⟩ (.node 2 ⟨⟨4,4⟩,44,16,.up,1⟩ (.node 2 ⟨⟨3,6⟩,47,15,.right,1⟩ (.node 1 ⟨⟨4,7⟩,52,13,.down,3⟩ .nil .nil) (.node 1 ⟨⟨3,6⟩,51,15,.left,1⟩ .nil .nil)) (.node 1 ⟨⟨11,2⟩,50,11,.down,1⟩ (.node 1 ⟨⟨1,6⟩,44,17,.left,1⟩ (.node 1 ⟨⟨5,6⟩,51,13,.right,1⟩ .nil .nil) .nil) .nil)) (.node 2 ⟨⟨1,9⟩,48,14,.down,1⟩ (.node 1 ⟨⟨5,2⟩,45,17,.up,2⟩ (.node 1 ⟨⟨1,7⟩,49,16,.up,1⟩ .nil .nil) .nil) (.node 1 ⟨⟨0,8⟩,47,16,.left,2⟩ .nil .nil))) (.node 2 ⟨⟨8,4⟩,48,12,.down,3⟩ (.node 2 ⟨⟨6,0⟩,42,18,.left,1⟩ (.node 1 ⟨⟨4,1⟩,42,19,.up,3⟩ .nil .nil) (.node 1 ⟨⟨4,3⟩,46,17,.left,1⟩ (.node 1 ⟨⟨7,3⟩,50,14,.left,1⟩ .nil .nil) .nil)) (.node 1 ⟨⟨8,2⟩,46,14,.left,1⟩ .nil .nil))) (.node 1 ⟨⟨1,6⟩,43,17,.right,1⟩ (.node 2 ⟨⟨5,3⟩,44,16,.up,1⟩ (.node 1 ⟨⟨4,5⟩,48,15,.left,1⟩ .nil .nil) (.node 1 ⟨⟨6,5⟩,51,13,.right,1⟩ .nil .nil)) .nil))) (.node 3 ⟨⟨1,10⟩,46,13,.right,1⟩ (.node 2 ⟨⟨3,2⟩,41,19,.left,3⟩ (.node 1 ⟨⟨5,5⟩,46,14,.right,1⟩ .nil .nil) (.node 1 ⟨⟨5,0⟩,43,19,.up,1⟩ .nil .nil)) (.node 2 ⟨⟨3,7⟩,45,14,.down,1⟩ (.node 1 ⟨⟨1,9⟩,48,14,.right,1⟩ .nil .nil) (.node 1 ⟨⟨5,2⟩,44,17,.down,1⟩ .nil .nil)))) (.node 3 ⟨⟨4,1⟩,40,19,.up,1⟩ (.node 3 ⟨⟨5,4⟩,44,15,.down,1⟩ (.node 2 ⟨⟨2,8⟩,47,14,.left,1⟩ (.node 1 ⟨⟨4,8⟩,51,12,.right,1⟩ .nil .nil) (.node 1 ⟨⟨4,1⟩,44,19,.left,3⟩ .nil .nil)) (.node 2 ⟨⟨3,7⟩,46,14,.down,1⟩ (.node 1 ⟨⟨3,5⟩,47,16,.up,1⟩ .nil .nil) (.node 1 ⟨⟨11,2⟩,50,11,.right,1⟩ (.node 1 ⟨⟨6,3⟩,46,15,.up,1⟩ .nil .nil) .nil))) (.node 2 ⟨⟨4,5⟩,47,15,.left,1⟩ (.node 1 ⟨⟨5,6⟩,49,13,.down,2⟩ (.node 1 ⟨⟨4,8⟩,50,12,.right,2⟩ .nil .nil) .nil) (.node 1 ⟨⟨6,5⟩,50,13,.right,1⟩ .nil .nil)))) (.node 3 ⟨⟨7,3⟩,44,14,.right,1⟩ (.node 4 ⟨⟨2,4⟩,40,18,.up,1⟩ (.node 4 ⟨⟨5,5⟩,44,14,.right,3⟩ (.node 3 ⟨⟨3,8⟩,46,13,.down,1⟩ (.node 3 ⟨⟨11,2⟩,48,11,.right,2⟩ (.node 3 ⟨⟨5,2⟩,43,17,.up,1⟩ (.node 2 ⟨⟨5,1⟩,43,18,.down,1⟩ (.node 1 ⟨⟨7,4⟩,50,13,.down,1⟩ .nil .nil) (.node 1 ⟨⟨4,0⟩,42,20,.left,3⟩ .nil .nil)) (.node 2 ⟨⟨3,8⟩,47,13,.right,2⟩ (.node 2 ⟨⟨7,2⟩,48,15,.up,1⟩ (.node 1 ⟨⟨6,5⟩,51,13,.right,2⟩ .nil .nil) (.node 1 ⟨⟨4,7⟩,50,13,.right,3⟩ (.node 1 ⟨⟨3,6⟩,49,15,.up,1⟩ .nil .nil) .nil)) (.node 1 ⟨⟨10,0⟩,46,14,.up,1⟩ .nil .nil))) (.node 2 ⟨⟨4,4⟩,43,16,.up,1⟩ (.node 2 ⟨⟨2,3⟩,40,19,.down,1⟩ (.node 2 ⟨⟨10,1⟩,47,13,.down,1⟩ (.node 1 ⟨⟨6,1⟩,44,17,.up,1⟩ .nil .nil) (.node 1 ⟨⟨6,3⟩,46,15,.down,1⟩ (.node 1 ⟨⟨5,2⟩,45,17,.left,2⟩ .nil .nil) .nil)) (.node 1 ⟨⟨6,4⟩,47,14,.down,1⟩ (.node 1 ⟨⟨4,5⟩,47,15,.up,1⟩ .nil .nil) .nil)) (.node 1 ⟨⟨1,7⟩,45,16,.up,1⟩ (.node 1 ⟨⟨5,6⟩,49,13,.right,3⟩ .nil .nil) .nil))) (.node 2 ⟨⟨10,1⟩,46,13,.right,3⟩ (.node 2 ⟨⟨4,4⟩,43,16,.left,1⟩ (.node 1 ⟨⟨4,7⟩,52,13,.right,1⟩ .nil .nil) (.node 1 ⟨⟨2,6⟩,45,16,.left,1⟩ (.node 1 ⟨⟨7,4⟩,49,13,.right,2⟩ (.node 1 ⟨⟨6,5⟩,49,13,.down,1⟩ .nil .nil) .nil) .nil)) (.node 1 ⟨⟨3,7⟩,47,14,.down,3⟩ .nil .nil))) (.node 3 ⟨⟨1,2⟩,38,21,.up,1⟩ (.node 2 ⟨⟨1,4⟩,41,19,.down,1⟩ (.node 1 ⟨⟨7,4⟩,48,13,.down,2⟩ .nil .nil) (.node 1 ⟨⟨2,3⟩,42,19,.up,3⟩ .nil .nil)) (.node 2 ⟨⟨11,2⟩,48,11,.right,3⟩ (.node 2 ⟨⟨6,3⟩,45,15,.left,1⟩ (.node 2 ⟨⟨7,3⟩,46,14,.down,3⟩ (.node 2 ⟨⟨10,0⟩,46,14,.up,1⟩ (.node 1 ⟨⟨1,8⟩,45,15,.right,1⟩ (.node 1 ⟨⟨3,5⟩,45,16,.left,1⟩ .nil .nil) .nil) (.node 1 ⟨⟨9,3⟩,49,12,.right,2⟩ (.node 1 ⟨⟨8,4⟩,50,12,.down,1⟩ (.node 1 ⟨⟨8,2⟩,49,14,.up,1⟩ .nil .nil) .nil) .nil)) (.node 1 ⟨⟨3,1⟩,40,20,.left,3⟩ (.node 1 ⟨⟨7,4⟩,51,13,.down,1⟩ .nil .nil) .nil)) (.node 1 ⟨⟨1,3⟩,40,20,.up,3⟩ .nil .nil)) (.node 1 ⟨⟨9,1⟩,46,14,.up,1⟩ (.node 1 ⟨⟨6,3⟩,45,15,.up,1⟩ .nil .nil) .nil)))) (.node 3 ⟨⟨4,6⟩,45,14,.down,1⟩ (.node 2 ⟨⟨9,3⟩,48,12,.right,3⟩ (.node 2 ⟨⟨5,2⟩,43,17,.left,1⟩ (.node 1 ⟨⟨1,8⟩,45,15,.left,1⟩ .nil .nil) (.node 1 ⟨⟨8,2⟩,48,14,.up,1⟩ (.node 1 ⟨⟨10,4⟩,52,10,.down,2⟩ .nil .nil) .nil)) (.node 1 ⟨⟨4,7⟩,50,13,.down,1⟩ .nil .nil)) (.node 2 ⟨⟨7,4⟩,47,13,.down,1⟩ (.node 1 ⟨⟨3,1⟩,42,20,.down,1⟩ (.node 1 ⟨⟨3,7⟩,48,14,.up,1⟩ .nil .nil) .nil) (.node 1 ⟨⟨4,3⟩,44,17,.left,2⟩ .nil .nil)))) (.node 2 ⟨⟨4,6⟩,45,14,.down,3⟩ (.node 2 ⟨⟨3,8⟩,48,13,.down,3⟩ (.node 1 ⟨⟨4,6⟩,48,14,.right,1⟩ .nil .nil) (.node 1 ⟨⟨2,7⟩,47,15,.left,1⟩ .nil .nil)) (.node 1 ⟨⟨3,3⟩,42,18,.up,2⟩ (.node 1 ⟨⟨6,5⟩,52,13,.right,1⟩ .nil .nil) .nil)))) (.node 2 ⟨⟨8,0⟩,44,16,.up,2⟩ (.node 1 ⟨⟨0,4⟩,40,20,.left,1⟩ .nil .nil) (.node 1 ⟨⟨7,1⟩,48,16,.left,1⟩ .nil .nil))) (.node 2 ⟨⟨6,5⟩,46,13,.down,3⟩ (.node 1 ⟨⟨5,6⟩,51,13,.down,3⟩ .nil .nil) (.node 1 ⟨⟨9,1⟩,48,14,.right,1⟩ (.node 1 ⟨⟨4,5⟩,49,15,.left,1⟩ .nil .nil) .nil)))) (.node 1 ⟨⟨8,1⟩,44,15,.up,1⟩ .nil .nil))) (.node 3 ⟨⟨7,1⟩,42,16,.down,1⟩ (.node 2 ⟨⟨2,7⟩,47,15,.up,1⟩ (.node 1 ⟨⟨5,4⟩,48,15,.up,1⟩ .nil .nil) (.node 1 ⟨⟨2,9⟩,50,13,.down,1⟩ .nil .nil)) (.node 2 ⟨⟨3,8⟩,48,13,.right,3⟩ (.node 1 ⟨⟨5,3⟩,46,16,.up,1⟩ .nil .nil) (.node 1 ⟨⟨8,4⟩,50,12,.down,2⟩ .nil .nil))))) (.node 2 ⟨⟨0,5⟩,40,19,.up,2⟩ (.node 2 ⟨⟨5,3⟩,43,16,.left,1⟩ (.node 1 ⟨⟨6,5⟩,48,13,.down,1⟩ (.node 2 ⟨⟨5,0⟩,42,19,.up,3⟩ (.node 1 ⟨⟨3,6⟩,50,15,.left,1⟩ .nil .nil) (.node 1 ⟨⟨5,6⟩,50,13,.right,1⟩ (.node 1 ⟨⟨4,7⟩,51,13,.down,2⟩ .nil .nil) .nil)) .nil) (.node 1 ⟨⟨7,3⟩,52,14,.left,1⟩ .nil .nil)) (.node 1 ⟨⟨4,3⟩,45,17,.up,1⟩ (.node 1 ⟨⟨5,1⟩,45,18,.left,3⟩ .nil .nil) .nil)))) (.node 4 ⟨⟨3,3⟩,40,18,.up,1⟩ (.node 4 ⟨⟨2,2⟩,38,20,.right,1⟩ (.node 3 ⟨⟨0,2⟩,36,22,.left,1⟩ (.node 3 ⟨⟨7,3⟩,44,14,.down,1⟩ (.node 2 ⟨⟨6,3⟩,46,15,.right,1⟩ (.node 1 ⟨⟨3,2⟩,43,19,.left,1⟩ .nil .nil) (.node 1 ⟨⟨4,3⟩,46,17,.up,2⟩ .nil .nil)) (.node 2 ⟨⟨8,3⟩,46,13,.right,3⟩ (.node 1 ⟨⟨3,6⟩,45,15,.up,1⟩ .nil .nil) (.node 1 ⟨⟨5,4⟩,46,15,.right,1⟩ (.node 1 ⟨⟨3,4⟩,47,17,.left,1⟩ .nil .nil) .nil))) (.node 2 ⟨⟨3,3⟩,40,18,.left,2⟩ (.node 2 ⟨⟨1,4⟩,40,19,.right,1⟩ (.node 1 ⟨⟨0,3⟩,38,21,.up,3⟩ (.node 1 ⟨⟨5,5⟩,45,14,.right,1⟩ .nil .nil) .nil) (.node 1 ⟨⟨7,4⟩,46,13,.right,1⟩ .nil .nil)) (.node 1 ⟨⟨3,5⟩,44,16,.left,1⟩ (.node 1 ⟨⟨10,1⟩,48,13,.left,1⟩ .nil .nil) .nil))) (.node 3 ⟨⟨4,0⟩,39,20,.up,1⟩ (.node 3 ⟨⟨6,1⟩,42,17,.up,2⟩ (.node 2 ⟨⟨1,9⟩,46,14,.right,1⟩ (.node 1 ⟨⟨5,4⟩,46,15,.left,1⟩ .nil .nil) (.node 1 ⟨⟨2,2⟩,41,20,.left,1⟩ (.node 1 ⟨⟨4,6⟩,50,14,.right,1⟩ .nil .nil) .nil)) (.node 2 ⟨⟨6,0⟩,42,18,.up,1⟩ (.node 3 ⟨⟨6,2⟩,45,16,.down,1⟩ (.node 2 ⟨⟨2,6⟩,47,16,.left,1⟩ (.node 1 ⟨⟨7,1⟩,48,16,.up,1⟩ .nil .nil) (.node 1 ⟨⟨6,2⟩,48,16,.left,2⟩ (.node 1 ⟨⟨7,3⟩,51,14,.down,1⟩ .nil .nil) .nil)) (.node 2 ⟨⟨10,3⟩,50,11,.down,3⟩ (.node 1 ⟨⟨3,1⟩,41,20,.up,3⟩ .nil .nil) (.node 1 ⟨⟨11,2⟩,51,11,.right,1⟩ (.node 1 ⟨⟨9,2⟩,50,13,.left,1⟩ .nil .nil) .nil))) (.node 1 ⟨⟨9,1⟩,49,14,.left,1⟩ .nil .nil))) (.node 2 ⟨⟨1,9⟩,45,14,.down,2⟩ (.node 2 ⟨⟨12,2⟩,49,10,.down,1⟩ (.node 1 ⟨⟨12,0⟩,48,12,.up,1⟩ (.node 1 ⟨⟨5,3⟩,44,16,.left,1⟩ .nil .nil) .nil) (.node 1 ⟨⟨0,8⟩,44,16,.left,1⟩ .nil .nil)) (.node 1 ⟨⟨4,7⟩,46,13,.right,2⟩ .nil .nil)))) (.node 3 ⟨⟨9,3⟩,46,12,.right,1⟩ (.node 2 ⟨⟨4,5⟩,45,15,.down,1⟩ (.node 1 ⟨⟨4,6⟩,46,14,.down,1⟩ (.node 1 ⟨⟨5,5⟩,47,14,.right,2⟩ .nil .nil) .nil) (.node 1 ⟨⟨3,4⟩,46,17,.left,2⟩ .nil .nil)) (.node 2 ⟨⟨5,4⟩,43,15,.left,1⟩ (.node 2 ⟨⟨4,6⟩,46,14,.right,3⟩ (.node 1 ⟨⟨7,2⟩,45,15,.right,1⟩ .nil .nil) (.node 1 ⟨⟨7,4⟩,49,13,.right,1⟩ .nil .nil)) (.node 1 ⟨⟨3,9⟩,49,12,.right,1⟩ (.node 1 ⟨⟨7,3⟩,49,14,.left,1⟩ (.node 1 ⟨⟨1,9⟩,50,14,.left,1⟩ .nil .nil) .nil) .nil)))))

/-- The visited bitmask of the part-1 search on `exampleGrid` after 850
loop iterations. -/
def exampleVis850 : Nat :=
  121963166595857362838710987171495987763675427658517470197734407625457995693314389700586538339474393074197250241278095801938826251641490137979441473367285816727488771494935474617934732681320113630373305757724003814063632973333465181818254961731262149360946664849969074431116477984063278184315770668132196913597148221172091817526300901322253468830926405343567915734628241876375055847945212678357963251373584144329509539214618396411494212092491607506424689013035423968281279214515377813367452477135101830723043183198744285648434425658864386783951203671578588891973895461706511740733591277853156198282224936453946994201078907484426147271330080875335100650191966626235009336271077569869691675836582410948328296039602611903573122125288140349458126914237388853589022183909773976201271126800398

/-- The queue of the part-1 search on `exampleGrid` after 1275 loop
iterations (verified by computation in the slice theorems below);
recorded literally so that the long run can be replayed in
bounded-depth slices. -/
def exampleHeap1275 : Heap :=
  (.node 5 ⟨⟨6,5⟩,51,13,.right,1⟩ (.node 5 ⟨⟨10,3⟩,53,11,.right,3⟩ (.node 5 ⟨⟨5,6⟩,52,13,.right,1⟩ (.node 5 ⟨⟨6,5⟩,52,13,.right,1⟩ (.node 4 ⟨⟨7,5⟩,53,12,.down,1⟩ (.node 4 ⟨⟨2,7⟩,50,15,.left,1⟩ (.node 4 ⟨⟨4,7⟩,52,13,.down,3⟩ (.node 3 ⟨⟨9,0⟩,50,15,.up,1⟩ (.node 3 ⟨⟨1,7⟩,51,16,.right,1⟩ (.node 2 ⟨⟨11,3⟩,58,10,.left,1⟩ (.node 1 ⟨⟨4,8⟩,60,12,.down,3⟩ .nil .nil) (.node 1 ⟨⟨3,7⟩,58,14,.left,1⟩ .nil .nil)) (.node 2 ⟨⟨0,6⟩,49,18,.up,2⟩ (.node 1 ⟨⟨2,8⟩,53,14,.left,1⟩ .nil .nil) (.node 1 ⟨⟨5,7⟩,56,12,.down,1⟩ (.node 1 ⟨⟨5,7⟩,58,12,.right,1⟩ .nil .nil) .nil))) (.node 2 ⟨⟨8,2⟩,51,14,.up,1⟩ (.node 1 ⟨⟨8,1⟩,52,15,.left,2⟩ .nil .nil) (.node 1 ⟨⟨1,8⟩,53,15,.left,2⟩ .nil .nil))) (.node 3 ⟨⟨4,2⟩,48,18,.up,3⟩ (.node 3 ⟨⟨9,3⟩,54,12,.down,1⟩ (.node 2 ⟨⟨3,1⟩,47,20,.left,1⟩ (.node 1 ⟨⟨3,5⟩,53,16,.up,2⟩ .nil .nil) (.node 1 ⟨⟨8,2⟩,54,14,.left,2⟩ .nil .nil)) (.node 2 ⟨⟨8,4⟩,54,12,.right,1⟩ (.node 2 ⟨⟨12,4⟩,59,8,.down,2⟩ (.node 1 ⟨⟨9,1⟩,54,14,.up,1⟩ .nil .nil) (.node 1 ⟨⟨5,7⟩,56,12,.right,2⟩ (.node 1 ⟨⟨9,4⟩,57,11,.right,1⟩ .nil .nil) .nil)) (.node 1 ⟨⟨6,6⟩,57,12,.right,1⟩ (.node 1 ⟨⟨7,4⟩,58,13,.left,1⟩ (.node 1 ⟨⟨4,6⟩,59,14,.left,1⟩ .nil .nil) .nil) .nil))) (.node 2 ⟨⟨2,7⟩,51,15,.left,1⟩ (.node 2 ⟨⟨8,4⟩,55,12,.right,3⟩ (.node 1 ⟨⟨7,5⟩,56,12,.down,1⟩ (.node 1 ⟨⟨4,7⟩,55,13,.right,1⟩ (.node 1 ⟨⟨7,3⟩,57,14,.up,1⟩ .nil .nil) .nil) .nil) (.node 1 ⟨⟨4,7⟩,56,13,.right,1⟩ .nil .nil)) (.node 1 ⟨⟨9,2⟩,53,13,.up,1⟩ .nil .nil)))) (.node 3 ⟨⟨3,11⟩,55,10,.down,3⟩ (.node 2 ⟨⟨3,6⟩,51,15,.up,1⟩ (.node 2 ⟨⟨2,11⟩,55,11,.right,1⟩ (.node 1 ⟨⟨0,11⟩,53,13,.left,1⟩ (.node 1 ⟨⟨4,7⟩,59,13,.up,1⟩ .nil .nil) .nil) (.node 1 ⟨⟨5,5⟩,58,14,.left,1⟩ .nil .nil)) (.node 1 ⟨⟨6,6⟩,55,12,.down,3⟩ .nil .nil)) (.node 2 ⟨⟨3,6⟩,52,15,.left,1⟩ (.node 1 ⟨⟨3,3⟩,52,18,.left,1⟩ .nil .nil) (.node 1 ⟨⟨5,3⟩,54,16,.right,1⟩ .nil .nil)))) (.node 3 ⟨⟨12,1⟩,54,11,.up,1⟩ (.node 2 ⟨⟨1,10⟩,53,13,.left,2⟩ (.node 1 ⟨⟨2,11⟩,55,11,.down,1⟩ (.node 1 ⟨⟨5,8⟩,57,11,.right,2⟩ (.node 1 ⟨⟨2,9⟩,57,13,.up,1⟩ .nil .nil) .nil) .nil) (.node 1 ⟨⟨9,2⟩,56,13,.up,1⟩ .nil .nil)) (.node 2 ⟨⟨9,1⟩,53,14,.left,2⟩ (.node 2 ⟨⟨1,8⟩,52,15,.up,1⟩ (.node 2 ⟨⟨1,4⟩,49,19,.right,1⟩ (.node 1 ⟨⟨4,6⟩,57,14,.up,1⟩ .nil .nil) (.node 1 ⟨⟨8,3⟩,56,13,.left,2⟩ .nil .nil)) (.node 1 ⟨⟨9,4⟩,59,11,.down,1⟩ .nil .nil)) (.node 1 ⟨⟨5,3⟩,53,16,.left,1⟩ .nil .nil)))) (.node 4 ⟨⟨8,4⟩,53,12,.right,1⟩ (.node 3 ⟨⟨5,1⟩,47,18,.right,1⟩ (.node 2 ⟨⟨4,5⟩,51,15,.up,1⟩ (.node 1 ⟨⟨3,9⟩,56,12,.up,1⟩ .nil .nil) (.node 1 ⟨⟨3,11⟩,58,10,.down,1⟩ .nil .nil)) (.node 2 ⟨⟨11,5⟩,60,8,.down,1⟩ (.node 1 ⟨⟨4,6⟩,54,14,.up,1⟩ (.node 1 ⟨⟨11,3⟩,60,10,.up,1⟩ .nil .nil) .nil) (.node 1 ⟨⟨12,4⟩,61,8,.right,2⟩ .nil .nil))) (.node 3 ⟨⟨10,1⟩,52,13,.right,1⟩ (.node 3 ⟨⟨6,4⟩,52,14,.down,1⟩ (.node 2 ⟨⟨4,10⟩,56,10,.right,1⟩ (.node 2 ⟨⟨7,5⟩,54,12,.down,2⟩ (.node 2 ⟨⟨2,6⟩,50,16,.left,1⟩ (.node 1 ⟨⟨6,2⟩,50,16,.left,1⟩ .nil .nil) (.node 1 ⟨⟨4,6⟩,53,14,.right,1⟩ .nil .nil)) (.node 1 ⟨⟨6,4⟩,54,14,.left,1⟩ .nil .nil)) (.node 1 ⟨⟨5,3⟩,53,16,.left,2⟩ .nil .nil)) (.node 2 ⟨⟨6,2⟩,50,16,.up,1⟩ (.node 1 ⟨⟨4,7⟩,54,13,.down,1⟩ .nil .nil) (.node 1 ⟨⟨6,5⟩,55,13,.right,3⟩ .nil .nil))) (.node 2 ⟨⟨2,9⟩,52,13,.left,1⟩ (.node 2 ⟨⟨12,1⟩,54,11,.down,1⟩ (.node 1 ⟨⟨7,3⟩,53,14,.right,1⟩ .nil .nil) (.node 1 ⟨⟨0,8⟩,52,16,.up,1⟩ .nil .nil)) (.node 1 ⟨⟨5,6⟩,54,13,.down,1⟩ (.node 1 ⟨⟨9,4⟩,56,11,.down,1⟩ (.node 2 ⟨⟨12,4⟩,60,8,.down,1⟩ (.node 1 ⟨⟨6,4⟩,58,14,.up,1⟩ .nil .nil) (.node 1 ⟨⟨6,6⟩,57,12,.down,1⟩ .nil .nil)) .nil) .nil))))) (.node 4 ⟨⟨6,3⟩,50,15,.up,1⟩ (.node 3 ⟨⟨9,2⟩,52,13,.right,1⟩ (.node 4 ⟨⟨2,9⟩,52,13,.right,2⟩ (.node 3 ⟨⟨4,2⟩,47,18,.left,3⟩ (.node 2 ⟨⟨7,5⟩,55,12,.right,1⟩ (.node 1 ⟨⟨5,5⟩,57,14,.left,1⟩ .nil .nil) (.node 1 ⟨⟨10,1⟩,56,13,.down,1⟩ .nil .nil)) (.node 2 ⟨⟨9,2⟩,53,13,.down,1⟩ (.node 1 ⟨⟨0,9⟩,51,15,.up,1⟩ .nil .nil) (.node 1 ⟨⟨9,0⟩,51,15,.left,2⟩ (.node 1 ⟨⟨4,8⟩,54,12,.right,1⟩ .nil .nil) .nil))) (.node 3 ⟨⟨11,3⟩,55,10,.right,1⟩ (.node 4 ⟨⟨7,3⟩,51,14,.down,1⟩ (.node 3 ⟨⟨3,4⟩,48,17,.up,2⟩ (.node 2 ⟨⟨12,4⟩,57,8,.down,3⟩ (.node 1 ⟨⟨0,9⟩,51,15,.down,1⟩ .nil .nil) (.node 1 ⟨⟨4,10⟩,58,10,.right,2⟩ (.node 1 ⟨⟨3,11⟩,58,10,.down,1⟩ (.node 1 ⟨⟨3,9⟩,56,12,.up,1⟩ (.node 1 ⟨⟨5,1⟩,50,18,.up,3⟩ .nil .nil) .nil) .nil) .nil)) (.node 2 ⟨⟨11,3⟩,55,10,.right,2⟩ (.node 1 ⟨⟨10,4⟩,55,10,.down,1⟩ .nil .nil) (.node 1 ⟨⟨0,7⟩,50,17,.up,1⟩ (.node 1 ⟨⟨5,5⟩,58,14,.up,1⟩ .nil .nil) .nil))) (.node 3 ⟨⟨3,12⟩,56,9,.right,1⟩ (.node 5 ⟨⟨1,7⟩,49,16,.up,1⟩ (.node 4 ⟨⟨11,4⟩,56,9,.down,2⟩ (.node 3 ⟨⟨6,6⟩,54,12,.down,2⟩ (.node 2 ⟨⟨5,1⟩,50,18,.up,1⟩ (.node 1 ⟨⟨5,5⟩,56,14,.right,1⟩ .nil .nil) (.node 1 ⟨⟨5,3⟩,53,16,.down,1⟩ .nil .nil)) (.node 2 ⟨⟨3,10⟩,55,11,.right,1⟩ (.node 1 ⟨⟨1,10⟩,53,13,.left,1⟩ (.node 1 ⟨⟨2,11⟩,55,11,.down,3⟩ (.node 2 ⟨⟨1,4⟩,47,19,.up,3⟩ (.node 1 ⟨⟨4,4⟩,53,16,.up,2⟩ .nil .nil) (.node 1 ⟨⟨3,5⟩,55,16,.left,1⟩ .nil .nil)) .nil) .nil) (.node 1 ⟨⟨10,3⟩,57,11,.left,1⟩ .nil .nil))) (.node 3 ⟨⟨5,1⟩,47,18,.down,1⟩ (.node 3 ⟨⟨11,0⟩,52,13,.up,2⟩ (.node 3 ⟨⟨5,7⟩,53,12,.right,3⟩ (.node 2 ⟨⟨3,8⟩,53,13,.up,1⟩ (.node 2 ⟨⟨6,3⟩,51,15,.left,1⟩ (.node 1 ⟨⟨4,8⟩,59,12,.down,2⟩ .nil .nil) (.node 1 ⟨⟨5,7⟩,57,12,.right,1⟩ (.node 1 ⟨⟨3,7⟩,57,14,.left,1⟩ .nil .nil) .nil)) (.node 1 ⟨⟨11,3⟩,56,10,.left,1⟩ (.node 1 ⟨⟨2,4⟩,49,18,.up,1⟩ (.node 1 ⟨⟨0,6⟩,50,18,.left,3⟩ .nil .nil) .nil) .nil)) (.node 2 ⟨⟨0,10⟩,51,14,.left,2⟩ (.node 2 ⟨⟨5,0⟩,47,19,.left,1⟩ (.node 1 ⟨⟨1,5⟩,49,18,.left,3⟩ .nil .nil) (.node 1 ⟨⟨1,11⟩,55,12,.down,1⟩ (.node 1 ⟨⟨1,9⟩,55,14,.up,1⟩ .nil .nil) .nil)) (.node 1 ⟨⟨4,7⟩,53,13,.down,1⟩ (.node 1 ⟨⟨4,9⟩,55,11,.right,1⟩ .nil .nil) .nil))) (.node 2 ⟨⟨1,7⟩,50,16,.left,2⟩ (.node 1 ⟨⟨10,1⟩,55,13,.up,1⟩ .nil .nil) (.node 1 ⟨⟨10,1⟩,56,13,.left,1⟩ .nil .nil))) (.node 2 ⟨⟨6,1⟩,48,17,.left,3⟩ (.node 1 ⟨⟨7,0⟩,48,17,.up,1⟩ (.node 1 ⟨⟨7,2⟩,51,15,.down,1⟩ .nil .nil) .nil) (.node 1 ⟨⟨5,5⟩,55,14,.left,1⟩ .nil .nil)))) (.node 4 ⟨⟨10,0⟩,51,14,.up,1⟩ (.node 3 ⟨⟨4,1⟩,46,19,.down,1⟩ (.node 2 ⟨⟨4,8⟩,55,12,.down,1⟩ (.node 1 ⟨⟨5,3⟩,51,16,.up,1⟩ .nil .nil) (.node 1 ⟨⟨4,7⟩,58,13,.up,1⟩ .nil .nil)) (.node 2 ⟨⟨4,2⟩,47,18,.left,1⟩ (.node 2 ⟨⟨2,11⟩,55,11,.right,1⟩ (.node 1 ⟨⟨8,5⟩,59,11,.down,3⟩ .nil .nil) (.node 1 ⟨⟨6,2⟩,50,16,.right,1⟩ .nil .nil)) (.node 1 ⟨⟨0,7⟩,48,17,.left,1⟩ .nil .nil))) (.node 3 ⟨⟨1,10⟩,52,13,.down,1⟩ (.node 3 ⟨⟨3,9⟩,53,12,.right,1⟩ (.node 3 ⟨⟨2,10⟩,53,12,.down,1⟩ (.node 2 ⟨⟨7,5⟩,53,12,.right,1⟩ (.node 1 ⟨⟨6,4⟩,55,14,.right,1⟩ .nil .nil) (.node 1 ⟨⟨12,4⟩,60,8,.down,1⟩ (.node 1 ⟨⟨2,8⟩,56,14,.up,1⟩ .nil .nil) .nil)) (.node 2 ⟨⟨7,3⟩,52,14,.left,1⟩ (.node 2 ⟨⟨4,10⟩,57,10,.down,1⟩ (.node 1 ⟨⟨2,9⟩,55,13,.left,1⟩ (.node 1 ⟨⟨4,8⟩,60,12,.up,1⟩ .nil .nil) .nil) (.node 1 ⟨⟨5,9⟩,58,10,.right,2⟩ (.node 1 ⟨⟨0,9⟩,54,15,.left,2⟩ .nil .nil) .nil)) (.node 1 ⟨⟨1,9⟩,54,14,.left,1⟩ (.node 1 ⟨⟨1,9⟩,56,14,.left,2⟩ .nil .nil) .nil))) (.node 2 ⟨⟨11,3⟩,55,10,.down,1⟩ (.node 2 ⟨⟨12,3⟩,56,9,.down,1⟩ (.node 2 ⟨⟨10,4⟩,55,10,.down,1⟩ (.node 1 ⟨⟨10,0⟩,53,14,.left,2⟩ .nil .nil) (.node 1 ⟨⟨12,1⟩,57,11,.up,1⟩ (.node 1 ⟨⟨8,4⟩,59,12,.left,1⟩ .nil .nil) .nil)) (.node 1 ⟨⟨11,2⟩,57,11,.up,1⟩ .nil .nil)) (.node 1 ⟨⟨1,11⟩,54,12,.right,1⟩ .nil .nil))) (.node 2 ⟨⟨2,6⟩,49,16,.up,1⟩ (.node 4 ⟨⟨1,9⟩,51,14,.left,1⟩ (.node 3 ⟨⟨2,9⟩,53,13,.down,1⟩ (.node 2 ⟨⟨5,8⟩,56,11,.right,3⟩ (.node 1 ⟨⟨3,3⟩,52,18,.up,1⟩ .nil .nil) (.node 1 ⟨⟨3,5⟩,54,16,.down,1⟩ .nil .nil)) (.node 2 ⟨⟨4,9⟩,56,11,.down,1⟩ (.node 1 ⟨⟨2,4⟩,50,18,.left,3⟩ .nil .nil) (.node 1 ⟨⟨6,4⟩,57,14,.up,1⟩ .nil .nil))) (.node 3 ⟨⟨2,7⟩,50,15,.up,1⟩ (.node 3 ⟨⟨1,12⟩,54,11,.down,2⟩ (.node 2 ⟨⟨10,1⟩,53,13,.up,1⟩ (.node 2 ⟨⟨4,9⟩,55,11,.right,2⟩ (.node 2 ⟨⟨2,10⟩,55,12,.left,1⟩ (.node 1 ⟨⟨3,11⟩,59,10,.down,2⟩ .nil .nil) (.node 1 ⟨⟨4,10⟩,59,10,.right,1⟩ .nil .nil)) (.node 1 ⟨⟨4,4⟩,53,16,.up,1⟩ .nil .nil)) (.node 1 ⟨⟨0,11⟩,53,13,.left,1⟩ .nil .nil)) (.node 2 ⟨⟨1,6⟩,49,17,.up,2⟩ (.node 2 ⟨⟨11,5⟩,60,8,.down,2⟩ (.node 2 ⟨⟨5,7⟩,56,12,.down,3⟩ (.node 1 ⟨⟨3,6⟩,55,15,.up,2⟩ .nil .nil) (.node 1 ⟨⟨4,6⟩,57,14,.left,1⟩ .nil .nil)) (.node 1 ⟨⟨12,4⟩,61,8,.right,1⟩ (.node 1 ⟨⟨10,4⟩,60,10,.left,1⟩ .nil .nil) .nil)) (.node 1 ⟨⟨4,0⟩,48,20,.up,1⟩ (.node 1 ⟨⟨12,2⟩,58,10,.up,1⟩ (.node 1 ⟨⟨1,11⟩,57,12,.left,1⟩ .nil .nil) .nil) .nil))) (.node 2 ⟨⟨1,11⟩,54,12,.right,1⟩ (.node 2 ⟨⟨6,6⟩,56,12,.down,1⟩ (.node 1 ⟨⟨4,6⟩,55,14,.down,1⟩ (.node 1 ⟨⟨3,5⟩,55,16,.left,2⟩ .nil .nil) .nil) (.node 1 ⟨⟨7,5⟩,57,12,.right,2⟩ .nil .nil)) (.node 1 ⟨⟨1,8⟩,56,15,.up,1⟩ .nil .nil)))) (.node 1 ⟨⟨6,6⟩,55,12,.right,1⟩ (.node 1 ⟨⟨1,12⟩,57,11,.left,1⟩ .nil .nil) .nil))))) (.node 2 ⟨⟨7,2⟩,52,15,.left,2⟩ (.node 2 ⟨⟨7,5⟩,56,12,.right,1⟩ (.node 1 ⟨⟨5,3⟩,56,16,.up,2⟩ .nil .nil) (.node 1 ⟨⟨4,4⟩,54,16,.left,1⟩ .nil .nil)) (.node 1 ⟨⟨10,4⟩,58,10,.right,1⟩ .nil .nil)))) (.node 2 ⟨⟨9,2⟩,53,13,.left,2⟩ (.node 3 ⟨⟨2,6⟩,50,16,.down,1⟩ (.node 2 ⟨⟨6,3⟩,53,15,.down,1⟩ (.node 1 ⟨⟨6,1⟩,51,17,.up,1⟩ (.node 1 ⟨⟨1,7⟩,52,16,.down,1⟩ .nil .nil) .nil) (.node 1 ⟨⟨5,2⟩,52,17,.left,3⟩ .nil .nil)) (.node 2 ⟨⟨9,3⟩,55,12,.left,1⟩ (.node 2 ⟨⟨11,2⟩,57,11,.right,1⟩ (.node 1 ⟨⟨9,2⟩,56,13,.left,1⟩ (.node 1 ⟨⟨10,1⟩,58,13,.up,2⟩ .nil .nil) .nil) (.node 1 ⟨⟨9,5⟩,61,10,.down,3⟩ .nil .nil)) (.node 1 ⟨⟨10,4⟩,58,10,.right,1⟩ (.node 1 ⟨⟨1,5⟩,50,18,.up,1⟩ (.node 1 ⟨⟨8,4⟩,59,12,.left,1⟩ .nil .nil) .nil) .nil))) (.node 1 ⟨⟨2,4⟩,48,18,.down,1⟩ (.node 1 ⟨⟨2,2⟩,49,20,.up,1⟩ (.node 1 ⟨⟨4,8⟩,58,12,.down,1⟩ .nil .nil) .nil) .nil)))) (.node 2 ⟨⟨6,5⟩,53,13,.down,1⟩ (.node 2 ⟨⟨8,3⟩,56,13,.up,1⟩ (.node 1 ⟨⟨4,6⟩,58,14,.up,1⟩ .nil .nil) (.node 1 ⟨⟨9,4⟩,59,11,.right,3⟩ (.node 1 ⟨⟨8,5⟩,61,11,.down,1⟩ .nil .nil) .nil)) (.node 1 ⟨⟨11,0⟩,53,13,.up,1⟩ (.node 2 ⟨⟨8,1⟩,51,15,.up,2⟩ (.node 1 ⟨⟨1,3⟩,46,20,.left,1⟩ (.node 1 ⟨⟨7,5⟩,55,12,.down,3⟩ .nil .nil) .nil) (.node 1 ⟨⟨7,2⟩,54,15,.left,1⟩ .nil .nil)) .nil))) (.node 3 ⟨⟨11,2⟩,54,11,.left,1⟩ (.node 3 ⟨⟨1,9⟩,51,14,.up,1⟩ (.node 3 ⟨⟨10,5⟩,56,9,.down,3⟩ (.node 2 ⟨⟨2,9⟩,54,13,.up,1⟩ (.node 2 ⟨⟨11,2⟩,56,11,.down,1⟩ (.node 1 ⟨⟨10,1⟩,57,13,.left,2⟩ .nil .nil) (.node 1 ⟨⟨9,4⟩,59,11,.left,1⟩ .nil .nil)) (.node 1 ⟨⟨6,3⟩,54,15,.left,2⟩ .nil .nil)) (.node 2 ⟨⟨7,4⟩,52,13,.down,3⟩ (.node 1 ⟨⟨9,3⟩,54,12,.left,1⟩ .nil .nil) (.node 1 ⟨⟨8,4⟩,56,12,.down,1⟩ (.node 1 ⟨⟨3,11⟩,58,10,.right,1⟩ .nil .nil) .nil))) (.node 2 ⟨⟨5,5⟩,52,14,.down,1⟩ (.node 1 ⟨⟨7,2⟩,55,15,.up,1⟩ .nil .nil) (.node 1 ⟨⟨7,4⟩,57,13,.down,1⟩ .nil .nil))) (.node 2 ⟨⟨4,10⟩,58,10,.right,3⟩ (.node 1 ⟨⟨3,11⟩,58,10,.down,1⟩ (.node 1 ⟨⟨3,9⟩,56,12,.up,1⟩ (.node 1 ⟨⟨8,2⟩,55,14,.up,1⟩ .nil .nil) .nil) .nil) (.node 1 ⟨⟨4,9⟩,57,11,.down,1⟩ (.node 1 ⟨⟨11,2⟩,58,11,.left,1⟩ (.node 1 ⟨⟨4,8⟩,59,12,.down,1⟩ .nil .nil) .nil) .nil))))) (.node 4 ⟨⟨10,2⟩,52,12,.right,1⟩ (.node 3 ⟨⟨1,4⟩,45,19,.up,1⟩ (.node 2 ⟨⟨2,10⟩,52,12,.down,1⟩ (.node 2 ⟨⟨0,12⟩,53,12,.down,2⟩ (.node 1 ⟨⟨7,5⟩,55,12,.down,1⟩ (.node 1 ⟨⟨7,3⟩,54,14,.up,1⟩ (.node 1 ⟨⟨7,3⟩,56,14,.up,1⟩ .nil .nil) .nil) .nil) (.node 1 ⟨⟨2,8⟩,55,14,.up,1⟩ (.node 1 ⟨⟨4,8⟩,57,12,.right,1⟩ .nil .nil) .nil)) (.node 1 ⟨⟨3,9⟩,54,12,.right,2⟩ (.node 1 ⟨⟨3,7⟩,55,14,.up,1⟩ .nil .nil) .nil)) (.node 2 ⟨⟨1,5⟩,47,18,.down,1⟩ (.node 2 ⟨⟨0,4⟩,45,20,.up,1⟩ (.node 2 ⟨⟨1,5⟩,47,18,.left,1⟩ (.node 1 ⟨⟨2,4⟩,47,18,.up,3⟩ (.node 1 ⟨⟨4,4⟩,49,16,.left,2⟩ .nil .nil) .nil) (.node 1 ⟨⟨1,9⟩,51,14,.right,1⟩ (.node 1 ⟨⟨3,5⟩,51,16,.right,1⟩ .nil .nil) .nil)) (.node 1 ⟨⟨6,6⟩,56,12,.right,2⟩ (.node 1 ⟨⟨5,7⟩,57,12,.down,1⟩ (.node 1 ⟨⟨5,5⟩,59,14,.up,1⟩ .nil .nil) .nil) .nil)) (.node 1 ⟨⟨1,3⟩,47,20,.up,1⟩ (.node 1 ⟨⟨5,4⟩,52,15,.up,1⟩ .nil .nil) .nil))) (.node 3 ⟨⟨3,2⟩,45,19,.down,1⟩ (.node 2 ⟨⟨4,8⟩,56,12,.right,3⟩ (.node 1 ⟨⟨9,1⟩,55,14,.up,2⟩ .nil .nil) (.node 1 ⟨⟨8,2⟩,55,14,.left,1⟩ .nil .nil)) (.node 2 ⟨⟨3,0⟩,43,21,.up,1⟩ (.node 4 ⟨⟨1,11⟩,53,12,.down,2⟩ (.node 3 ⟨⟨2,3⟩,46,19,.left,1⟩ (.node 2 ⟨⟨3,3⟩,47,18,.down,1⟩ (.node 1 ⟨⟨3,1⟩,46,20,.up,1⟩ .nil .nil) (.node 1 ⟨⟨3,2⟩,47,19,.up,3⟩ (.node 1 ⟨⟨2,9⟩,54,13,.up,1⟩ .nil .nil) .nil)) (.node 2 ⟨⟨11,3⟩,55,10,.right,3⟩ (.node 2 ⟨⟨9,2⟩,52,13,.up,1⟩ (.node 1 ⟨⟨6,2⟩,50,16,.up,2⟩ .nil .nil) (.node 1 ⟨⟨9,4⟩,55,11,.down,1⟩ .nil .nil)) (.node 1 ⟨⟨4,7⟩,52,13,.right,1⟩ (.node 1 ⟨⟨4,4⟩,50,16,.down,1⟩ (.node 1 ⟨⟨3,3⟩,50,18,.left,3⟩ .nil .nil) .nil) .nil))) (.node 3 ⟨⟨3,3⟩,48,18,.right,1⟩ (.node 2 ⟨⟨10,3⟩,56,11,.left,1⟩ (.node 1 ⟨⟨5,7⟩,57,12,.down,2⟩ .nil .nil) (.node 1 ⟨⟨4,6⟩,58,14,.left,1⟩ .nil .nil)) (.node 2 ⟨⟨12,2⟩,58,10,.up,1⟩ (.node 1 ⟨⟨6,6⟩,56,12,.right,1⟩ (.node 1 ⟨⟨3,7⟩,54,14,.up,1⟩ .nil .nil) .nil) (.node 1 ⟨⟨7,5⟩,58,12,.right,3⟩ (.node 1 ⟨⟨11,3⟩,60,10,.left,1⟩ .nil .nil) .nil)))) (.node 1 ⟨⟨9,4⟩,53,11,.down,1⟩ .nil .nil))))) (.node 4 ⟨⟨8,0⟩,48,16,.left,2⟩ (.node 3 ⟨⟨1,10⟩,51,13,.right,1⟩ (.node 2 ⟨⟨3,4⟩,47,17,.left,1⟩ (.node 2 ⟨⟨3,4⟩,48,17,.up,1⟩ (.node 1 ⟨⟨12,1⟩,55,11,.up,1⟩ (.node 2 ⟨⟨10,0⟩,52,14,.up,2⟩ (.node 2 ⟨⟨4,0⟩,46,20,.left,1⟩ (.node 1 ⟨⟨2,6⟩,51,16,.up,2⟩ .nil .nil) (.node 1 ⟨⟨1,7⟩,52,16,.left,1⟩ .nil .nil)) (.node 1 ⟨⟨9,1⟩,54,14,.left,1⟩ .nil .nil)) .nil) (.node 1 ⟨⟨5,2⟩,49,17,.down,1⟩ .nil .nil)) (.node 1 ⟨⟨5,0⟩,48,19,.up,1⟩ .nil .nil)) (.node 2 ⟨⟨0,11⟩,51,13,.down,2⟩ (.node 2 ⟨⟨3,6⟩,50,15,.left,1⟩ (.node 1 ⟨⟨7,4⟩,56,13,.left,1⟩ .nil .nil) (.node 1 ⟨⟨9,4⟩,55,11,.right,1⟩ (.node 1 ⟨⟨7,3⟩,58,14,.left,2⟩ .nil .nil) .nil)) (.node 1 ⟨⟨8,4⟩,52,12,.down,1⟩ .nil .nil))) (.node 3 ⟨⟨5,1⟩,47,18,.left,1⟩ (.node 2 ⟨⟨5,6⟩,52,13,.right,2⟩ (.node 2 ⟨⟨3,6⟩,51,15,.left,1⟩ (.node 1 ⟨⟨7,1⟩,50,16,.up,2⟩ .nil .nil) (.node 1 ⟨⟨6,4⟩,55,14,.left,1⟩ .nil .nil)) (.node 1 ⟨⟨11,4⟩,57,9,.right,1⟩ .nil .nil)) (.node 2 ⟨⟨4,5⟩,50,15,.up,1⟩ (.node 2 ⟨⟨11,3⟩,55,10,.down,2⟩ (.node 2 ⟨⟨4,10⟩,55,10,.right,1⟩ (.node 1 ⟨⟨8,5⟩,58,11,.down,2⟩ .nil .nil) (.node 1 ⟨⟨9,4⟩,56,11,.right,1⟩ (.node 1 ⟨⟨7,4⟩,57,13,.left,1⟩ .nil .nil) .nil)) (.node 1 ⟨⟨9,1⟩,52,14,.down,1⟩ .nil .nil)) (.node 1 ⟨⟨3,7⟩,53,14,.right,1⟩ (.node 1 ⟨⟨9,4⟩,61,11,.left,1⟩ .nil .nil) .nil)))))

/-- The visited bitmask of the part-1 search on `exampleGrid` after 1275
loop iterations. -/
def exampleVis1275 : Nat :=
  230142203972507733112925947624952921214908208072392017221807701298773824364639779120554330133448661463955358801964482726252612704919490201082278412064723362145738807480648037660838209642597125579065562670375261368884652233811231912361134435905682302521625552712521561534469099892382568335190735338209583036606553013397849720582678509940862341381273428937648216603407153620322399436791183885186669697421161224847549189974981229351594425696372780857242649056888509193025995723645282825841561852900841366039301320473671214779583820361468929393630635906351311264878672273484293098529593269556004050589242814393944872334103755354667625876941025061409221954003125039390211778786630838786337253922182345115885426076813628571322986786586176734734512064360189605993162803334956555509218824036781946848424128079535900494432726042110404868951539824906421562948801496759289505516689835085906658047722541935978253148466997733927380014751051467201621918686280423585806

/-- The queue of the part-1 search on `exampleGrid` after 1700 loop
iterations (verified by computation in the slice theorems below);
recorded literally so that the long run can be replayed in
bounded-depth slices. -/
def exampleHeap1700 : Heap :=
  (.node 3 ⟨⟨6,1⟩,53,17,.right,1⟩ (.node 5 ⟨⟨7,4⟩,57,13,.left,1⟩ (.node 4 ⟨⟨7,5⟩,58,12,.right,3⟩ (.node 4 ⟨⟨5,5⟩,56,14,.right,1⟩ (.node 3 ⟨⟨6,6⟩,58,12,.right,3⟩ (.node 5 ⟨⟨8,5⟩,59,11,.down,3⟩ (.node 4 ⟨⟨1,6⟩,53,17,.down,1⟩ (.node 5 ⟨⟨9,3⟩,58,12,.down,1⟩ (.node 4 ⟨⟨8,3⟩,57,13,.up,1⟩ (.node 3 ⟨⟨9,4⟩,60,11,.right,2⟩ (.node 2 ⟨⟨8,2⟩,57,14,.down,1⟩ (.node 1 ⟨⟨7,1⟩,57,16,.left,3⟩ .nil .nil) (.node 1 ⟨⟨5,6⟩,64,13,.up,1⟩ .nil .nil)) (.node 2 ⟨⟨10,4⟩,61,10,.down,1⟩ (.node 2 ⟨⟨3,8⟩,58,13,.up,1⟩ (.node 2 ⟨⟨4,11⟩,63,9,.down,1⟩ (.node 1 ⟨⟨6,7⟩,64,11,.right,2⟩ .nil .nil) (.node 1 ⟨⟨5,8⟩,63,11,.down,1⟩ .nil .nil)) (.node 1 ⟨⟨4,9⟩,64,11,.up,1⟩ .nil .nil)) (.node 1 ⟨⟨9,3⟩,61,12,.left,2⟩ (.node 1 ⟨⟨0,12⟩,61,12,.left,2⟩ .nil .nil) .nil))) (.node 3 ⟨⟨6,1⟩,53,17,.up,3⟩ (.node 3 ⟨⟨0,8⟩,55,16,.up,2⟩ (.node 2 ⟨⟨8,4⟩,59,12,.left,1⟩ (.node 2 ⟨⟨9,0⟩,56,15,.up,3⟩ (.node 1 ⟨⟨3,11⟩,62,10,.up,1⟩ (.node 1 ⟨⟨4,11⟩,64,9,.right,1⟩ .nil .nil) .nil) (.node 1 ⟨⟨8,1⟩,58,15,.left,1⟩ .nil .nil)) (.node 1 ⟨⟨12,5⟩,64,7,.right,1⟩ (.node 1 ⟨⟨10,5⟩,64,9,.left,1⟩ (.node 1 ⟨⟨11,6⟩,66,7,.down,2⟩ (.node 1 ⟨⟨5,8⟩,62,11,.down,2⟩ .nil .nil) .nil) .nil) .nil)) (.node 2 ⟨⟨12,2⟩,61,10,.right,1⟩ (.node 2 ⟨⟨1,10⟩,58,13,.down,1⟩ (.node 2 ⟨⟨12,5⟩,65,7,.down,1⟩ (.node 1 ⟨⟨12,3⟩,63,9,.up,1⟩ .nil .nil) (.node 1 ⟨⟨6,4⟩,59,14,.left,1⟩ (.node 1 ⟨⟨1,8⟩,62,15,.up,1⟩ .nil .nil) .nil)) (.node 1 ⟨⟨0,9⟩,60,15,.left,3⟩ .nil .nil)) (.node 1 ⟨⟨7,6⟩,62,11,.down,1⟩ .nil .nil))) (.node 2 ⟨⟨3,11⟩,61,10,.right,1⟩ (.node 1 ⟨⟨7,3⟩,58,14,.left,2⟩ .nil .nil) (.node 1 ⟨⟨5,2⟩,54,17,.left,1⟩ (.node 1 ⟨⟨7,2⟩,56,15,.right,1⟩ .nil .nil) .nil)))) (.node 4 ⟨⟨5,3⟩,54,16,.right,1⟩ (.node 4 ⟨⟨1,12⟩,60,11,.down,1⟩ (.node 4 ⟨⟨3,7⟩,57,14,.left,1⟩ (.node 3 ⟨⟨4,6⟩,57,14,.left,1⟩ (.node 2 ⟨⟨5,11⟩,64,8,.right,2⟩ (.node 1 ⟨⟨11,5⟩,64,8,.right,1⟩ (.node 1 ⟨⟨9,5⟩,67,10,.left,1⟩ .nil .nil) .nil) (.node 1 ⟨⟨2,12⟩,63,10,.left,1⟩ .nil .nil)) (.node 2 ⟨⟨12,5⟩,64,7,.right,1⟩ (.node 1 ⟨⟨6,5⟩,63,13,.up,1⟩ .nil .nil) (.node 1 ⟨⟨4,12⟩,67,8,.right,1⟩ .nil .nil))) (.node 3 ⟨⟨10,2⟩,59,12,.down,1⟩ (.node 2 ⟨⟨12,5⟩,64,7,.down,2⟩ (.node 2 ⟨⟨6,7⟩,63,11,.right,1⟩ (.node 1 ⟨⟨4,7⟩,64,13,.left,1⟩ .nil .nil) (.node 1 ⟨⟨1,11⟩,62,12,.up,1⟩ (.node 1 ⟨⟨1,7⟩,59,16,.up,1⟩ .nil .nil) .nil)) (.node 1 ⟨⟨11,4⟩,63,9,.left,1⟩ (.node 1 ⟨⟨10,0⟩,60,14,.up,1⟩ .nil .nil) .nil)) (.node 2 ⟨⟨3,2⟩,53,19,.left,1⟩ (.node 1 ⟨⟨10,1⟩,61,13,.right,1⟩ .nil .nil) (.node 1 ⟨⟨9,1⟩,62,14,.left,3⟩ .nil .nil)))) (.node 3 ⟨⟨0,11⟩,59,13,.left,2⟩ (.node 2 ⟨⟨0,7⟩,55,17,.up,2⟩ (.node 2 ⟨⟨1,11⟩,61,12,.up,1⟩ (.node 1 ⟨⟨7,6⟩,63,11,.right,1⟩ .nil .nil) (.node 1 ⟨⟨2,11⟩,63,11,.left,1⟩ .nil .nil)) (.node 1 ⟨⟨1,8⟩,58,15,.right,1⟩ .nil .nil)) (.node 2 ⟨⟨6,8⟩,64,10,.right,3⟩ (.node 1 ⟨⟨1,7⟩,58,16,.up,2⟩ .nil .nil) (.node 1 ⟨⟨5,6⟩,62,13,.left,1⟩ .nil .nil)))) (.node 3 ⟨⟨9,2⟩,57,13,.down,1⟩ (.node 2 ⟨⟨4,8⟩,60,12,.up,1⟩ (.node 1 ⟨⟨8,2⟩,61,14,.up,1⟩ .nil .nil) (.node 1 ⟨⟨8,4⟩,62,12,.down,1⟩ .nil .nil)) (.node 2 ⟨⟨8,1⟩,56,15,.left,3⟩ (.node 2 ⟨⟨4,6⟩,58,14,.up,1⟩ (.node 2 ⟨⟨1,8⟩,57,15,.up,2⟩ (.node 1 ⟨⟨11,0⟩,59,13,.left,1⟩ (.node 1 ⟨⟨2,2⟩,52,20,.left,1⟩ .nil .nil) .nil) (.node 1 ⟨⟨7,6⟩,65,11,.right,1⟩ (.node 1 ⟨⟨7,6⟩,65,11,.right,3⟩ .nil .nil) .nil)) (.node 1 ⟨⟨6,7⟩,63,11,.down,1⟩ .nil .nil)) (.node 1 ⟨⟨7,3⟩,64,14,.left,3⟩ .nil .nil))))) (.node 3 ⟨⟨4,8⟩,59,12,.down,1⟩ (.node 3 ⟨⟨5,5⟩,57,14,.left,1⟩ (.node 2 ⟨⟨2,12⟩,62,10,.left,1⟩ (.node 1 ⟨⟨12,4⟩,64,8,.right,1⟩ .nil .nil) (.node 1 ⟨⟨4,12⟩,66,8,.right,1⟩ .nil .nil)) (.node 2 ⟨⟨1,11⟩,60,12,.left,1⟩ (.node 2 ⟨⟨2,12⟩,62,10,.left,1⟩ (.node 1 ⟨⟨4,10⟩,66,10,.up,1⟩ .nil .nil) (.node 1 ⟨⟨4,12⟩,66,8,.down,1⟩ .nil .nil)) (.node 1 ⟨⟨4,3⟩,58,17,.up,3⟩ .nil .nil))) (.node 2 ⟨⟨10,1⟩,58,13,.up,2⟩ (.node 1 ⟨⟨8,3⟩,59,13,.up,1⟩ .nil .nil) (.node 1 ⟨⟨7,2⟩,60,15,.up,2⟩ .nil .nil)))) (.node 4 ⟨⟨2,5⟩,54,17,.up,3⟩ (.node 3 ⟨⟨11,4⟩,62,9,.left,1⟩ (.node 2 ⟨⟨8,4⟩,59,12,.left,1⟩ (.node 1 ⟨⟨10,5⟩,65,9,.left,1⟩ .nil .nil) (.node 1 ⟨⟨12,5⟩,65,7,.right,1⟩ .nil .nil)) (.node 2 ⟨⟨0,8⟩,56,16,.left,1⟩ (.node 1 ⟨⟨5,7⟩,64,12,.up,1⟩ .nil .nil) (.node 1 ⟨⟨5,9⟩,64,10,.down,1⟩ .nil .nil))) (.node 3 ⟨⟨1,10⟩,59,13,.up,1⟩ (.node 2 ⟨⟨3,10⟩,61,11,.right,1⟩ (.node 1 ⟨⟨1,10⟩,59,13,.left,1⟩ (.node 1 ⟨⟨5,6⟩,60,13,.up,1⟩ (.node 1 ⟨⟨2,9⟩,63,13,.up,2⟩ .nil .nil) .nil) .nil) (.node 1 ⟨⟨4,12⟩,66,8,.down,2⟩ .nil .nil)) (.node 2 ⟨⟨1,12⟩,61,11,.left,1⟩ (.node 2 ⟨⟨4,9⟩,61,11,.up,1⟩ (.node 1 ⟨⟨2,11⟩,62,11,.up,1⟩ .nil .nil) (.node 1 ⟨⟨3,4⟩,55,17,.left,3⟩ (.node 1 ⟨⟨11,5⟩,68,8,.left,1⟩ .nil .nil) .nil)) (.node 1 ⟨⟨7,6⟩,62,11,.down,2⟩ (.node 1 ⟨⟨0,11⟩,60,13,.up,1⟩ (.node 1 ⟨⟨6,4⟩,62,14,.up,1⟩ .nil .nil) .nil) .nil))))) (.node 2 ⟨⟨5,8⟩,61,11,.right,1⟩ (.node 3 ⟨⟨4,8⟩,60,12,.down,3⟩ (.node 3 ⟨⟨1,9⟩,58,14,.up,1⟩ (.node 2 ⟨⟨5,11⟩,64,8,.right,1⟩ (.node 1 ⟨⟨3,8⟩,59,13,.right,1⟩ (.node 1 ⟨⟨3,11⟩,66,10,.left,1⟩ .nil .nil) .nil) (.node 1 ⟨⟨6,6⟩,61,12,.down,1⟩ (.node 1 ⟨⟨0,9⟩,58,15,.up,1⟩ .nil .nil) .nil)) (.node 2 ⟨⟨3,7⟩,58,14,.left,1⟩ (.node 1 ⟨⟨5,9⟩,66,10,.down,2⟩ .nil .nil) (.node 1 ⟨⟨4,8⟩,68,12,.left,1⟩ .nil .nil))) (.node 2 ⟨⟨5,10⟩,65,9,.right,1⟩ (.node 1 ⟨⟨6,5⟩,63,13,.left,1⟩ .nil .nil) (.node 1 ⟨⟨8,5⟩,64,11,.right,1⟩ (.node 1 ⟨⟨6,8⟩,66,10,.right,1⟩ .nil .nil) .nil))) (.node 1 ⟨⟨3,8⟩,59,13,.left,1⟩ .nil .nil))) (.node 3 ⟨⟨1,9⟩,58,14,.down,1⟩ (.node 2 ⟨⟨4,11⟩,63,9,.right,2⟩ (.node 1 ⟨⟨0,8⟩,57,16,.left,3⟩ .nil .nil) (.node 1 ⟨⟨9,4⟩,61,11,.left,1⟩ .nil .nil)) (.node 2 ⟨⟨0,12⟩,60,12,.left,1⟩ (.node 2 ⟨⟨7,5⟩,63,12,.down,1⟩ (.node 1 ⟨⟨5,10⟩,66,9,.right,3⟩ (.node 1 ⟨⟨7,3⟩,64,14,.up,1⟩ .nil .nil) .nil) (.node 1 ⟨⟨6,4⟩,63,14,.left,2⟩ .nil .nil)) (.node 1 ⟨⟨4,9⟩,61,11,.down,2⟩ .nil .nil)))) (.node 3 ⟨⟨11,3⟩,60,10,.left,1⟩ (.node 2 ⟨⟨2,9⟩,57,13,.right,1⟩ (.node 2 ⟨⟨10,3⟩,60,11,.down,1⟩ (.node 1 ⟨⟨9,5⟩,63,10,.down,1⟩ .nil .nil) (.node 1 ⟨⟨12,5⟩,65,7,.right,2⟩ .nil .nil)) (.node 1 ⟨⟨10,1⟩,62,13,.up,1⟩ .nil .nil)) (.node 2 ⟨⟨11,2⟩,60,11,.up,1⟩ (.node 1 ⟨⟨4,11⟩,63,9,.down,1⟩ .nil .nil) (.node 1 ⟨⟨10,3⟩,60,11,.left,2⟩ (.node 1 ⟨⟨6,2⟩,57,16,.left,3⟩ (.node 1 ⟨⟨3,7⟩,60,14,.up,2⟩ .nil .nil) .nil) .nil)))) (.node 4 ⟨⟨8,1⟩,55,15,.down,1⟩ (.node 5 ⟨⟨9,1⟩,56,14,.down,1⟩ (.node 4 ⟨⟨9,4⟩,59,11,.left,1⟩ (.node 3 ⟨⟨7,2⟩,55,15,.up,1⟩ (.node 3 ⟨⟨3,5⟩,55,16,.left,2⟩ (.node 2 ⟨⟨7,3⟩,57,14,.up,1⟩ (.node 2 ⟨⟨0,12⟩,61,12,.left,1⟩ (.node 1 ⟨⟨11,2⟩,63,11,.left,1⟩ .nil .nil) (.node 1 ⟨⟨4,5⟩,58,15,.right,1⟩ .nil .nil)) (.node 1 ⟨⟨2,8⟩,59,14,.up,2⟩ .nil .nil)) (.node 2 ⟨⟨8,4⟩,59,12,.left,1⟩ (.node 1 ⟨⟨8,2⟩,61,14,.up,2⟩ .nil .nil) (.node 1 ⟨⟨12,1⟩,61,11,.up,2⟩ (.node 1 ⟨⟨9,3⟩,61,12,.right,1⟩ (.node 1 ⟨⟨7,3⟩,64,14,.left,1⟩ .nil .nil) .nil) .nil))) (.node 2 ⟨⟨9,4⟩,59,11,.down,1⟩ (.node 1 ⟨⟨5,10⟩,66,9,.down,1⟩ .nil .nil) (.node 1 ⟨⟨6,9⟩,67,9,.right,3⟩ .nil .nil))) (.node 3 ⟨⟨2,5⟩,53,17,.down,1⟩ (.node 3 ⟨⟨11,2⟩,60,11,.up,1⟩ (.node 2 ⟨⟨8,5⟩,61,11,.down,1⟩ (.node 2 ⟨⟨3,3⟩,54,18,.up,3⟩ (.node 2 ⟨⟨11,5⟩,65,8,.down,1⟩ (.node 1 ⟨⟨11,3⟩,65,10,.up,1⟩ (.node 1 ⟨⟨1,8⟩,61,15,.left,1⟩ .nil .nil) .nil) (.node 1 ⟨⟨10,4⟩,65,10,.left,2⟩ .nil .nil)) (.node 1 ⟨⟨2,5⟩,56,17,.left,1⟩ (.node 1 ⟨⟨2,7⟩,58,15,.up,2⟩ .nil .nil) .nil)) (.node 1 ⟨⟨4,8⟩,62,12,.right,1⟩ (.node 1 ⟨⟨3,4⟩,59,17,.up,3⟩ .nil .nil) .nil)) (.node 2 ⟨⟨5,5⟩,58,14,.up,1⟩ (.node 2 ⟨⟨8,5⟩,62,11,.down,1⟩ (.node 1 ⟨⟨3,7⟩,59,14,.left,1⟩ .nil .nil) (.node 1 ⟨⟨1,9⟩,59,14,.left,1⟩ (.node 1 ⟨⟨5,12⟩,69,7,.right,3⟩ .nil .nil) .nil)) (.node 1 ⟨⟨4,11⟩,67,9,.up,1⟩ .nil .nil))) (.node 2 ⟨⟨3,5⟩,55,16,.left,1⟩ (.node 1 ⟨⟨6,7⟩,61,11,.down,3⟩ .nil .nil) (.node 1 ⟨⟨2,3⟩,54,19,.up,1⟩ (.node 1 ⟨⟨5,6⟩,61,13,.left,1⟩ .nil .nil) .nil)))) (.node 4 ⟨⟨2,12⟩,60,10,.down,1⟩ (.node 5 ⟨⟨3,3⟩,52,18,.left,1⟩ (.node 5 ⟨⟨5,7⟩,59,12,.right,1⟩ (.node 4 ⟨⟨1,4⟩,52,19,.left,1⟩ (.node 3 ⟨⟨1,12⟩,60,11,.left,1⟩ (.node 2 ⟨⟨7,1⟩,56,16,.left,1⟩ (.node 1 ⟨⟨7,6⟩,63,11,.down,3⟩ .nil .nil) (.node 1 ⟨⟨6,5⟩,62,13,.left,1⟩ .nil .nil)) (.node 2 ⟨⟨9,3⟩,60,12,.up,1⟩ (.node 1 ⟨⟨11,4⟩,64,9,.up,1⟩ .nil .nil) (.node 1 ⟨⟨11,6⟩,67,7,.down,1⟩ .nil .nil))) (.node 3 ⟨⟨4,7⟩,59,13,.up,1⟩ (.node 2 ⟨⟨12,5⟩,65,7,.down,1⟩ (.node 2 ⟨⟨2,6⟩,60,16,.left,1⟩ (.node 1 ⟨⟨3,5⟩,63,16,.up,3⟩ .nil .nil) (.node 1 ⟨⟨4,6⟩,63,14,.right,1⟩ .nil .nil)) (.node 1 ⟨⟨4,6⟩,58,14,.left,1⟩ (.node 1 ⟨⟨4,9⟩,62,11,.right,1⟩ (.node 1 ⟨⟨4,7⟩,64,13,.up,1⟩ .nil .nil) .nil) .nil)) (.node 2 ⟨⟨5,9⟩,63,10,.down,1⟩ (.node 1 ⟨⟨10,4⟩,63,10,.left,1⟩ (.node 1 ⟨⟨5,7⟩,63,12,.up,1⟩ .nil .nil) .nil) (.node 1 ⟨⟨9,3⟩,64,12,.up,1⟩ (.node 1 ⟨⟨9,5⟩,67,10,.down,1⟩ .nil .nil) .nil)))) (.node 4 ⟨⟨3,11⟩,61,10,.right,2⟩ (.node 3 ⟨⟨2,8⟩,57,14,.up,1⟩ (.node 2 ⟨⟨9,5⟩,61,10,.down,2⟩ (.node 4 ⟨⟨4,9⟩,60,11,.right,3⟩ (.node 4 ⟨⟨2,12⟩,61,10,.down,1⟩ (.node 3 ⟨⟨2,8⟩,57,14,.right,1⟩ (.node 3 ⟨⟨1,6⟩,55,17,.left,1⟩ (.node 2 ⟨⟨3,8⟩,60,13,.up,1⟩ (.node 1 ⟨⟨7,4⟩,65,13,.up,1⟩ .nil .nil) (.node 1 ⟨⟨7,6⟩,66,11,.down,1⟩ .nil .nil)) (.node 2 ⟨⟨5,5⟩,58,14,.left,1⟩ (.node 1 ⟨⟨5,6⟩,61,13,.right,1⟩ .nil .nil) (.node 1 ⟨⟨0,9⟩,58,15,.up,2⟩ (.node 1 ⟨⟨3,11⟩,66,10,.up,1⟩ (.node 1 ⟨⟨8,5⟩,66,11,.right,3⟩ .nil .nil) .nil) .nil))) (.node 2 ⟨⟨3,10⟩,60,11,.down,1⟩ (.node 1 ⟨⟨3,4⟩,56,17,.down,1⟩ .nil .nil) (.node 1 ⟨⟨7,4⟩,61,13,.up,1⟩ (.node 1 ⟨⟨1,11⟩,64,12,.left,2⟩ .nil .nil) .nil))) (.node 3 ⟨⟨10,4⟩,61,10,.left,1⟩ (.node 2 ⟨⟨1,5⟩,53,18,.up,3⟩ (.node 1 ⟨⟨2,10⟩,61,12,.up,1⟩ .nil .nil) (.node 1 ⟨⟨10,3⟩,64,11,.up,1⟩ .nil .nil)) (.node 2 ⟨⟨10,5⟩,64,9,.down,1⟩ (.node 1 ⟨⟨8,5⟩,62,11,.right,2⟩ .nil .nil) (.node 1 ⟨⟨9,4⟩,67,11,.left,2⟩ .nil .nil)))) (.node 3 ⟨⟨1,8⟩,56,15,.down,1⟩ (.node 3 ⟨⟨1,6⟩,54,17,.up,1⟩ (.node 2 ⟨⟨4,3⟩,54,17,.up,1⟩ (.node 2 ⟨⟨2,6⟩,55,16,.left,2⟩ (.node 3 ⟨⟨3,7⟩,57,14,.down,1⟩ (.node 2 ⟨⟨1,8⟩,56,15,.up,1⟩ (.node 1 ⟨⟨4,6⟩,57,14,.up,1⟩ (.node 2 ⟨⟨4,10⟩,61,10,.down,1⟩ (.node 1 ⟨⟨2,11⟩,60,11,.up,1⟩ (.node 1 ⟨⟨4,8⟩,64,12,.up,1⟩ .nil .nil) .nil) (.node 1 ⟨⟨5,9⟩,62,10,.right,3⟩ .nil .nil)) .nil) (.node 1 ⟨⟨3,6⟩,58,15,.right,1⟩ (.node 1 ⟨⟨5,1⟩,57,18,.up,1⟩ (.node 1 ⟨⟨5,3⟩,60,16,.down,1⟩ .nil .nil) .nil) .nil)) (.node 2 ⟨⟨9,4⟩,62,11,.left,1⟩ (.node 2 ⟨⟨6,4⟩,61,14,.down,1⟩ (.node 1 ⟨⟨6,2⟩,59,16,.up,1⟩ (.node 1 ⟨⟨5,8⟩,64,11,.up,1⟩ .nil .nil) .nil) (.node 1 ⟨⟨5,3⟩,62,16,.left,3⟩ .nil .nil)) (.node 1 ⟨⟨3,5⟩,58,16,.up,1⟩ .nil .nil))) (.node 1 ⟨⟨5,4⟩,58,15,.right,1⟩ (.node 2 ⟨⟨5,8⟩,62,11,.down,1⟩ (.node 1 ⟨⟨5,6⟩,63,13,.up,1⟩ .nil .nil) (.node 1 ⟨⟨6,7⟩,63,11,.right,3⟩ .nil .nil)) .nil)) (.node 1 ⟨⟨3,4⟩,59,17,.left,1⟩ .nil .nil)) (.node 2 ⟨⟨0,4⟩,51,20,.left,1⟩ (.node 1 ⟨⟨0,6⟩,57,18,.up,1⟩ .nil .nil) (.node 1 ⟨⟨0,8⟩,57,16,.down,1⟩ .nil .nil))) (.node 2 ⟨⟨1,12⟩,60,11,.right,1⟩ (.node 3 ⟨⟨7,1⟩,56,16,.down,1⟩ (.node 2 ⟨⟨10,5⟩,64,9,.left,1⟩ (.node 1 ⟨⟨5,4⟩,60,15,.up,1⟩ .nil .nil) (.node 1 ⟨⟨5,6⟩,62,13,.down,1⟩ (.node 1 ⟨⟨4,7⟩,64,13,.left,1⟩ .nil .nil) .nil)) (.node 2 ⟨⟨10,1⟩,59,13,.down,1⟩ (.node 1 ⟨⟨3,6⟩,61,15,.left,1⟩ .nil .nil) (.node 1 ⟨⟨6,7⟩,63,11,.right,1⟩ .nil .nil))) (.node 1 ⟨⟨12,3⟩,63,9,.up,1⟩ .nil .nil)))) (.node 1 ⟨⟨7,6⟩,64,11,.right,1⟩ .nil .nil)) (.node 2 ⟨⟨5,3⟩,56,16,.up,2⟩ (.node 1 ⟨⟨11,6⟩,66,7,.down,3⟩ (.node 1 ⟨⟨4,5⟩,60,15,.left,2⟩ .nil .nil) .nil) (.node 1 ⟨⟨11,2⟩,61,11,.up,1⟩ .nil .nil))) (.node 3 ⟨⟨5,7⟩,59,12,.down,1⟩ (.node 3 ⟨⟨5,10⟩,63,9,.right,2⟩ (.node 2 ⟨⟨9,2⟩,60,13,.left,3⟩ (.node 1 ⟨⟨4,9⟩,64,11,.up,1⟩ .nil .nil) (.node 1 ⟨⟨8,6⟩,66,10,.down,3⟩ .nil .nil)) (.node 2 ⟨⟨9,5⟩,64,10,.left,1⟩ (.node 1 ⟨⟨7,5⟩,65,12,.left,1⟩ .nil .nil) (.node 1 ⟨⟨9,5⟩,66,10,.right,1⟩ .nil .nil))) (.node 2 ⟨⟨4,7⟩,58,13,.up,1⟩ (.node 2 ⟨⟨6,4⟩,58,14,.up,1⟩ (.node 1 ⟨⟨6,0⟩,55,18,.left,1⟩ .nil .nil) (.node 1 ⟨⟨3,11⟩,64,10,.right,3⟩ .nil .nil)) (.node 1 ⟨⟨10,5⟩,62,9,.down,1⟩ (.node 1 ⟨⟨7,0⟩,55,17,.left,1⟩ .nil .nil) .nil))))) (.node 4 ⟨⟨0,6⟩,53,18,.left,1⟩ (.node 3 ⟨⟨12,3⟩,62,9,.right,1⟩ (.node 3 ⟨⟨8,3⟩,58,13,.right,1⟩ (.node 2 ⟨⟨8,5⟩,62,11,.right,1⟩ (.node 1 ⟨⟨6,5⟩,61,13,.left,1⟩ .nil .nil) (.node 1 ⟨⟨6,3⟩,59,15,.left,1⟩ (.node 1 ⟨⟨8,5⟩,64,11,.down,1⟩ .nil .nil) .nil)) (.node 2 ⟨⟨4,11⟩,63,9,.right,1⟩ (.node 2 ⟨⟨9,1⟩,59,14,.down,1⟩ (.node 1 ⟨⟨5,5⟩,61,14,.up,1⟩ .nil .nil) (.node 1 ⟨⟨3,2⟩,55,19,.up,1⟩ (.node 1 ⟨⟨0,8⟩,58,16,.up,1⟩ (.node 1 ⟨⟨4,5⟩,59,15,.up,2⟩ .nil .nil) .nil) .nil)) (.node 1 ⟨⟨2,11⟩,62,11,.left,1⟩ (.node 1 ⟨⟨10,3⟩,64,11,.left,1⟩ .nil .nil) .nil))) (.node 2 ⟨⟨0,10⟩,57,14,.left,1⟩ (.node 1 ⟨⟨1,9⟩,61,14,.up,2⟩ (.node 1 ⟨⟨6,5⟩,64,13,.up,1⟩ .nil .nil) .nil) (.node 1 ⟨⟨4,8⟩,59,12,.down,2⟩ (.node 1 ⟨⟨11,2⟩,65,11,.up,2⟩ .nil .nil) .nil))) (.node 3 ⟨⟨7,4⟩,58,13,.left,1⟩ (.node 2 ⟨⟨1,5⟩,54,18,.right,1⟩ (.node 1 ⟨⟨5,4⟩,59,15,.left,2⟩ .nil .nil) (.node 1 ⟨⟨5,5⟩,59,14,.up,1⟩ .nil .nil)) (.node 2 ⟨⟨6,7⟩,62,11,.down,1⟩ (.node 2 ⟨⟨4,6⟩,59,14,.left,1⟩ (.node 1 ⟨⟨7,6⟩,64,11,.right,2⟩ .nil .nil) (.node 1 ⟨⟨10,3⟩,62,11,.up,1⟩ .nil .nil)) (.node 1 ⟨⟨1,4⟩,54,19,.up,1⟩ .nil .nil))))) (.node 3 ⟨⟨6,4⟩,57,14,.up,1⟩ (.node 2 ⟨⟨3,8⟩,60,13,.up,2⟩ (.node 1 ⟨⟨4,9⟩,62,11,.down,1⟩ .nil .nil) (.node 1 ⟨⟨4,12⟩,66,8,.right,1⟩ (.node 1 ⟨⟨2,9⟩,62,13,.left,1⟩ .nil .nil) .nil)) (.node 2 ⟨⟨12,4⟩,63,8,.down,1⟩ (.node 2 ⟨⟨2,10⟩,60,12,.up,1⟩ (.node 1 ⟨⟨5,6⟩,63,13,.left,1⟩ .nil .nil) (.node 1 ⟨⟨10,6⟩,66,8,.down,3⟩ (.node 1 ⟨⟨6,7⟩,63,11,.down,2⟩ .nil .nil) .nil)) (.node 1 ⟨⟨12,2⟩,61,10,.up,1⟩ .nil .nil))))) (.node 3 ⟨⟨2,9⟩,57,13,.up,1⟩ (.node 2 ⟨⟨2,8⟩,58,14,.left,1⟩ (.node 2 ⟨⟨3,9⟩,60,12,.left,1⟩ (.node 1 ⟨⟨5,9⟩,63,10,.right,1⟩ .nil .nil) (.node 1 ⟨⟨7,3⟩,60,14,.down,1⟩ .nil .nil)) (.node 1 ⟨⟨7,1⟩,57,16,.up,1⟩ .nil .nil)) (.node 2 ⟨⟨4,10⟩,62,10,.down,2⟩ (.node 1 ⟨⟨10,3⟩,64,11,.up,1⟩ .nil .nil) (.node 1 ⟨⟨10,5⟩,64,9,.down,1⟩ .nil .nil))))) (.node 2 ⟨⟨3,5⟩,54,16,.down,1⟩ (.node 3 ⟨⟨11,4⟩,61,9,.right,2⟩ (.node 3 ⟨⟨9,1⟩,56,14,.right,1⟩ (.node 2 ⟨⟨10,2⟩,59,12,.left,1⟩ (.node 2 ⟨⟨9,1⟩,58,14,.up,1⟩ (.node 1 ⟨⟨8,2⟩,58,14,.left,3⟩ .nil .nil) (.node 1 ⟨⟨3,10⟩,61,11,.left,1⟩ .nil .nil)) (.node 1 ⟨⟨4,11⟩,62,9,.down,2⟩ (.node 2 ⟨⟨9,5⟩,61,10,.down,3⟩ (.node 1 ⟨⟨6,3⟩,59,15,.up,1⟩ .nil .nil) (.node 1 ⟨⟨6,5⟩,62,13,.down,1⟩ .nil .nil)) .nil)) (.node 2 ⟨⟨11,1⟩,59,12,.up,2⟩ (.node 1 ⟨⟨5,2⟩,57,17,.up,1⟩ .nil .nil) (.node 1 ⟨⟨5,4⟩,58,15,.down,1⟩ .nil .nil))) (.node 2 ⟨⟨8,3⟩,58,13,.down,1⟩ (.node 1 ⟨⟨8,1⟩,57,15,.up,1⟩ (.node 1 ⟨⟨3,10⟩,62,11,.up,1⟩ (.node 1 ⟨⟨8,5⟩,63,11,.right,1⟩ .nil .nil) .nil) .nil) (.node 1 ⟨⟨3,11⟩,64,10,.up,1⟩ (.node 1 ⟨⟨4,3⟩,58,17,.left,3⟩ (.node 1 ⟨⟨7,2⟩,60,15,.left,3⟩ .nil .nil) .nil) .nil))) (.node 1 ⟨⟨11,4⟩,63,9,.right,3⟩ (.node 3 ⟨⟨4,12⟩,64,8,.right,3⟩ (.node 2 ⟨⟨4,1⟩,54,19,.left,1⟩ (.node 1 ⟨⟨5,8⟩,63,11,.down,3⟩ .nil .nil) (.node 1 ⟨⟨4,7⟩,65,13,.left,1⟩ .nil .nil)) (.node 2 ⟨⟨3,11⟩,62,10,.right,1⟩ (.node 1 ⟨⟨1,11⟩,61,12,.left,1⟩ .nil .nil) (.node 1 ⟨⟨6,7⟩,64,11,.right,1⟩ .nil .nil))) .nil)))

/-- The visited bitmask of the part-1 search on `exampleGrid` after 1700
loop iterations. -/
def exampleVis1700 : Nat :=
  259117951754767057542030608891330458246198359316084768456373333387716290403427059176534118593860868925192322751540507743049056898081037652870539887111896038450652192843008633539879362046975102625653947125125171806481885241970746134037930036915125844916469528006880812177767055434788181696237022320710020182023602752459870592644148958407961599318696740825316414518281664336330861557870972047701133872671701072439153385473577552603478100037200995546399095219070993392302850409801924640354111358267021407600586818623229768799291590090525462397850306359674247768072239663659677704087023946365527915945060441698714393123117833748653340391313970099340701821051697592875299570423222420422946146146395972451897749071494053477100892230016282188612089152528728334585240072033332155574863159726403849785372062768393905000123575759907596794929589596216336558652332077559713815962056637628892396933503056314736378965755101823821672986717261797220157654448622605960077607911483783182

/-- The queue of the part-1 search on `exampleGrid` after 2125 loop
iterations (verified by computation in the slice theorems below);
recorded literally so that the long run can be replayed in
bounded-depth slices. -/
def exampleHeap2125 : Heap :=
  (.node 5 ⟨⟨6,5⟩,63,13,.left,1⟩ (.node 5 ⟨⟨4,11⟩,67,9,.up,1⟩ (.node 4 ⟨⟨6,9⟩,67,9,.right,3⟩ (.node 4 ⟨⟨5,8⟩,65,11,.right,1⟩ (.node 4 ⟨⟨6,7⟩,65,11,.down,1⟩ (.node 4 ⟨⟨1,8⟩,61,15,.right,1⟩ (.node 3 ⟨⟨10,2⟩,64,12,.up,2⟩ (.node 2 ⟨⟨12,6⟩,70,6,.down,3⟩ (.node 2 ⟨⟨11,5⟩,69,8,.left,1⟩ (.node 1 ⟨⟨5,7⟩,68,12,.left,1⟩ .nil .nil) (.node 1 ⟨⟨7,7⟩,70,10,.right,1⟩ .nil .nil)) (.node 1 ⟨⟨9,5⟩,67,10,.left,1⟩ (.node 1 ⟨⟨6,8⟩,69,10,.down,2⟩ .nil .nil) .nil)) (.node 2 ⟨⟨11,3⟩,67,10,.right,1⟩ (.node 1 ⟨⟨9,3⟩,67,12,.left,1⟩ .nil .nil) (.node 1 ⟨⟨4,7⟩,68,13,.up,2⟩ .nil .nil))) (.node 3 ⟨⟨1,12⟩,65,11,.left,2⟩ (.node 2 ⟨⟨2,7⟩,61,15,.right,1⟩ (.node 1 ⟨⟨0,7⟩,61,17,.left,1⟩ (.node 1 ⟨⟨7,2⟩,64,15,.up,1⟩ .nil .nil) .nil) (.node 1 ⟨⟨7,7⟩,72,10,.right,1⟩ .nil .nil)) (.node 2 ⟨⟨12,6⟩,71,6,.down,2⟩ (.node 2 ⟨⟨1,8⟩,62,15,.up,1⟩ (.node 2 ⟨⟨6,6⟩,68,12,.left,1⟩ (.node 1 ⟨⟨7,5⟩,70,12,.up,1⟩ .nil .nil) (.node 1 ⟨⟨7,7⟩,72,10,.down,1⟩ .nil .nil)) (.node 1 ⟨⟨10,1⟩,65,13,.left,1⟩ (.node 1 ⟨⟨8,6⟩,71,10,.right,2⟩ (.node 1 ⟨⟨7,7⟩,71,10,.down,2⟩ .nil .nil) .nil) .nil)) (.node 1 ⟨⟨2,11⟩,66,11,.up,1⟩ (.node 1 ⟨⟨12,6⟩,72,6,.right,1⟩ .nil .nil) .nil)))) (.node 3 ⟨⟨2,11⟩,65,11,.right,1⟩ (.node 3 ⟨⟨0,11⟩,63,13,.left,1⟩ (.node 2 ⟨⟨11,7⟩,71,6,.down,3⟩ (.node 1 ⟨⟨11,5⟩,70,8,.left,1⟩ .nil .nil) (.node 1 ⟨⟨0,9⟩,65,15,.left,1⟩ (.node 1 ⟨⟨10,6⟩,73,8,.left,1⟩ .nil .nil) .nil)) (.node 2 ⟨⟨1,10⟩,63,13,.up,2⟩ (.node 2 ⟨⟨2,9⟩,63,13,.up,2⟩ (.node 2 ⟨⟨10,6⟩,69,8,.down,2⟩ (.node 1 ⟨⟨9,5⟩,70,10,.left,1⟩ .nil .nil) (.node 1 ⟨⟨3,11⟩,67,10,.down,1⟩ (.node 1 ⟨⟨8,4⟩,65,12,.left,2⟩ (.node 1 ⟨⟨12,6⟩,72,6,.right,1⟩ .nil .nil) .nil) .nil)) (.node 1 ⟨⟨3,9⟩,65,12,.up,1⟩ .nil .nil)) (.node 1 ⟨⟨4,12⟩,68,8,.down,3⟩ .nil .nil))) (.node 2 ⟨⟨8,3⟩,63,13,.up,1⟩ (.node 3 ⟨⟨1,11⟩,65,12,.left,1⟩ (.node 2 ⟨⟨4,7⟩,64,13,.left,1⟩ (.node 1 ⟨⟨5,7⟩,69,12,.left,1⟩ .nil .nil) (.node 1 ⟨⟨7,5⟩,68,12,.left,1⟩ (.node 1 ⟨⟨5,10⟩,71,9,.down,2⟩ (.node 1 ⟨⟨7,7⟩,71,10,.right,1⟩ .nil .nil) .nil) .nil)) (.node 2 ⟨⟨8,6⟩,69,10,.down,2⟩ (.node 1 ⟨⟨5,5⟩,69,14,.up,2⟩ .nil .nil) (.node 1 ⟨⟨1,8⟩,67,15,.up,3⟩ .nil .nil))) (.node 1 ⟨⟨6,8⟩,69,10,.right,1⟩ .nil .nil)))) (.node 3 ⟨⟨2,10⟩,64,12,.left,1⟩ (.node 2 ⟨⟨6,3⟩,62,15,.down,1⟩ (.node 1 ⟨⟨6,1⟩,60,17,.up,1⟩ (.node 1 ⟨⟨4,10⟩,68,10,.right,1⟩ .nil .nil) .nil) (.node 1 ⟨⟨4,6⟩,68,14,.left,1⟩ .nil .nil)) (.node 2 ⟨⟨5,4⟩,62,15,.left,1⟩ (.node 2 ⟨⟨7,4⟩,65,13,.up,1⟩ (.node 1 ⟨⟨7,7⟩,73,10,.down,1⟩ .nil .nil) (.node 1 ⟨⟨1,10⟩,65,13,.left,3⟩ (.node 1 ⟨⟨2,11⟩,67,11,.down,1⟩ (.node 1 ⟨⟨3,7⟩,65,14,.right,1⟩ (.node 1 ⟨⟨2,9⟩,69,13,.up,1⟩ .nil .nil) .nil) .nil) .nil)) (.node 1 ⟨⟨7,5⟩,71,12,.up,1⟩ .nil .nil)))) (.node 3 ⟨⟨5,12⟩,69,7,.right,3⟩ (.node 3 ⟨⟨9,5⟩,67,10,.down,1⟩ (.node 3 ⟨⟨3,12⟩,68,9,.down,1⟩ (.node 2 ⟨⟨12,2⟩,67,10,.up,2⟩ (.node 2 ⟨⟨5,8⟩,66,11,.right,1⟩ (.node 3 ⟨⟨3,8⟩,64,13,.left,1⟩ (.node 2 ⟨⟨5,8⟩,68,11,.up,1⟩ (.node 1 ⟨⟨6,7⟩,71,11,.up,1⟩ .nil .nil) (.node 1 ⟨⟨6,9⟩,73,9,.down,1⟩ .nil .nil)) (.node 2 ⟨⟨3,8⟩,64,13,.up,1⟩ (.node 1 ⟨⟨4,7⟩,68,13,.right,1⟩ (.node 1 ⟨⟨4,8⟩,70,12,.up,2⟩ .nil .nil) .nil) (.node 1 ⟨⟨7,5⟩,66,12,.left,1⟩ .nil .nil))) (.node 1 ⟨⟨7,3⟩,64,14,.left,1⟩ (.node 2 ⟨⟨7,4⟩,65,13,.right,1⟩ (.node 2 ⟨⟨10,6⟩,71,8,.down,1⟩ (.node 1 ⟨⟨10,4⟩,69,10,.up,1⟩ .nil .nil) (.node 1 ⟨⟨9,5⟩,72,10,.left,2⟩ .nil .nil)) (.node 1 ⟨⟨12,4⟩,70,8,.up,1⟩ .nil .nil)) .nil)) (.node 1 ⟨⟨11,3⟩,68,10,.left,1⟩ .nil .nil)) (.node 2 ⟨⟨3,5⟩,63,16,.up,3⟩ (.node 2 ⟨⟨5,9⟩,69,10,.down,3⟩ (.node 1 ⟨⟨4,9⟩,69,11,.left,1⟩ .nil .nil) (.node 1 ⟨⟨9,5⟩,70,10,.right,2⟩ (.node 1 ⟨⟨2,9⟩,67,13,.right,1⟩ (.node 1 ⟨⟨4,8⟩,71,12,.left,1⟩ .nil .nil) .nil) .nil)) (.node 1 ⟨⟨2,11⟩,70,11,.left,2⟩ .nil .nil))) (.node 2 ⟨⟨4,5⟩,63,15,.left,1⟩ (.node 1 ⟨⟨0,8⟩,64,16,.up,1⟩ .nil .nil) (.node 1 ⟨⟨10,3⟩,69,11,.up,1⟩ .nil .nil))) (.node 2 ⟨⟨6,6⟩,67,12,.down,1⟩ (.node 1 ⟨⟨6,6⟩,69,12,.up,1⟩ (.node 1 ⟨⟨6,4⟩,68,14,.up,1⟩ .nil .nil) .nil) (.node 1 ⟨⟨5,5⟩,70,14,.left,2⟩ .nil .nil)))) (.node 4 ⟨⟨5,6⟩,63,13,.up,1⟩ (.node 4 ⟨⟨3,12⟩,68,9,.left,1⟩ (.node 4 ⟨⟨4,6⟩,63,14,.right,1⟩ (.node 3 ⟨⟨4,12⟩,69,8,.down,1⟩ (.node 2 ⟨⟨7,6⟩,66,11,.down,1⟩ (.node 1 ⟨⟨3,6⟩,64,15,.left,2⟩ .nil .nil) (.node 1 ⟨⟨5,12⟩,73,7,.right,2⟩ .nil .nil)) (.node 2 ⟨⟨4,7⟩,65,13,.left,1⟩ (.node 1 ⟨⟨4,10⟩,69,10,.up,1⟩ .nil .nil) (.node 1 ⟨⟨9,4⟩,72,11,.left,3⟩ .nil .nil))) (.node 3 ⟨⟨10,5⟩,69,9,.down,1⟩ (.node 3 ⟨⟨4,11⟩,69,9,.up,1⟩ (.node 2 ⟨⟨12,6⟩,73,6,.right,1⟩ (.node 2 ⟨⟨9,5⟩,69,10,.right,1⟩ (.node 1 ⟨⟨6,11⟩,75,7,.right,1⟩ .nil .nil) (.node 1 ⟨⟨5,10⟩,70,9,.down,1⟩ (.node 1 ⟨⟨5,5⟩,68,14,.down,1⟩ .nil .nil) .nil)) (.node 1 ⟨⟨9,1⟩,65,14,.up,1⟩ .nil .nil)) (.node 2 ⟨⟨12,5⟩,71,7,.down,1⟩ (.node 1 ⟨⟨12,3⟩,69,9,.up,1⟩ (.node 1 ⟨⟨4,11⟩,71,9,.up,1⟩ .nil .nil) .nil) (.node 1 ⟨⟨3,5⟩,63,16,.down,1⟩ .nil .nil))) (.node 2 ⟨⟨8,5⟩,70,11,.left,1⟩ (.node 1 ⟨⟨8,6⟩,71,10,.right,1⟩ .nil .nil) (.node 1 ⟨⟨3,10⟩,70,11,.up,1⟩ .nil .nil)))) (.node 3 ⟨⟨3,9⟩,65,12,.left,1⟩ (.node 3 ⟨⟨6,10⟩,69,8,.right,3⟩ (.node 2 ⟨⟨1,12⟩,67,11,.down,1⟩ (.node 1 ⟨⟨5,12⟩,71,7,.down,1⟩ (.node 1 ⟨⟨1,10⟩,66,13,.up,1⟩ .nil .nil) .nil) (.node 1 ⟨⟨0,11⟩,66,13,.left,3⟩ .nil .nil)) (.node 2 ⟨⟨1,7⟩,63,16,.up,3⟩ (.node 1 ⟨⟨5,10⟩,75,9,.up,1⟩ .nil .nil) (.node 1 ⟨⟨5,10⟩,72,9,.up,1⟩ (.node 1 ⟨⟨9,4⟩,73,11,.up,1⟩ .nil .nil) .nil))) (.node 2 ⟨⟨9,2⟩,65,13,.right,1⟩ (.node 2 ⟨⟨5,12⟩,71,7,.down,1⟩ (.node 2 ⟨⟨8,1⟩,64,15,.up,3⟩ (.node 1 ⟨⟨5,10⟩,71,9,.down,1⟩ .nil .nil) (.node 1 ⟨⟨7,2⟩,67,15,.left,1⟩ .nil .nil)) (.node 1 ⟨⟨5,8⟩,69,11,.up,1⟩ .nil .nil)) (.node 1 ⟨⟨5,12⟩,73,7,.right,1⟩ (.node 1 ⟨⟨5,12⟩,74,7,.down,1⟩ (.node 1 ⟨⟨6,7⟩,70,11,.right,1⟩ (.node 1 ⟨⟨4,7⟩,71,13,.left,1⟩ .nil .nil) .nil) .nil) .nil)))) (.node 3 ⟨⟨5,2⟩,60,17,.up,3⟩ (.node 2 ⟨⟨1,9⟩,63,14,.right,1⟩ (.node 1 ⟨⟨6,6⟩,66,12,.right,1⟩ (.node 1 ⟨⟨3,7⟩,65,14,.left,1⟩ .nil .nil) .nil) (.node 1 ⟨⟨4,3⟩,61,17,.left,1⟩ (.node 1 ⟨⟨5,11⟩,70,8,.down,1⟩ (.node 1 ⟨⟨0,8⟩,62,16,.up,3⟩ (.node 1 ⟨⟨5,9⟩,73,10,.up,1⟩ .nil .nil) .nil) .nil) .nil)) (.node 2 ⟨⟨8,3⟩,65,13,.left,3⟩ (.node 2 ⟨⟨10,4⟩,70,10,.up,1⟩ (.node 1 ⟨⟨3,3⟩,64,18,.left,1⟩ .nil .nil) (.node 1 ⟨⟨5,3⟩,66,16,.right,1⟩ .nil .nil)) (.node 1 ⟨⟨7,3⟩,64,14,.up,1⟩ (.node 1 ⟨⟨2,9⟩,66,13,.left,2⟩ .nil .nil) .nil))))) (.node 4 ⟨⟨9,0⟩,62,15,.left,1⟩ (.node 4 ⟨⟨8,5⟩,66,11,.right,3⟩ (.node 3 ⟨⟨3,10⟩,68,11,.up,1⟩ (.node 2 ⟨⟨11,4⟩,71,9,.up,1⟩ (.node 1 ⟨⟨4,4⟩,65,16,.up,3⟩ .nil .nil) (.node 1 ⟨⟨11,6⟩,74,7,.down,1⟩ .nil .nil)) (.node 2 ⟨⟨12,4⟩,71,8,.up,1⟩ (.node 1 ⟨⟨10,5⟩,72,9,.left,2⟩ .nil .nil) (.node 1 ⟨⟨4,8⟩,73,12,.left,1⟩ .nil .nil))) (.node 3 ⟨⟨5,4⟩,63,15,.up,2⟩ (.node 3 ⟨⟨7,6⟩,67,11,.down,1⟩ (.node 2 ⟨⟨4,4⟩,65,16,.left,3⟩ (.node 1 ⟨⟨7,3⟩,69,14,.up,2⟩ .nil .nil) (.node 1 ⟨⟨4,9⟩,72,11,.left,1⟩ (.node 1 ⟨⟨6,9⟩,75,9,.right,1⟩ .nil .nil) .nil)) (.node 2 ⟨⟨7,2⟩,63,15,.down,1⟩ (.node 2 ⟨⟨5,3⟩,62,16,.left,3⟩ (.node 1 ⟨⟨7,7⟩,71,10,.down,3⟩ .nil .nil) (.node 1 ⟨⟨5,7⟩,71,12,.up,2⟩ .nil .nil)) (.node 1 ⟨⟨5,10⟩,74,9,.down,3⟩ .nil .nil))) (.node 2 ⟨⟨6,8⟩,68,10,.right,2⟩ (.node 1 ⟨⟨5,9⟩,68,10,.down,1⟩ (.node 1 ⟨⟨5,7⟩,68,12,.up,1⟩ (.node 1 ⟨⟨4,8⟩,68,12,.left,1⟩ .nil .nil) .nil) .nil) (.node 1 ⟨⟨8,5⟩,68,11,.down,1⟩ .nil .nil)))) (.node 3 ⟨⟨1,10⟩,64,13,.left,1⟩ (.node 4 ⟨⟨0,6⟩,59,18,.up,3⟩ (.node 3 ⟨⟨0,7⟩,60,17,.up,1⟩ (.node 5 ⟨⟨7,0⟩,60,17,.up,1⟩ (.node 4 ⟨⟨3,12⟩,68,9,.left,1⟩ (.node 4 ⟨⟨3,6⟩,62,15,.down,1⟩ (.node 3 ⟨⟨3,10⟩,66,11,.right,1⟩ (.node 3 ⟨⟨3,9⟩,65,12,.left,1⟩ (.node 2 ⟨⟨2,11⟩,66,11,.left,1⟩ (.node 2 ⟨⟨10,5⟩,69,9,.down,1⟩ (.node 1 ⟨⟨8,4⟩,68,12,.up,1⟩ .nil .nil) (.node 1 ⟨⟨5,9⟩,72,10,.right,1⟩ .nil .nil)) (.node 1 ⟨⟨3,10⟩,66,11,.up,2⟩ (.node 1 ⟨⟨3,10⟩,66,11,.left,1⟩ .nil .nil) .nil)) (.node 2 ⟨⟨3,4⟩,61,17,.up,1⟩ (.node 2 ⟨⟨3,9⟩,66,12,.up,2⟩ (.node 2 ⟨⟨8,6⟩,70,10,.right,1⟩ (.node 2 ⟨⟨4,6⟩,68,14,.down,1⟩ (.node 1 ⟨⟨4,4⟩,66,16,.up,1⟩ (.node 1 ⟨⟨8,6⟩,72,10,.right,3⟩ .nil .nil) .nil) (.node 1 ⟨⟨3,5⟩,68,16,.left,3⟩ .nil .nil)) (.node 1 ⟨⟨6,6⟩,68,12,.left,1⟩ .nil .nil)) (.node 1 ⟨⟨6,8⟩,71,10,.down,1⟩ (.node 1 ⟨⟨7,7⟩,73,10,.right,3⟩ .nil .nil) .nil)) (.node 1 ⟨⟨6,5⟩,66,13,.right,1⟩ (.node 1 ⟨⟨3,9⟩,69,12,.left,1⟩ .nil .nil) .nil))) (.node 2 ⟨⟨6,8⟩,70,10,.down,1⟩ (.node 1 ⟨⟨7,7⟩,72,10,.right,2⟩ .nil .nil) (.node 1 ⟨⟨5,6⟩,70,13,.up,2⟩ .nil .nil))) (.node 3 ⟨⟨12,6⟩,71,6,.down,1⟩ (.node 2 ⟨⟨6,11⟩,72,7,.right,2⟩ (.node 1 ⟨⟨6,9⟩,72,9,.right,2⟩ (.node 1 ⟨⟨5,10⟩,72,9,.up,1⟩ .nil .nil) .nil) (.node 1 ⟨⟨2,9⟩,68,13,.up,3⟩ (.node 1 ⟨⟨11,6⟩,76,7,.left,1⟩ .nil .nil) .nil)) (.node 2 ⟨⟨2,7⟩,63,15,.left,1⟩ (.node 2 ⟨⟨12,7⟩,73,5,.down,2⟩ (.node 1 ⟨⟨2,4⟩,63,18,.left,1⟩ .nil .nil) (.node 1 ⟨⟨4,4⟩,65,16,.right,1⟩ (.node 1 ⟨⟨4,6⟩,69,14,.left,2⟩ .nil .nil) .nil)) (.node 1 ⟨⟨5,7⟩,68,12,.down,1⟩ .nil .nil)))) (.node 3 ⟨⟨11,3⟩,68,10,.up,1⟩ (.node 2 ⟨⟨2,8⟩,65,14,.down,1⟩ (.node 1 ⟨⟨1,7⟩,64,16,.right,1⟩ (.node 1 ⟨⟨2,6⟩,65,16,.up,1⟩ .nil .nil) .nil) (.node 1 ⟨⟨1,7⟩,66,16,.left,3⟩ .nil .nil)) (.node 2 ⟨⟨1,7⟩,64,16,.left,1⟩ (.node 2 ⟨⟨9,6⟩,73,9,.right,1⟩ (.node 1 ⟨⟨3,6⟩,67,15,.up,3⟩ (.node 1 ⟨⟨7,6⟩,75,11,.left,1⟩ .nil .nil) .nil) (.node 1 ⟨⟨6,4⟩,70,14,.up,2⟩ .nil .nil)) (.node 1 ⟨⟨8,5⟩,70,11,.left,1⟩ .nil .nil)))) (.node 4 ⟨⟨4,5⟩,62,15,.up,1⟩ (.node 3 ⟨⟨9,3⟩,65,12,.left,3⟩ (.node 3 ⟨⟨9,6⟩,68,9,.down,3⟩ (.node 4 ⟨⟨4,7⟩,64,13,.up,1⟩ (.node 3 ⟨⟨5,11⟩,69,8,.down,1⟩ (.node 3 ⟨⟨5,6⟩,64,13,.up,1⟩ (.node 3 ⟨⟨5,7⟩,65,12,.right,1⟩ (.node 2 ⟨⟨10,0⟩,64,14,.left,1⟩ (.node 1 ⟨⟨6,8⟩,70,10,.down,3⟩ .nil .nil) (.node 1 ⟨⟨5,7⟩,70,12,.left,1⟩ .nil .nil)) (.node 2 ⟨⟨2,3⟩,58,19,.left,1⟩ (.node 1 ⟨⟨4,7⟩,65,13,.down,1⟩ .nil .nil) (.node 1 ⟨⟨9,4⟩,67,11,.left,2⟩ .nil .nil))) (.node 2 ⟨⟨1,7⟩,61,16,.right,1⟩ (.node 2 ⟨⟨10,4⟩,69,10,.left,1⟩ (.node 1 ⟨⟨6,7⟩,73,11,.up,1⟩ .nil .nil) (.node 1 ⟨⟨6,9⟩,75,9,.down,1⟩ .nil .nil)) (.node 1 ⟨⟨11,3⟩,69,10,.up,2⟩ (.node 1 ⟨⟨7,8⟩,75,9,.right,2⟩ .nil .nil) .nil))) (.node 2 ⟨⟨9,5⟩,68,10,.down,1⟩ (.node 2 ⟨⟨6,10⟩,71,8,.right,2⟩ (.node 2 ⟨⟨8,4⟩,68,12,.up,1⟩ (.node 1 ⟨⟨9,5⟩,70,10,.right,3⟩ .nil .nil) (.node 1 ⟨⟨6,6⟩,69,12,.left,1⟩ .nil .nil)) (.node 1 ⟨⟨7,4⟩,66,13,.up,1⟩ .nil .nil)) (.node 1 ⟨⟨3,6⟩,64,15,.up,1⟩ .nil .nil))) (.node 3 ⟨⟨6,5⟩,64,13,.up,1⟩ (.node 2 ⟨⟨1,11⟩,65,12,.right,1⟩ (.node 1 ⟨⟨9,3⟩,65,12,.up,1⟩ .nil .nil) (.node 1 ⟨⟨8,2⟩,65,14,.right,1⟩ (.node 1 ⟨⟨6,2⟩,65,16,.left,1⟩ (.node 1 ⟨⟨7,1⟩,65,16,.up,3⟩ (.node 1 ⟨⟨5,9⟩,72,10,.up,1⟩ .nil .nil) .nil) .nil) .nil)) (.node 2 ⟨⟨8,6⟩,70,10,.down,1⟩ (.node 1 ⟨⟨6,8⟩,70,10,.down,1⟩ (.node 1 ⟨⟨6,6⟩,69,12,.up,1⟩ (.node 1 ⟨⟨4,8⟩,69,12,.up,1⟩ .nil .nil) .nil) .nil) (.node 1 ⟨⟨4,8⟩,72,12,.left,1⟩ .nil .nil)))) (.node 2 ⟨⟨9,3⟩,65,12,.down,1⟩ (.node 1 ⟨⟨11,7⟩,72,6,.down,2⟩ .nil .nil) (.node 1 ⟨⟨7,5⟩,70,12,.right,1⟩ (.node 1 ⟨⟨10,6⟩,74,8,.left,1⟩ (.node 1 ⟨⟨5,5⟩,72,14,.left,1⟩ .nil .nil) .nil) .nil))) (.node 2 ⟨⟨9,0⟩,63,15,.up,1⟩ (.node 2 ⟨⟨6,3⟩,63,15,.left,3⟩ (.node 2 ⟨⟨9,2⟩,66,13,.down,1⟩ (.node 1 ⟨⟨6,8⟩,70,10,.right,1⟩ .nil .nil) (.node 1 ⟨⟨1,6⟩,62,17,.up,3⟩ (.node 1 ⟨⟨10,6⟩,73,8,.left,1⟩ .nil .nil) .nil)) (.node 1 ⟨⟨7,4⟩,66,13,.down,1⟩ .nil .nil)) (.node 1 ⟨⟨5,12⟩,74,7,.down,2⟩ .nil .nil))) (.node 3 ⟨⟨4,2⟩,60,18,.up,1⟩ (.node 3 ⟨⟨10,3⟩,69,11,.up,1⟩ (.node 2 ⟨⟨7,3⟩,68,14,.down,1⟩ (.node 1 ⟨⟨7,5⟩,72,12,.up,1⟩ .nil .nil) (.node 1 ⟨⟨7,7⟩,74,10,.down,1⟩ .nil .nil)) (.node 2 ⟨⟨7,1⟩,65,16,.up,1⟩ (.node 1 ⟨⟨9,6⟩,73,9,.left,1⟩ .nil .nil) (.node 1 ⟨⟨4,11⟩,72,9,.left,1⟩ .nil .nil))) (.node 2 ⟨⟨2,6⟩,63,16,.down,1⟩ (.node 2 ⟨⟨4,6⟩,66,14,.up,2⟩ (.node 1 ⟨⟨5,5⟩,68,14,.right,1⟩ .nil .nil) (.node 1 ⟨⟨5,12⟩,73,7,.right,1⟩ (.node 1 ⟨⟨3,5⟩,67,16,.left,1⟩ .nil .nil) .nil)) (.node 1 ⟨⟨4,4⟩,64,16,.down,1⟩ .nil .nil))))) (.node 2 ⟨⟨6,4⟩,63,14,.left,2⟩ (.node 2 ⟨⟨11,6⟩,72,7,.right,1⟩ (.node 1 ⟨⟨8,6⟩,70,10,.right,1⟩ .nil .nil) (.node 1 ⟨⟨5,3⟩,67,16,.up,1⟩ .nil .nil)) (.node 1 ⟨⟨5,9⟩,68,10,.right,1⟩ .nil .nil))) (.node 3 ⟨⟨9,2⟩,64,13,.up,2⟩ (.node 4 ⟨⟨6,3⟩,62,15,.up,2⟩ (.node 4 ⟨⟨7,5⟩,65,12,.left,1⟩ (.node 3 ⟨⟨4,10⟩,67,10,.down,3⟩ (.node 2 ⟨⟨2,4⟩,62,18,.up,1⟩ (.node 1 ⟨⟨4,9⟩,72,11,.up,2⟩ .nil .nil) (.node 1 ⟨⟨3,10⟩,70,11,.left,1⟩ (.node 1 ⟨⟨5,10⟩,74,9,.right,1⟩ .nil .nil) .nil)) (.node 2 ⟨⟨9,5⟩,67,10,.right,1⟩ (.node 2 ⟨⟨9,1⟩,63,14,.left,1⟩ (.node 2 ⟨⟨2,7⟩,62,15,.up,3⟩ (.node 1 ⟨⟨8,6⟩,70,10,.down,1⟩ .nil .nil) (.node 1 ⟨⟨1,8⟩,65,15,.left,1⟩ .nil .nil)) (.node 1 ⟨⟨5,9⟩,68,10,.right,1⟩ .nil .nil)) (.node 1 ⟨⟨7,3⟩,64,14,.left,3⟩ .nil .nil))) (.node 3 ⟨⟨5,11⟩,70,8,.down,2⟩ (.node 2 ⟨⟨2,6⟩,63,16,.up,3⟩ (.node 1 ⟨⟨9,4⟩,71,11,.up,1⟩ .nil .nil) (.node 1 ⟨⟨9,6⟩,71,9,.down,1⟩ (.node 1 ⟨⟨8,5⟩,73,11,.left,2⟩ (.node 1 ⟨⟨5,5⟩,70,14,.up,1⟩ .nil .nil) .nil) .nil)) (.node 2 ⟨⟨6,10⟩,72,8,.right,1⟩ (.node 1 ⟨⟨4,10⟩,72,10,.left,1⟩ .nil .nil) (.node 1 ⟨⟨1,5⟩,63,18,.up,1⟩ (.node 1 ⟨⟨6,4⟩,68,14,.left,1⟩ .nil .nil) .nil)))) (.node 3 ⟨⟨9,5⟩,67,10,.down,1⟩ (.node 2 ⟨⟨11,5⟩,70,8,.right,2⟩ (.node 2 ⟨⟨0,9⟩,65,15,.up,3⟩ (.node 1 ⟨⟨3,7⟩,66,14,.up,1⟩ .nil .nil) (.node 1 ⟨⟨6,8⟩,71,10,.right,1⟩ .nil .nil)) (.node 1 ⟨⟨10,6⟩,72,8,.down,1⟩ (.node 1 ⟨⟨8,5⟩,72,11,.left,1⟩ .nil .nil) .nil)) (.node 2 ⟨⟨5,8⟩,66,11,.right,1⟩ (.node 3 ⟨⟨9,2⟩,65,13,.up,1⟩ (.node 2 ⟨⟨9,4⟩,68,11,.down,1⟩ (.node 1 ⟨⟨3,3⟩,61,18,.up,1⟩ .nil .nil) (.node 1 ⟨⟨4,12⟩,72,8,.down,1⟩ (.node 1 ⟨⟨5,9⟩,70,10,.up,1⟩ (.node 1 ⟨⟨4,10⟩,72,10,.up,1⟩ .nil .nil) .nil) .nil)) (.node 2 ⟨⟨2,8⟩,64,14,.left,2⟩ (.node 1 ⟨⟨9,6⟩,70,9,.down,2⟩ .nil .nil) (.node 1 ⟨⟨6,11⟩,72,7,.right,3⟩ (.node 1 ⟨⟨1,7⟩,65,16,.down,1⟩ .nil .nil) .nil))) (.node 1 ⟨⟨3,8⟩,64,13,.left,1⟩ .nil .nil)))) (.node 2 ⟨⟨4,7⟩,64,13,.left,1⟩ (.node 2 ⟨⟨0,8⟩,61,16,.left,1⟩ (.node 2 ⟨⟨10,5⟩,70,9,.right,2⟩ (.node 1 ⟨⟨9,6⟩,73,9,.down,1⟩ .nil .nil) (.node 1 ⟨⟨4,8⟩,69,12,.right,1⟩ (.node 1 ⟨⟨6,6⟩,70,12,.up,1⟩ .nil .nil) .nil)) (.node 1 ⟨⟨6,5⟩,66,13,.up,1⟩ .nil .nil)) (.node 1 ⟨⟨12,4⟩,70,8,.right,1⟩ (.node 2 ⟨⟨3,11⟩,68,10,.left,1⟩ (.node 1 ⟨⟨5,10⟩,70,9,.right,1⟩ .nil .nil) (.node 1 ⟨⟨11,0⟩,66,13,.left,1⟩ (.node 1 ⟨⟨5,11⟩,71,8,.right,1⟩ (.node 1 ⟨⟨8,4⟩,67,12,.right,1⟩ (.node 1 ⟨⟨3,11⟩,73,10,.left,1⟩ .nil .nil) .nil) .nil) .nil)) .nil)))) (.node 2 ⟨⟨8,3⟩,64,13,.left,1⟩ (.node 2 ⟨⟨3,5⟩,62,16,.right,1⟩ (.node 1 ⟨⟨2,8⟩,65,14,.left,1⟩ (.node 1 ⟨⟨6,9⟩,72,9,.right,1⟩ .nil .nil) .nil) (.node 1 ⟨⟨7,4⟩,67,13,.left,2⟩ .nil .nil)) (.node 1 ⟨⟨12,2⟩,69,10,.right,1⟩ (.node 1 ⟨⟨10,2⟩,67,12,.left,1⟩ (.node 1 ⟨⟨11,1⟩,67,12,.up,3⟩ (.node 1 ⟨⟨3,7⟩,67,14,.up,3⟩ .nil .nil) .nil) .nil) .nil)))))

/-- The visited bitmask of the part-1 search on `exampleGrid` after 2125
loop iterations. -/
def exampleVis2125 : Nat :=
  907290232831741961544692706995632666732139048747335176905219105313528466763356923697218720352340814838177007211548240127761505587773298544304639671541016959372091767292526269839613147877740468407087471087312263812208747290065812993892154727948601666919065932970549439804374564353938887089628963468175220847890827263964544057537993920300850194629734190339454721990665807015173904029758578615061042192942943018146668788951683250084130272256447870154153366232976422248723724373157120185447660637923060947483788571678474838328290608609772070459468107078389572473559011743882345119945516797151314210985951476829808182772566310948437821537793206953993830803083993059881750527804560292686120094661498146083969345531349426785135067924138562464414856300207831937655374800862091010557092851574196990088990627758893128614551758608410601308530764929739510552258627892631221429292223984062306411962552738358633873146092712907051828784151481296338712199455682226310206491037886593038

/-- The queue of the part-1 search on `exampleGrid` after 2550 loop
iterations (verified by computation in the slice theorems below);
recorded literally so that the long run can be replayed in
bounded-depth slices. -/
def exampleHeap2550 : Heap :=
  (.node 4 ⟨⟨9,1⟩,69,14,.right,1⟩ (.node 5 ⟨⟨4,9⟩,72,11,.right,1⟩ (.node 5 ⟨⟨11,6⟩,76,7,.left,1⟩ (.node 4 ⟨⟨8,5⟩,72,11,.left,1⟩ (.node 4 ⟨⟨7,3⟩,69,14,.up,2⟩ (.node 3 ⟨⟨5,10⟩,74,9,.right,1⟩ (.node 2 ⟨⟨9,4⟩,73,11,.up,1⟩ (.node 2 ⟨⟨4,4⟩,69,16,.left,1⟩ (.node 1 ⟨⟨8,5⟩,81,11,.up,1⟩ .nil .nil) (.node 1 ⟨⟨8,7⟩,79,9,.down,1⟩ .nil .nil)) (.node 1 ⟨⟨7,9⟩,81,8,.right,2⟩ .nil .nil)) (.node 2 ⟨⟨8,7⟩,78,9,.right,1⟩ (.node 1 ⟨⟨6,7⟩,78,11,.left,1⟩ .nil .nil) (.node 1 ⟨⟨9,7⟩,84,8,.left,1⟩ .nil .nil))) (.node 3 ⟨⟨6,4⟩,70,14,.right,1⟩ (.node 2 ⟨⟨7,3⟩,70,14,.right,1⟩ (.node 1 ⟨⟨9,5⟩,75,10,.down,1⟩ (.node 1 ⟨⟨8,7⟩,77,9,.right,2⟩ .nil .nil) .nil) (.node 1 ⟨⟨7,6⟩,75,11,.left,1⟩ (.node 1 ⟨⟨10,6⟩,78,8,.right,1⟩ (.node 1 ⟨⟨9,7⟩,80,8,.down,2⟩ (.node 1 ⟨⟨8,6⟩,79,10,.left,1⟩ .nil .nil) .nil) .nil) .nil)) (.node 2 ⟨⟨6,5⟩,71,13,.down,1⟩ (.node 2 ⟨⟨10,7⟩,78,7,.left,1⟩ (.node 2 ⟨⟨6,7⟩,75,11,.down,1⟩ (.node 1 ⟨⟨6,5⟩,76,13,.up,1⟩ (.node 1 ⟨⟨8,5⟩,79,11,.up,1⟩ .nil .nil) .nil) (.node 1 ⟨⟨5,6⟩,75,13,.left,2⟩ .nil .nil)) (.node 1 ⟨⟨11,7⟩,80,6,.right,1⟩ .nil .nil)) (.node 1 ⟨⟨6,9⟩,75,9,.down,1⟩ .nil .nil)))) (.node 3 ⟨⟨6,8⟩,74,10,.up,1⟩ (.node 2 ⟨⟨1,9⟩,73,14,.left,1⟩ (.node 1 ⟨⟨5,3⟩,71,16,.up,3⟩ .nil .nil) (.node 1 ⟨⟨5,6⟩,78,13,.up,3⟩ .nil .nil)) (.node 2 ⟨⟨3,9⟩,72,12,.right,1⟩ (.node 2 ⟨⟨11,2⟩,74,11,.up,3⟩ (.node 1 ⟨⟨9,6⟩,78,9,.left,1⟩ .nil .nil) (.node 1 ⟨⟨6,7⟩,78,11,.right,1⟩ .nil .nil)) (.node 1 ⟨⟨4,7⟩,79,13,.left,1⟩ .nil .nil)))) (.node 4 ⟨⟨3,11⟩,73,10,.left,1⟩ (.node 4 ⟨⟨5,3⟩,67,16,.up,1⟩ (.node 4 ⟨⟨9,3⟩,72,12,.up,1⟩ (.node 3 ⟨⟨5,10⟩,75,9,.up,1⟩ (.node 3 ⟨⟨6,4⟩,70,14,.down,1⟩ (.node 2 ⟨⟨7,8⟩,75,9,.right,2⟩ (.node 1 ⟨⟨9,6⟩,77,9,.down,1⟩ .nil .nil) (.node 1 ⟨⟨6,10⟩,78,8,.down,1⟩ .nil .nil)) (.node 2 ⟨⟨5,11⟩,77,8,.up,1⟩ (.node 2 ⟨⟨2,6⟩,72,16,.left,1⟩ (.node 1 ⟨⟨9,4⟩,77,11,.up,1⟩ .nil .nil) (.node 1 ⟨⟨4,6⟩,75,14,.right,1⟩ .nil .nil)) (.node 1 ⟨⟨2,8⟩,71,14,.up,1⟩ (.node 1 ⟨⟨7,8⟩,81,9,.down,1⟩ .nil .nil) .nil))) (.node 2 ⟨⟨6,7⟩,75,11,.up,1⟩ (.node 1 ⟨⟨11,4⟩,78,9,.up,1⟩ .nil .nil) (.node 1 ⟨⟨11,6⟩,81,7,.down,1⟩ (.node 1 ⟨⟨6,8⟩,79,10,.up,1⟩ .nil .nil) .nil))) (.node 3 ⟨⟨7,5⟩,72,12,.up,1⟩ (.node 3 ⟨⟨9,6⟩,76,9,.right,1⟩ (.node 3 ⟨⟨2,9⟩,72,13,.left,1⟩ (.node 2 ⟨⟨6,10⟩,79,8,.down,2⟩ (.node 2 ⟨⟨10,1⟩,75,13,.right,1⟩ (.node 1 ⟨⟨11,5⟩,81,8,.left,1⟩ .nil .nil) (.node 1 ⟨⟨5,10⟩,81,9,.right,1⟩ .nil .nil)) (.node 1 ⟨⟨3,10⟩,77,11,.left,1⟩ .nil .nil)) (.node 2 ⟨⟨12,8⟩,81,4,.down,1⟩ (.node 2 ⟨⟨3,7⟩,71,14,.down,1⟩ (.node 1 ⟨⟨2,6⟩,69,16,.left,3⟩ (.node 1 ⟨⟨1,11⟩,75,12,.left,3⟩ .nil .nil) .nil) (.node 1 ⟨⟨8,1⟩,72,15,.left,1⟩ (.node 2 ⟨⟨4,11⟩,80,9,.left,1⟩ (.node 2 ⟨⟨6,7⟩,79,11,.left,1⟩ (.node 1 ⟨⟨7,7⟩,80,10,.right,1⟩ .nil .nil) (.node 1 ⟨⟨5,5⟩,77,14,.down,1⟩ (.node 1 ⟨⟨5,3⟩,76,16,.up,1⟩ (.node 1 ⟨⟨7,6⟩,81,11,.up,1⟩ .nil .nil) .nil) .nil)) (.node 1 ⟨⟨6,11⟩,83,7,.right,1⟩ .nil .nil)) .nil)) (.node 1 ⟨⟨12,6⟩,80,6,.up,1⟩ .nil .nil))) (.node 2 ⟨⟨1,9⟩,71,14,.left,3⟩ (.node 2 ⟨⟨7,4⟩,73,13,.left,3⟩ (.node 1 ⟨⟨5,9⟩,80,10,.left,1⟩ .nil .nil) (.node 1 ⟨⟨4,9⟩,79,11,.up,3⟩ .nil .nil)) (.node 1 ⟨⟨6,10⟩,80,8,.right,1⟩ .nil .nil))) (.node 2 ⟨⟨4,5⟩,70,15,.down,1⟩ (.node 1 ⟨⟨11,7⟩,80,6,.left,1⟩ (.node 1 ⟨⟨4,3⟩,70,17,.up,1⟩ .nil .nil) .nil) (.node 1 ⟨⟨6,9⟩,78,9,.right,1⟩ .nil .nil)))) (.node 3 ⟨⟨7,5⟩,71,12,.up,1⟩ (.node 4 ⟨⟨6,11⟩,77,7,.down,1⟩ (.node 3 ⟨⟨1,9⟩,70,14,.right,1⟩ (.node 2 ⟨⟨5,11⟩,77,8,.up,1⟩ (.node 2 ⟨⟨7,12⟩,83,5,.right,3⟩ (.node 1 ⟨⟨7,4⟩,78,13,.up,2⟩ .nil .nil) (.node 1 ⟨⟨6,6⟩,76,12,.right,1⟩ (.node 1 ⟨⟨4,6⟩,78,14,.left,1⟩ .nil .nil) .nil)) (.node 1 ⟨⟨5,5⟩,79,14,.up,3⟩ .nil .nil)) (.node 2 ⟨⟨1,7⟩,68,16,.left,1⟩ (.node 1 ⟨⟨9,6⟩,77,9,.right,2⟩ (.node 1 ⟨⟨6,10⟩,78,8,.up,1⟩ (.node 1 ⟨⟨9,5⟩,80,10,.left,3⟩ .nil .nil) .nil) .nil) (.node 1 ⟨⟨11,1⟩,72,12,.right,1⟩ (.node 3 ⟨⟨6,10⟩,78,8,.down,1⟩ (.node 2 ⟨⟨6,9⟩,78,9,.up,1⟩ (.node 1 ⟨⟨8,5⟩,79,11,.right,1⟩ .nil .nil) (.node 1 ⟨⟨7,9⟩,81,8,.right,3⟩ .nil .nil)) (.node 2 ⟨⟨10,4⟩,77,10,.up,1⟩ (.node 2 ⟨⟨1,8⟩,72,15,.down,1⟩ (.node 1 ⟨⟨1,6⟩,70,17,.up,1⟩ (.node 1 ⟨⟨7,8⟩,78,9,.right,1⟩ .nil .nil) .nil) (.node 1 ⟨⟨6,11⟩,85,7,.up,1⟩ .nil .nil)) (.node 1 ⟨⟨9,1⟩,75,14,.left,1⟩ (.node 1 ⟨⟨6,8⟩,79,10,.up,1⟩ .nil .nil) .nil))) .nil))) (.node 3 ⟨⟨6,7⟩,73,11,.up,1⟩ (.node 3 ⟨⟨6,10⟩,78,8,.up,1⟩ (.node 3 ⟨⟨6,10⟩,78,8,.right,1⟩ (.node 2 ⟨⟨4,12⟩,78,8,.down,1⟩ (.node 1 ⟨⟨3,11⟩,78,10,.left,2⟩ .nil .nil) (.node 1 ⟨⟨4,10⟩,78,10,.left,1⟩ (.node 1 ⟨⟨4,10⟩,78,10,.up,1⟩ (.node 1 ⟨⟨5,9⟩,79,10,.up,2⟩ .nil .nil) .nil) .nil)) (.node 2 ⟨⟨7,4⟩,73,13,.up,1⟩ (.node 1 ⟨⟨10,6⟩,79,8,.down,1⟩ .nil .nil) (.node 1 ⟨⟨7,2⟩,73,15,.right,1⟩ (.node 1 ⟨⟨5,2⟩,71,17,.left,1⟩ .nil .nil) .nil))) (.node 2 ⟨⟨5,8⟩,76,11,.left,1⟩ (.node 1 ⟨⟨7,12⟩,82,5,.right,1⟩ (.node 1 ⟨⟨4,12⟩,80,8,.left,1⟩ (.node 1 ⟨⟨5,12⟩,83,7,.left,1⟩ .nil .nil) .nil) .nil) (.node 1 ⟨⟨7,9⟩,82,8,.right,1⟩ (.node 1 ⟨⟨6,5⟩,78,13,.left,1⟩ .nil .nil) .nil))) (.node 2 ⟨⟨10,7⟩,79,7,.down,1⟩ (.node 1 ⟨⟨10,5⟩,77,9,.up,1⟩ (.node 1 ⟨⟨7,6⟩,78,11,.left,1⟩ .nil .nil) .nil) (.node 1 ⟨⟨9,6⟩,80,9,.left,2⟩ (.node 1 ⟨⟨2,8⟩,75,14,.left,1⟩ .nil .nil) .nil)))) (.node 2 ⟨⟨6,4⟩,70,14,.up,2⟩ (.node 3 ⟨⟨10,7⟩,77,7,.left,1⟩ (.node 4 ⟨⟨0,11⟩,71,13,.up,1⟩ (.node 3 ⟨⟨10,3⟩,73,11,.up,2⟩ (.node 3 ⟨⟨10,6⟩,77,8,.down,1⟩ (.node 2 ⟨⟨5,8⟩,76,11,.left,1⟩ (.node 1 ⟨⟨9,4⟩,76,11,.left,1⟩ .nil .nil) (.node 1 ⟨⟨7,8⟩,79,9,.right,1⟩ (.node 1 ⟨⟨5,7⟩,78,12,.left,1⟩ .nil .nil) .nil)) (.node 2 ⟨⟨5,8⟩,76,11,.right,1⟩ (.node 1 ⟨⟨6,10⟩,81,8,.up,1⟩ .nil .nil) (.node 1 ⟨⟨6,6⟩,77,12,.up,2⟩ .nil .nil))) (.node 2 ⟨⟨6,12⟩,79,6,.down,1⟩ (.node 1 ⟨⟨4,7⟩,78,13,.up,3⟩ .nil .nil) (.node 1 ⟨⟨3,8⟩,74,13,.left,1⟩ (.node 1 ⟨⟨8,6⟩,81,10,.left,2⟩ .nil .nil) .nil))) (.node 3 ⟨⟨11,7⟩,79,6,.left,1⟩ (.node 2 ⟨⟨5,3⟩,70,16,.left,1⟩ (.node 1 ⟨⟨9,5⟩,81,10,.up,1⟩ .nil .nil) (.node 1 ⟨⟨9,7⟩,82,8,.down,1⟩ .nil .nil)) (.node 2 ⟨⟨8,4⟩,76,12,.up,1⟩ (.node 1 ⟨⟨4,8⟩,79,12,.right,1⟩ .nil .nil) (.node 1 ⟨⟨10,6⟩,81,8,.down,1⟩ (.node 1 ⟨⟨10,4⟩,79,10,.up,1⟩ (.node 1 ⟨⟨12,4⟩,82,8,.up,2⟩ .nil .nil) .nil) .nil)))) (.node 2 ⟨⟨6,11⟩,79,7,.down,1⟩ (.node 2 ⟨⟨8,6⟩,78,10,.down,1⟩ (.node 2 ⟨⟨3,5⟩,72,16,.up,1⟩ (.node 1 ⟨⟨6,11⟩,85,7,.up,1⟩ .nil .nil) (.node 1 ⟨⟨9,3⟩,77,12,.up,1⟩ .nil .nil)) (.node 1 ⟨⟨7,5⟩,77,12,.left,2⟩ (.node 1 ⟨⟨9,5⟩,80,10,.down,1⟩ .nil .nil) .nil)) (.node 1 ⟨⟨3,7⟩,75,14,.left,1⟩ .nil .nil))) (.node 1 ⟨⟨7,8⟩,79,9,.right,1⟩ .nil .nil)))) (.node 3 ⟨⟨8,2⟩,69,14,.left,1⟩ (.node 2 ⟨⟨11,8⟩,80,5,.down,3⟩ (.node 1 ⟨⟨6,9⟩,80,9,.up,1⟩ .nil .nil) (.node 1 ⟨⟨5,6⟩,76,13,.left,1⟩ .nil .nil)) (.node 2 ⟨⟨11,6⟩,77,7,.right,1⟩ (.node 2 ⟨⟨5,5⟩,70,14,.left,2⟩ (.node 2 ⟨⟨8,4⟩,72,12,.up,1⟩ (.node 1 ⟨⟨7,6⟩,78,11,.right,1⟩ .nil .nil) (.node 1 ⟨⟨5,5⟩,72,14,.left,1⟩ (.node 1 ⟨⟨4,10⟩,80,10,.left,1⟩ .nil .nil) .nil)) (.node 1 ⟨⟨11,5⟩,77,8,.up,1⟩ (.node 1 ⟨⟨12,6⟩,80,6,.down,1⟩ (.node 1 ⟨⟨12,4⟩,80,8,.up,1⟩ (.node 1 ⟨⟨4,8⟩,78,12,.up,1⟩ .nil .nil) .nil) .nil) .nil)) (.node 1 ⟨⟨0,6⟩,66,18,.left,1⟩ (.node 1 ⟨⟨10,3⟩,73,11,.left,1⟩ .nil .nil) .nil))))) (.node 4 ⟨⟨11,6⟩,76,7,.left,1⟩ (.node 3 ⟨⟨5,2⟩,66,17,.up,1⟩ (.node 2 ⟨⟨9,6⟩,77,9,.down,1⟩ (.node 1 ⟨⟨5,8⟩,76,11,.up,2⟩ .nil .nil) (.node 1 ⟨⟨4,9⟩,76,11,.left,1⟩ .nil .nil)) (.node 2 ⟨⟨8,5⟩,74,11,.down,1⟩ (.node 2 ⟨⟨3,8⟩,72,13,.left,2⟩ (.node 1 ⟨⟨4,9⟩,74,11,.down,1⟩ (.node 1 ⟨⟨10,1⟩,73,13,.left,1⟩ (.node 1 ⟨⟨4,7⟩,76,13,.up,1⟩ .nil .nil) .nil) .nil) (.node 1 ⟨⟨6,9⟩,79,9,.right,1⟩ (.node 1 ⟨⟨9,4⟩,77,11,.up,1⟩ .nil .nil) .nil)) (.node 1 ⟨⟨7,11⟩,80,6,.right,3⟩ .nil .nil))) (.node 3 ⟨⟨2,9⟩,70,13,.down,1⟩ (.node 3 ⟨⟨8,1⟩,68,15,.right,1⟩ (.node 3 ⟨⟨10,6⟩,75,8,.right,1⟩ (.node 2 ⟨⟨6,12⟩,78,6,.right,1⟩ (.node 1 ⟨⟨10,4⟩,75,10,.up,1⟩ .nil .nil) (.node 1 ⟨⟨7,4⟩,72,13,.down,1⟩ .nil .nil)) (.node 2 ⟨⟨11,2⟩,72,11,.left,1⟩ (.node 2 ⟨⟨0,7⟩,66,17,.left,1⟩ (.node 2 ⟨⟨7,12⟩,81,5,.right,2⟩ (.node 1 ⟨⟨7,10⟩,81,7,.right,1⟩ (.node 1 ⟨⟨6,9⟩,79,9,.down,2⟩ .nil .nil) .nil) (.node 1 ⟨⟨1,8⟩,74,15,.left,1⟩ .nil .nil)) (.node 1 ⟨⟨3,8⟩,72,13,.right,1⟩ (.node 1 ⟨⟨6,11⟩,83,7,.up,1⟩ .nil .nil) .nil)) (.node 1 ⟨⟨3,7⟩,71,14,.left,2⟩ (.node 1 ⟨⟨4,8⟩,73,12,.down,1⟩ .nil .nil) .nil))) (.node 2 ⟨⟨1,9⟩,70,14,.up,1⟩ (.node 1 ⟨⟨6,1⟩,68,17,.left,1⟩ .nil .nil) (.node 1 ⟨⟨5,10⟩,75,9,.right,1⟩ (.node 1 ⟨⟨7,11⟩,83,6,.right,2⟩ .nil .nil) .nil))) (.node 2 ⟨⟨2,10⟩,72,12,.up,1⟩ (.node 2 ⟨⟨7,10⟩,80,7,.right,2⟩ (.node 1 ⟨⟨6,11⟩,80,7,.down,1⟩ (.node 1 ⟨⟨6,9⟩,78,9,.down,3⟩ .nil .nil) .nil) (.node 1 ⟨⟨4,6⟩,76,14,.up,3⟩ .nil .nil)) (.node 1 ⟨⟨10,7⟩,77,7,.down,2⟩ .nil .nil))))) (.node 3 ⟨⟨4,9⟩,72,11,.up,2⟩ (.node 4 ⟨⟨11,1⟩,72,12,.left,1⟩ (.node 4 ⟨⟨3,5⟩,68,16,.left,3⟩ (.node 3 ⟨⟨7,7⟩,74,10,.down,1⟩ (.node 3 ⟨⟨4,8⟩,72,12,.left,1⟩ (.node 2 ⟨⟨8,5⟩,73,11,.left,2⟩ (.node 2 ⟨⟨4,11⟩,75,9,.left,1⟩ (.node 2 ⟨⟨2,7⟩,70,15,.left,1⟩ (.node 2 ⟨⟨4,12⟩,77,8,.left,1⟩ (.node 1 ⟨⟨6,11⟩,81,7,.down,2⟩ .nil .nil) (.node 1 ⟨⟨5,10⟩,81,9,.left,1⟩ .nil .nil)) (.node 1 ⟨⟨4,7⟩,75,13,.right,1⟩ .nil .nil)) (.node 1 ⟨⟨6,11⟩,78,7,.right,1⟩ .nil .nil)) (.node 1 ⟨⟨5,5⟩,70,14,.up,1⟩ (.node 2 ⟨⟨6,9⟩,75,9,.right,1⟩ (.node 2 ⟨⟨5,4⟩,70,15,.right,1⟩ (.node 1 ⟨⟨5,10⟩,81,9,.up,2⟩ .nil .nil) (.node 1 ⟨⟨4,11⟩,78,9,.left,1⟩ .nil .nil)) (.node 1 ⟨⟨6,11⟩,81,7,.right,1⟩ (.node 1 ⟨⟨3,4⟩,71,17,.left,1⟩ .nil .nil) .nil)) .nil)) (.node 2 ⟨⟨7,2⟩,70,15,.up,1⟩ (.node 2 ⟨⟨4,5⟩,71,15,.up,3⟩ (.node 2 ⟨⟨4,11⟩,77,9,.down,1⟩ (.node 1 ⟨⟨3,6⟩,73,15,.left,1⟩ (.node 1 ⟨⟨4,9⟩,78,11,.up,1⟩ .nil .nil) .nil) (.node 1 ⟨⟨3,10⟩,76,11,.left,2⟩ .nil .nil)) (.node 1 ⟨⟨9,4⟩,79,11,.up,1⟩ .nil .nil)) (.node 1 ⟨⟨5,7⟩,75,12,.right,1⟩ (.node 1 ⟨⟨7,6⟩,79,11,.up,1⟩ .nil .nil) .nil))) (.node 2 ⟨⟨1,12⟩,73,11,.left,3⟩ (.node 2 ⟨⟨9,6⟩,76,9,.left,1⟩ (.node 1 ⟨⟨4,9⟩,76,11,.right,1⟩ (.node 1 ⟨⟨2,9⟩,76,13,.left,1⟩ (.node 1 ⟨⟨9,5⟩,81,10,.up,1⟩ .nil .nil) .nil) .nil) (.node 1 ⟨⟨9,6⟩,78,9,.right,3⟩ (.node 1 ⟨⟨8,7⟩,78,9,.down,1⟩ (.node 1 ⟨⟨6,5⟩,77,13,.up,2⟩ (.node 1 ⟨⟨8,5⟩,80,11,.up,1⟩ .nil .nil) .nil) .nil) .nil)) (.node 1 ⟨⟨2,11⟩,74,11,.up,1⟩ (.node 1 ⟨⟨6,9⟩,77,9,.down,1⟩ (.node 1 ⟨⟨7,8⟩,77,9,.right,3⟩ .nil .nil) .nil) .nil))) (.node 3 ⟨⟨4,7⟩,71,13,.left,1⟩ (.node 2 ⟨⟨8,7⟩,76,9,.down,3⟩ (.node 1 ⟨⟨7,10⟩,79,7,.right,3⟩ .nil .nil) (.node 1 ⟨⟨9,6⟩,77,9,.right,1⟩ .nil .nil)) (.node 2 ⟨⟨2,8⟩,72,14,.right,1⟩ (.node 1 ⟨⟨0,8⟩,71,16,.left,1⟩ (.node 1 ⟨⟨7,6⟩,79,11,.left,1⟩ .nil .nil) .nil) (.node 1 ⟨⟨7,8⟩,79,9,.down,1⟩ .nil .nil)))) (.node 3 ⟨⟨12,6⟩,78,6,.right,2⟩ (.node 3 ⟨⟨6,2⟩,68,16,.up,1⟩ (.node 4 ⟨⟨5,12⟩,77,7,.down,3⟩ (.node 4 ⟨⟨8,6⟩,74,10,.down,1⟩ (.node 3 ⟨⟨3,11⟩,74,10,.up,1⟩ (.node 2 ⟨⟨11,6⟩,77,7,.left,1⟩ (.node 2 ⟨⟨9,6⟩,79,9,.down,1⟩ (.node 1 ⟨⟨8,7⟩,79,9,.right,1⟩ .nil .nil) (.node 1 ⟨⟨8,5⟩,81,11,.left,3⟩ .nil .nil)) (.node 1 ⟨⟨8,4⟩,73,12,.left,3⟩ (.node 1 ⟨⟨9,7⟩,79,8,.down,3⟩ (.node 1 ⟨⟨8,6⟩,78,10,.left,1⟩ .nil .nil) .nil) .nil)) (.node 2 ⟨⟨4,8⟩,73,12,.left,1⟩ (.node 1 ⟨⟨7,6⟩,74,11,.down,1⟩ (.node 1 ⟨⟨6,5⟩,73,13,.left,2⟩ .nil .nil) .nil) (.node 1 ⟨⟨5,4⟩,74,15,.up,3⟩ .nil .nil))) (.node 3 ⟨⟨1,8⟩,70,15,.left,3⟩ (.node 2 ⟨⟨5,6⟩,73,13,.right,1⟩ (.node 1 ⟨⟨8,7⟩,77,9,.down,1⟩ (.node 1 ⟨⟨8,7⟩,77,9,.down,2⟩ .nil .nil) .nil) (.node 1 ⟨⟨11,3⟩,77,10,.left,1⟩ (.node 1 ⟨⟨7,8⟩,81,9,.down,2⟩ .nil .nil) .nil)) (.node 2 ⟨⟨12,2⟩,76,10,.up,3⟩ (.node 1 ⟨⟨4,5⟩,74,15,.left,1⟩ .nil .nil) (.node 1 ⟨⟨8,7⟩,79,9,.right,3⟩ (.node 1 ⟨⟨6,5⟩,77,13,.right,1⟩ .nil .nil) .nil)))) (.node 3 ⟨⟨8,2⟩,70,14,.up,1⟩ (.node 3 ⟨⟨10,6⟩,77,8,.right,1⟩ (.node 2 ⟨⟨5,8⟩,74,11,.down,1⟩ (.node 2 ⟨⟨6,10⟩,77,8,.right,1⟩ (.node 1 ⟨⟨5,6⟩,75,13,.up,1⟩ .nil .nil) (.node 1 ⟨⟨4,10⟩,77,10,.left,1⟩ (.node 1 ⟨⟨4,7⟩,76,13,.left,2⟩ .nil .nil) .nil)) (.node 1 ⟨⟨4,9⟩,75,11,.left,1⟩ (.node 1 ⟨⟨8,7⟩,78,9,.right,1⟩ (.node 1 ⟨⟨6,7⟩,78,11,.left,1⟩ (.node 1 ⟨⟨7,8⟩,80,9,.down,3⟩ .nil .nil) .nil) .nil) .nil)) (.node 2 ⟨⟨8,6⟩,76,10,.left,1⟩ (.node 1 ⟨⟨10,6⟩,80,8,.right,2⟩ (.node 1 ⟨⟨7,3⟩,75,14,.up,1⟩ .nil .nil) .nil) (.node 1 ⟨⟨3,6⟩,76,15,.left,3⟩ .nil .nil))) (.node 2 ⟨⟨7,5⟩,74,12,.down,1⟩ (.node 1 ⟨⟨6,4⟩,74,14,.left,3⟩ .nil .nil) (.node 1 ⟨⟨9,7⟩,82,8,.down,1⟩ .nil .nil)))) (.node 2 ⟨⟨4,7⟩,77,13,.down,1⟩ (.node 1 ⟨⟨7,6⟩,82,11,.up,1⟩ .nil .nil) (.node 1 ⟨⟨7,8⟩,82,9,.down,1⟩ .nil .nil))) (.node 2 ⟨⟨7,1⟩,69,16,.left,1⟩ (.node 2 ⟨⟨12,8⟩,82,4,.down,2⟩ (.node 2 ⟨⟨9,4⟩,75,11,.right,1⟩ (.node 1 ⟨⟨4,6⟩,72,14,.up,1⟩ (.node 1 ⟨⟨7,4⟩,76,13,.left,1⟩ .nil .nil) .nil) (.node 1 ⟨⟨4,5⟩,74,15,.up,1⟩ .nil .nil)) (.node 1 ⟨⟨9,3⟩,76,12,.up,2⟩ .nil .nil)) (.node 1 ⟨⟨3,6⟩,70,15,.right,1⟩ .nil .nil)))) (.node 2 ⟨⟨12,8⟩,80,4,.down,3⟩ (.node 3 ⟨⟨11,7⟩,78,6,.left,1⟩ (.node 2 ⟨⟨3,9⟩,73,12,.left,2⟩ (.node 1 ⟨⟨4,10⟩,75,10,.down,1⟩ .nil .nil) (.node 1 ⟨⟨0,9⟩,72,15,.left,1⟩ .nil .nil)) (.node 2 ⟨⟨1,6⟩,67,17,.left,1⟩ (.node 1 ⟨⟨8,4⟩,77,12,.left,1⟩ .nil .nil) (.node 1 ⟨⟨5,8⟩,75,11,.left,1⟩ (.node 1 ⟨⟨10,4⟩,76,10,.right,1⟩ .nil .nil) .nil))) (.node 1 ⟨⟨12,7⟩,80,5,.right,1⟩ (.node 2 ⟨⟨8,3⟩,72,13,.up,2⟩ (.node 2 ⟨⟨2,9⟩,74,13,.right,1⟩ (.node 1 ⟨⟨11,8⟩,85,5,.down,2⟩ .nil .nil) (.node 1 ⟨⟨10,7⟩,83,7,.left,1⟩ .nil .nil)) (.node 1 ⟨⟨6,9⟩,81,9,.up,1⟩ .nil .nil)) .nil))))

/-- The visited bitmask of the part-1 search on `exampleGrid` after 2550
loop iterations. -/
def exampleVis2550 : Nat :=
  997297935383371655035836963769771334632521098810227588364831838048957348821905753765202346721985197377413981816377248304888856265566657051634412172868421298424753960860395314964861811730721272072223722183969054011569758887958886566320841719605860463210884182662021562120571176920451218101811504670484194605338060457583598035061225830718429326570955849369590287814234160240687672347203785434632583921268454854259557624974915630155521821323420974140838437823806253259334112594659356085619275894079558055811048942482875855640063311016841645278840723258527604034485888622768587320014937350841048232477919449801192391222379388763988504309300895048154721446926153134469119915602196905280278342671183533477440449819128298454711326878871872817482446742951914416130834282809587596135874672916663684827951590722620864028747508860013139495201434733438170998278651635645762333300073511466564200247426163082993393170407249490233974818679256321756363921952200375629937380308529201222075560245262

/-- The queue of the part-1 search on `exampleGrid` after 2975 loop
iterations (verified by computation in the slice theorems below);
recorded literally so that the long run can be replayed in
bounded-depth slices. -/
def exampleHeap2975 : Heap :=
  (.node 5 ⟨⟨8,5⟩,81,11,.up,1⟩ (.node 5 ⟨⟨7,9⟩,84,8,.down,1⟩ (.node 4 ⟨⟨1,8⟩,77,15,.up,1⟩ (.node 4 ⟨⟨9,2⟩,79,13,.left,1⟩ (.node 4 ⟨⟨8,5⟩,81,11,.left,3⟩ (.node 3 ⟨⟨8,10⟩,86,6,.right,3⟩ (.node 3 ⟨⟨7,3⟩,80,14,.left,1⟩ (.node 2 ⟨⟨5,10⟩,86,9,.left,1⟩ (.node 1 ⟨⟨7,6⟩,85,11,.left,2⟩ .nil .nil) (.node 1 ⟨⟨7,9⟩,88,8,.right,1⟩ .nil .nil)) (.node 2 ⟨⟨7,10⟩,87,7,.right,1⟩ (.node 1 ⟨⟨8,6⟩,88,10,.left,3⟩ .nil .nil) (.node 1 ⟨⟨7,3⟩,86,14,.up,3⟩ .nil .nil))) (.node 2 ⟨⟨6,10⟩,85,8,.down,3⟩ (.node 2 ⟨⟨8,4⟩,84,12,.right,1⟩ (.node 1 ⟨⟨5,9⟩,86,10,.left,1⟩ (.node 1 ⟨⟨6,4⟩,85,14,.left,1⟩ .nil .nil) .nil) (.node 1 ⟨⟨8,6⟩,87,10,.up,1⟩ .nil .nil)) (.node 1 ⟨⟨2,11⟩,82,11,.left,3⟩ .nil .nil))) (.node 3 ⟨⟨10,6⟩,84,8,.up,1⟩ (.node 4 ⟨⟨4,7⟩,79,13,.left,1⟩ (.node 3 ⟨⟨10,9⟩,89,5,.down,2⟩ (.node 3 ⟨⟨12,4⟩,86,8,.right,1⟩ (.node 2 ⟨⟨7,9⟩,87,8,.right,1⟩ (.node 2 ⟨⟨7,11⟩,89,6,.right,1⟩ (.node 1 ⟨⟨8,4⟩,85,12,.up,2⟩ .nil .nil) (.node 1 ⟨⟨9,5⟩,87,10,.right,1⟩ (.node 1 ⟨⟨7,5⟩,86,12,.left,1⟩ .nil .nil) .nil)) (.node 1 ⟨⟨5,9⟩,85,10,.left,1⟩ .nil .nil)) (.node 2 ⟨⟨7,11⟩,88,6,.down,1⟩ (.node 2 ⟨⟨11,5⟩,89,8,.up,2⟩ (.node 1 ⟨⟨7,3⟩,83,14,.right,1⟩ .nil .nil) (.node 1 ⟨⟨10,6⟩,91,8,.left,1⟩ .nil .nil)) (.node 1 ⟨⟨7,11⟩,90,6,.up,1⟩ (.node 1 ⟨⟨12,6⟩,90,6,.right,1⟩ (.node 1 ⟨⟨5,3⟩,83,16,.left,1⟩ .nil .nil) .nil) .nil))) (.node 2 ⟨⟨10,7⟩,89,7,.down,1⟩ (.node 2 ⟨⟨11,8⟩,93,5,.right,1⟩ (.node 1 ⟨⟨9,8⟩,91,7,.left,1⟩ .nil .nil) (.node 1 ⟨⟨9,6⟩,90,9,.left,3⟩ .nil .nil)) (.node 1 ⟨⟨7,9⟩,90,8,.down,3⟩ .nil .nil))) (.node 3 ⟨⟨11,7⟩,86,6,.down,1⟩ (.node 2 ⟨⟨4,6⟩,78,14,.left,1⟩ (.node 1 ⟨⟨3,11⟩,85,10,.up,1⟩ (.node 1 ⟨⟨7,11⟩,91,6,.up,1⟩ .nil .nil) .nil) (.node 1 ⟨⟨12,6⟩,87,6,.right,3⟩ (.node 1 ⟨⟨6,8⟩,88,10,.left,1⟩ .nil .nil) .nil)) (.node 2 ⟨⟨9,7⟩,85,8,.right,1⟩ (.node 2 ⟨⟨11,5⟩,86,8,.up,1⟩ (.node 1 ⟨⟨12,6⟩,89,6,.up,1⟩ (.node 1 ⟨⟨8,8⟩,87,8,.down,1⟩ .nil .nil) .nil) (.node 1 ⟨⟨5,7⟩,85,12,.left,2⟩ .nil .nil)) (.node 1 ⟨⟨8,8⟩,87,8,.right,1⟩ .nil .nil)))) (.node 2 ⟨⟨12,3⟩,84,9,.up,3⟩ (.node 1 ⟨⟨3,7⟩,79,14,.up,1⟩ .nil .nil) (.node 1 ⟨⟨9,8⟩,86,7,.down,3⟩ (.node 1 ⟨⟨7,10⟩,89,7,.down,1⟩ (.node 1 ⟨⟨7,7⟩,87,10,.up,1⟩ (.node 1 ⟨⟨7,8⟩,90,9,.up,1⟩ .nil .nil) .nil) .nil) .nil)))) (.node 3 ⟨⟨8,3⟩,80,13,.left,1⟩ (.node 2 ⟨⟨9,5⟩,85,10,.up,1⟩ (.node 1 ⟨⟨12,8⟩,93,4,.right,1⟩ .nil .nil) (.node 1 ⟨⟨5,9⟩,88,10,.up,3⟩ (.node 1 ⟨⟨6,5⟩,85,13,.up,3⟩ .nil .nil) .nil)) (.node 2 ⟨⟨9,2⟩,80,13,.up,3⟩ (.node 2 ⟨⟨8,8⟩,86,8,.right,2⟩ (.node 2 ⟨⟨11,9⟩,91,4,.down,2⟩ (.node 2 ⟨⟨8,12⟩,91,4,.right,1⟩ (.node 1 ⟨⟨6,12⟩,90,6,.left,1⟩ (.node 1 ⟨⟨7,12⟩,91,5,.down,1⟩ .nil .nil) .nil) (.node 1 ⟨⟨10,8⟩,94,6,.left,1⟩ .nil .nil)) (.node 1 ⟨⟨11,3⟩,85,10,.up,3⟩ .nil .nil)) (.node 1 ⟨⟨10,5⟩,87,9,.up,1⟩ (.node 1 ⟨⟨7,10⟩,93,7,.up,1⟩ .nil .nil) .nil)) (.node 1 ⟨⟨10,5⟩,84,9,.up,1⟩ (.node 1 ⟨⟨11,6⟩,86,7,.right,3⟩ (.node 1 ⟨⟨10,7⟩,86,7,.down,1⟩ (.node 1 ⟨⟨11,8⟩,88,5,.left,1⟩ .nil .nil) .nil) .nil) .nil)))) (.node 3 ⟨⟨10,7⟩,86,7,.right,1⟩ (.node 2 ⟨⟨12,8⟩,90,4,.down,1⟩ (.node 2 ⟨⟨5,12⟩,88,7,.left,1⟩ (.node 1 ⟨⟨6,4⟩,84,14,.up,3⟩ .nil .nil) (.node 1 ⟨⟨5,5⟩,86,14,.left,1⟩ .nil .nil)) (.node 1 ⟨⟨7,9⟩,86,8,.down,1⟩ (.node 1 ⟨⟨7,5⟩,84,12,.right,1⟩ .nil .nil) .nil)) (.node 2 ⟨⟨4,3⟩,76,17,.left,1⟩ (.node 1 ⟨⟨8,7⟩,87,9,.left,1⟩ .nil .nil) (.node 1 ⟨⟨8,8⟩,85,8,.down,3⟩ (.node 1 ⟨⟨8,9⟩,90,7,.right,2⟩ .nil .nil) .nil)))) (.node 4 ⟨⟨6,8⟩,83,10,.right,1⟩ (.node 4 ⟨⟨4,8⟩,81,12,.up,3⟩ (.node 3 ⟨⟨2,8⟩,79,14,.down,1⟩ (.node 2 ⟨⟨9,7⟩,86,8,.right,1⟩ (.node 1 ⟨⟨9,5⟩,85,10,.left,1⟩ .nil .nil) (.node 1 ⟨⟨8,2⟩,80,14,.right,1⟩ (.node 1 ⟨⟨9,7⟩,86,8,.right,3⟩ (.node 1 ⟨⟨6,2⟩,80,16,.left,1⟩ .nil .nil) .nil) .nil)) (.node 2 ⟨⟨7,12⟩,89,5,.down,1⟩ (.node 2 ⟨⟨2,6⟩,79,16,.up,1⟩ (.node 1 ⟨⟨9,5⟩,88,10,.up,1⟩ .nil .nil) (.node 1 ⟨⟨8,11⟩,91,5,.right,3⟩ .nil .nil)) (.node 1 ⟨⟨7,10⟩,91,7,.up,1⟩ .nil .nil))) (.node 3 ⟨⟨8,5⟩,82,11,.down,1⟩ (.node 3 ⟨⟨5,11⟩,85,8,.left,1⟩ (.node 2 ⟨⟨2,11⟩,85,11,.up,1⟩ (.node 1 ⟨⟨4,6⟩,84,14,.up,1⟩ .nil .nil) (.node 1 ⟨⟨5,12⟩,92,7,.left,1⟩ .nil .nil)) (.node 2 ⟨⟨6,6⟩,81,12,.left,2⟩ (.node 1 ⟨⟨7,12⟩,91,5,.right,1⟩ .nil .nil) (.node 1 ⟨⟨4,6⟩,83,14,.left,3⟩ .nil .nil))) (.node 2 ⟨⟨6,11⟩,87,7,.down,3⟩ (.node 1 ⟨⟨7,10⟩,88,7,.up,1⟩ .nil .nil) (.node 1 ⟨⟨5,10⟩,87,9,.left,1⟩ (.node 2 ⟨⟨3,7⟩,83,14,.left,3⟩ (.node 2 ⟨⟨6,6⟩,87,12,.up,3⟩ (.node 1 ⟨⟨7,8⟩,91,9,.up,1⟩ .nil .nil) (.node 1 ⟨⟨5,7⟩,88,12,.left,1⟩ .nil .nil)) (.node 1 ⟨⟨4,8⟩,85,12,.down,1⟩ (.node 1 ⟨⟨7,7⟩,90,10,.right,1⟩ .nil .nil) .nil)) .nil)))) (.node 3 ⟨⟨3,9⟩,83,12,.left,1⟩ (.node 2 ⟨⟨9,8⟩,88,7,.down,2⟩ (.node 1 ⟨⟨7,7⟩,86,10,.up,1⟩ .nil .nil) (.node 1 ⟨⟨5,9⟩,86,10,.right,1⟩ (.node 1 ⟨⟨8,7⟩,89,9,.left,1⟩ .nil .nil) .nil)) (.node 2 ⟨⟨7,9⟩,88,8,.up,1⟩ (.node 1 ⟨⟨8,7⟩,88,9,.down,1⟩ .nil .nil) (.node 1 ⟨⟨7,9⟩,89,8,.up,1⟩ (.node 1 ⟨⟨7,6⟩,90,11,.left,3⟩ .nil .nil) .nil))))) (.node 4 ⟨⟨7,12⟩,87,5,.right,1⟩ (.node 4 ⟨⟨5,3⟩,76,16,.up,1⟩ (.node 5 ⟨⟨5,9⟩,82,10,.down,1⟩ (.node 4 ⟨⟨10,6⟩,84,8,.right,3⟩ (.node 4 ⟨⟨3,10⟩,82,11,.up,1⟩ (.node 3 ⟨⟨5,5⟩,79,14,.up,3⟩ (.node 2 ⟨⟨11,9⟩,89,4,.left,1⟩ (.node 1 ⟨⟨5,5⟩,84,14,.up,1⟩ .nil .nil) (.node 1 ⟨⟨5,7⟩,82,12,.down,1⟩ .nil .nil)) (.node 2 ⟨⟨7,6⟩,82,11,.up,1⟩ (.node 1 ⟨⟨5,6⟩,84,13,.left,1⟩ .nil .nil) (.node 1 ⟨⟨11,8⟩,90,5,.left,1⟩ (.node 1 ⟨⟨6,6⟩,84,12,.right,1⟩ (.node 1 ⟨⟨7,6⟩,86,11,.right,1⟩ (.node 1 ⟨⟨4,6⟩,86,14,.left,1⟩ .nil .nil) .nil) .nil) .nil))) (.node 3 ⟨⟨7,10⟩,86,7,.right,1⟩ (.node 3 ⟨⟨10,5⟩,85,9,.right,1⟩ (.node 3 ⟨⟨11,4⟩,85,9,.right,1⟩ (.node 2 ⟨⟨5,11⟩,87,8,.up,1⟩ (.node 2 ⟨⟨10,3⟩,86,11,.up,3⟩ (.node 1 ⟨⟨4,12⟩,89,8,.left,2⟩ .nil .nil) (.node 1 ⟨⟨9,4⟩,89,11,.left,1⟩ .nil .nil)) (.node 1 ⟨⟨6,8⟩,86,10,.left,1⟩ .nil .nil)) (.node 2 ⟨⟨5,7⟩,83,12,.up,3⟩ (.node 2 ⟨⟨3,5⟩,79,16,.left,1⟩ (.node 2 ⟨⟨9,12⟩,92,3,.right,3⟩ (.node 1 ⟨⟨7,7⟩,85,10,.left,1⟩ (.node 1 ⟨⟨8,11⟩,95,5,.up,1⟩ .nil .nil) .nil) (.node 1 ⟨⟨10,6⟩,92,8,.up,1⟩ .nil .nil)) (.node 1 ⟨⟨5,5⟩,82,14,.left,3⟩ (.node 1 ⟨⟨11,7⟩,90,6,.right,2⟩ (.node 1 ⟨⟨6,9⟩,88,9,.right,1⟩ (.node 1 ⟨⟨10,8⟩,93,6,.down,1⟩ .nil .nil) .nil) .nil) .nil)) (.node 1 ⟨⟨6,8⟩,85,10,.up,2⟩ .nil .nil))) (.node 2 ⟨⟨10,7⟩,88,7,.right,1⟩ (.node 2 ⟨⟨7,9⟩,88,8,.down,2⟩ (.node 1 ⟨⟨9,4⟩,88,11,.up,2⟩ .nil .nil) (.node 1 ⟨⟨8,5⟩,90,11,.left,1⟩ .nil .nil)) (.node 1 ⟨⟨6,8⟩,85,10,.down,1⟩ (.node 1 ⟨⟨8,6⟩,86,10,.up,1⟩ .nil .nil) .nil))) (.node 2 ⟨⟨8,8⟩,85,8,.down,1⟩ (.node 1 ⟨⟨5,10⟩,89,9,.up,1⟩ .nil .nil) (.node 1 ⟨⟨5,12⟩,88,7,.down,1⟩ .nil .nil)))) (.node 3 ⟨⟨6,11⟩,85,7,.up,1⟩ (.node 2 ⟨⟨9,7⟩,86,8,.left,1⟩ (.node 1 ⟨⟨7,9⟩,90,8,.up,1⟩ .nil .nil) (.node 1 ⟨⟨7,11⟩,89,6,.down,1⟩ .nil .nil)) (.node 2 ⟨⟨3,6⟩,78,15,.up,1⟩ (.node 2 ⟨⟨9,7⟩,86,8,.down,1⟩ (.node 2 ⟨⟨7,7⟩,84,10,.up,1⟩ (.node 1 ⟨⟨7,11⟩,89,6,.up,1⟩ .nil .nil) (.node 1 ⟨⟨10,4⟩,85,10,.left,1⟩ .nil .nil)) (.node 1 ⟨⟨5,6⟩,83,13,.right,1⟩ (.node 1 ⟨⟨8,9⟩,89,7,.right,3⟩ (.node 1 ⟨⟨3,6⟩,83,15,.left,1⟩ .nil .nil) .nil) .nil)) (.node 1 ⟨⟨10,8⟩,88,6,.left,1⟩ (.node 1 ⟨⟨11,8⟩,89,5,.left,1⟩ .nil .nil) .nil)))) (.node 4 ⟨⟨8,10⟩,87,6,.right,2⟩ (.node 3 ⟨⟨2,11⟩,82,11,.down,1⟩ (.node 3 ⟨⟨6,3⟩,79,15,.up,1⟩ (.node 2 ⟨⟨5,11⟩,87,8,.left,1⟩ (.node 1 ⟨⟨4,8⟩,84,12,.left,2⟩ (.node 1 ⟨⟨6,10⟩,89,8,.up,2⟩ .nil .nil) .nil) (.node 1 ⟨⟨4,6⟩,83,14,.down,1⟩ (.node 1 ⟨⟨4,4⟩,81,16,.up,1⟩ (.node 1 ⟨⟨7,11⟩,91,6,.right,1⟩ .nil .nil) .nil) .nil)) (.node 2 ⟨⟨5,5⟩,80,14,.right,1⟩ (.node 2 ⟨⟨11,9⟩,90,4,.left,1⟩ (.node 1 ⟨⟨8,8⟩,89,8,.right,1⟩ .nil .nil) (.node 1 ⟨⟨8,5⟩,85,11,.up,1⟩ .nil .nil)) (.node 1 ⟨⟨2,9⟩,84,13,.up,1⟩ (.node 1 ⟨⟨5,7⟩,85,12,.right,1⟩ (.node 1 ⟨⟨3,7⟩,85,14,.left,1⟩ (.node 1 ⟨⟨8,5⟩,90,11,.up,1⟩ .nil .nil) .nil) .nil) .nil))) (.node 2 ⟨⟨8,8⟩,85,8,.down,2⟩ (.node 1 ⟨⟨7,7⟩,86,10,.left,1⟩ .nil .nil) (.node 1 ⟨⟨9,7⟩,86,8,.right,1⟩ (.node 1 ⟨⟨5,7⟩,82,12,.up,1⟩ (.node 1 ⟨⟨9,7⟩,87,8,.right,2⟩ .nil .nil) .nil) .nil))) (.node 3 ⟨⟨10,8⟩,87,6,.down,2⟩ (.node 3 ⟨⟨5,11⟩,85,8,.down,1⟩ (.node 2 ⟨⟨8,6⟩,85,10,.up,1⟩ (.node 2 ⟨⟨9,6⟩,87,9,.down,1⟩ (.node 1 ⟨⟨9,4⟩,87,11,.up,1⟩ (.node 1 ⟨⟨6,5⟩,85,13,.left,3⟩ .nil .nil) .nil) (.node 1 ⟨⟨7,6⟩,86,11,.down,1⟩ .nil .nil)) (.node 1 ⟨⟨6,4⟩,81,14,.right,1⟩ (.node 1 ⟨⟨7,4⟩,85,13,.up,1⟩ .nil .nil) .nil)) (.node 2 ⟨⟨6,10⟩,87,8,.right,1⟩ (.node 2 ⟨⟨4,4⟩,80,16,.left,1⟩ (.node 1 ⟨⟨5,8⟩,85,11,.up,3⟩ .nil .nil) (.node 1 ⟨⟨11,10⟩,93,3,.left,1⟩ (.node 1 ⟨⟨4,8⟩,85,12,.left,1⟩ .nil .nil) .nil)) (.node 1 ⟨⟨9,7⟩,88,8,.left,1⟩ (.node 1 ⟨⟨4,10⟩,87,10,.left,1⟩ .nil .nil) .nil))) (.node 2 ⟨⟨4,9⟩,85,11,.left,1⟩ (.node 1 ⟨⟨8,7⟩,90,9,.up,1⟩ .nil .nil) (.node 1 ⟨⟨8,9⟩,91,7,.down,1⟩ .nil .nil))))) (.node 3 ⟨⟨7,6⟩,81,11,.up,1⟩ (.node 2 ⟨⟨6,4⟩,80,14,.up,1⟩ (.node 2 ⟨⟨11,9⟩,90,4,.down,3⟩ (.node 2 ⟨⟨12,8⟩,92,4,.right,1⟩ (.node 1 ⟨⟨4,10⟩,87,10,.left,2⟩ .nil .nil) (.node 1 ⟨⟨7,5⟩,86,12,.up,2⟩ .nil .nil)) (.node 1 ⟨⟨8,6⟩,87,10,.right,1⟩ (.node 1 ⟨⟨6,6⟩,85,12,.left,1⟩ (.node 1 ⟨⟨10,8⟩,93,6,.left,1⟩ .nil .nil) .nil) .nil)) (.node 1 ⟨⟨7,7⟩,86,10,.left,1⟩ .nil .nil)) (.node 2 ⟨⟨11,8⟩,88,5,.down,1⟩ (.node 2 ⟨⟨12,9⟩,90,3,.down,1⟩ (.node 2 ⟨⟨8,8⟩,86,8,.down,1⟩ (.node 2 ⟨⟨8,8⟩,88,8,.right,1⟩ (.node 1 ⟨⟨9,6⟩,91,9,.up,1⟩ .nil .nil) (.node 1 ⟨⟨9,8⟩,90,7,.down,1⟩ .nil .nil)) (.node 1 ⟨⟨6,8⟩,87,10,.left,1⟩ (.node 1 ⟨⟨8,7⟩,91,9,.left,2⟩ .nil .nil) .nil)) (.node 1 ⟨⟨12,7⟩,90,5,.up,1⟩ (.node 1 ⟨⟨11,8⟩,93,5,.right,1⟩ .nil .nil) .nil)) (.node 1 ⟨⟨11,6⟩,86,7,.up,1⟩ (.node 1 ⟨⟨7,11⟩,87,6,.down,1⟩ .nil .nil) .nil)))) (.node 3 ⟨⟨8,7⟩,83,9,.down,1⟩ (.node 3 ⟨⟨3,9⟩,80,12,.up,1⟩ (.node 4 ⟨⟨2,10⟩,81,12,.down,1⟩ (.node 3 ⟨⟨11,6⟩,86,7,.left,1⟩ (.node 2 ⟨⟨11,4⟩,85,9,.left,1⟩ (.node 1 ⟨⟨4,9⟩,86,11,.left,2⟩ .nil .nil) (.node 1 ⟨⟨5,10⟩,88,9,.down,1⟩ .nil .nil)) (.node 2 ⟨⟨6,6⟩,84,12,.up,1⟩ (.node 1 ⟨⟨7,10⟩,90,7,.down,1⟩ .nil .nil) (.node 1 ⟨⟨5,8⟩,86,11,.up,1⟩ (.node 1 ⟨⟨2,8⟩,84,14,.up,1⟩ .nil .nil) .nil))) (.node 3 ⟨⟨7,7⟩,84,10,.down,1⟩ (.node 3 ⟨⟨9,2⟩,81,13,.right,1⟩ (.node 3 ⟨⟨9,7⟩,86,8,.left,2⟩ (.node 2 ⟨⟨7,5⟩,82,12,.up,1⟩ (.node 1 ⟨⟨9,5⟩,86,10,.up,1⟩ .nil .nil) (.node 1 ⟨⟨9,7⟩,87,8,.down,1⟩ (.node 1 ⟨⟨6,9⟩,87,9,.up,2⟩ .nil .nil) .nil)) (.node 2 ⟨⟨7,9⟩,87,8,.down,1⟩ (.node 2 ⟨⟨2,7⟩,80,15,.up,1⟩ (.node 2 ⟨⟨4,11⟩,86,9,.left,2⟩ (.node 1 ⟨⟨7,9⟩,87,8,.right,1⟩ (.node 1 ⟨⟨5,9⟩,85,10,.left,1⟩ (.node 1 ⟨⟨7,3⟩,81,14,.up,1⟩ .nil .nil) .nil) .nil) (.node 1 ⟨⟨9,7⟩,89,8,.down,1⟩ .nil .nil)) (.node 1 ⟨⟨2,9⟩,83,13,.down,1⟩ .nil .nil)) (.node 1 ⟨⟨7,2⟩,83,15,.left,1⟩ (.node 1 ⟨⟨8,11⟩,93,5,.right,2⟩ .nil .nil) .nil))) (.node 2 ⟨⟨10,8⟩,92,6,.down,1⟩ (.node 1 ⟨⟨7,8⟩,90,9,.up,1⟩ .nil .nil) (.node 1 ⟨⟨8,11⟩,94,5,.up,1⟩ (.node 1 ⟨⟨9,7⟩,93,8,.left,3⟩ .nil .nil) .nil))) (.node 2 ⟨⟨7,10⟩,89,7,.down,1⟩ (.node 1 ⟨⟨11,5⟩,89,8,.left,1⟩ (.node 1 ⟨⟨12,4⟩,90,8,.up,3⟩ (.node 1 ⟨⟨5,9⟩,88,10,.up,1⟩ .nil .nil) .nil) .nil) (.node 1 ⟨⟨9,8⟩,91,7,.left,1⟩ (.node 1 ⟨⟨10,6⟩,91,8,.up,1⟩ .nil .nil) .nil)))) (.node 2 ⟨⟨3,7⟩,83,14,.down,1⟩ (.node 1 ⟨⟨7,4⟩,88,13,.up,1⟩ .nil .nil) (.node 1 ⟨⟨7,6⟩,89,11,.down,1⟩ .nil .nil))) (.node 2 ⟨⟨6,5⟩,82,13,.down,1⟩ (.node 1 ⟨⟨8,7⟩,86,9,.left,1⟩ .nil .nil) (.node 1 ⟨⟨3,5⟩,84,16,.up,1⟩ .nil .nil)))))

/-- The visited bitmask of the part-1 search on `exampleGrid` after 2975
loop iterations. -/
def exampleVis2975 : Nat :=
  939761052496676505986012728539501749498843443650738257116708474023124747551302963428283183513901567034308272875836439559707325629115404813828936828416343684100813683335075187465844495589887244905188322667878755832118903897788745506436068951869000572211947301969146753770996755167793186039314252716967969050803661007877389656857980109402340237003045566446659561509582870476202850402715618847907084732035091219244273152349938791850299270943574830511287419453062116081151666493925451307779467306999675044349849908828960184217957008994616635697387098894511897061969455640365269438388098065922678978314737083892512472185012813751006415171634973834141633035841344590244612595326084905199219093917703666913700250332128060822140940398134960749315785731500058855731513231784805925366329320276159423511355822336252312485086954688830342081906354620730062688203627632421115514148547591897500283209540788281254556594394740769001049463655291338230133633447228737839574300823968036148958481201951102512150542

/-- The queue of the part-2 search on `exampleGrid` after 505 loop
iterations. -/
def exampleHeapPart2 : Heap :=
  (.node 4 ⟨⟨5,1⟩,65,18,.up,4⟩ (.node 4 ⟨⟨12,5⟩,76,7,.down,1⟩ (.node 4 ⟨⟨3,6⟩,68,15,.left,2⟩ (.node 5 ⟨⟨3,5⟩,67,16,.left,3⟩ (.node 5 ⟨⟨12,4⟩,75,8,.up,1⟩ (.node 4 ⟨⟨4,0⟩,63,20,.left,1⟩ (.node 3 ⟨⟨6,8⟩,74,10,.down,4⟩ (.node 3 ⟨⟨6,2⟩,68,16,.up,3⟩ (.node 2 ⟨⟨1,9⟩,70,14,.right,1⟩ (.node 1 ⟨⟨9,5⟩,75,10,.right,5⟩ .nil .nil) (.node 1 ⟨⟨6,9⟩,80,9,.down,4⟩ .nil .nil)) (.node 2 ⟨⟨8,6⟩,75,10,.down,1⟩ (.node 1 ⟨⟨3,10⟩,75,11,.left,1⟩ .nil .nil) (.node 1 ⟨⟨0,7⟩,69,17,.left,4⟩ .nil .nil))) (.node 2 ⟨⟨10,5⟩,76,9,.down,1⟩ (.node 2 ⟨⟨4,3⟩,69,17,.up,4⟩ (.node 2 ⟨⟨5,12⟩,81,7,.down,4⟩ (.node 1 ⟨⟨5,10⟩,79,9,.right,1⟩ .nil .nil) (.node 1 ⟨⟨8,8⟩,81,8,.left,2⟩ .nil .nil)) (.node 1 ⟨⟨7,7⟩,79,10,.down,3⟩ .nil .nil)) (.node 1 ⟨⟨10,3⟩,76,11,.up,1⟩ .nil .nil))) (.node 3 ⟨⟨11,6⟩,76,7,.right,3⟩ (.node 2 ⟨⟨5,7⟩,72,12,.up,3⟩ (.node 1 ⟨⟨8,7⟩,75,9,.right,8⟩ (.node 1 ⟨⟨7,8⟩,77,9,.down,1⟩ (.node 1 ⟨⟨7,6⟩,77,11,.up,1⟩ .nil .nil) .nil) .nil) (.node 1 ⟨⟨9,5⟩,78,10,.right,4⟩ .nil .nil)) (.node 2 ⟨⟨12,7⟩,78,5,.down,2⟩ (.node 2 ⟨⟨3,10⟩,75,11,.left,1⟩ (.node 1 ⟨⟨9,6⟩,79,9,.right,9⟩ .nil .nil) (.node 1 ⟨⟨6,9⟩,79,9,.right,1⟩ .nil .nil)) (.node 1 ⟨⟨8,7⟩,74,9,.right,2⟩ .nil .nil)))) (.node 4 ⟨⟨5,9⟩,73,10,.down,9⟩ (.node 3 ⟨⟨8,0⟩,68,16,.up,1⟩ (.node 2 ⟨⟨4,11⟩,76,9,.down,5⟩ (.node 1 ⟨⟨7,7⟩,76,10,.right,2⟩ (.node 1 ⟨⟨6,6⟩,75,12,.up,2⟩ .nil .nil) .nil) (.node 1 ⟨⟨3,10⟩,75,11,.left,1⟩ .nil .nil)) (.node 2 ⟨⟨4,5⟩,70,15,.down,1⟩ (.node 2 ⟨⟨4,7⟩,73,13,.left,2⟩ (.node 1 ⟨⟨3,4⟩,71,17,.left,5⟩ .nil .nil) (.node 1 ⟨⟨9,1⟩,72,14,.right,5⟩ (.node 1 ⟨⟨8,2⟩,72,14,.down,1⟩ .nil .nil) .nil)) (.node 1 ⟨⟨4,3⟩,70,17,.up,1⟩ (.node 1 ⟨⟨6,11⟩,80,7,.down,2⟩ .nil .nil) .nil))) (.node 3 ⟨⟨0,12⟩,72,12,.down,7⟩ (.node 2 ⟨⟨1,11⟩,73,12,.right,1⟩ (.node 1 ⟨⟨9,9⟩,83,6,.up,1⟩ .nil .nil) (.node 1 ⟨⟨9,11⟩,84,4,.down,1⟩ .nil .nil)) (.node 2 ⟨⟨1,5⟩,67,18,.down,1⟩ (.node 1 ⟨⟨10,10⟩,82,4,.right,10⟩ (.node 1 ⟨⟨4,8⟩,75,12,.left,1⟩ .nil .nil) .nil) (.node 1 ⟨⟨1,3⟩,67,20,.up,1⟩ (.node 1 ⟨⟨0,4⟩,67,20,.left,6⟩ .nil .nil) .nil))))) (.node 4 ⟨⟨6,8⟩,73,10,.up,1⟩ (.node 3 ⟨⟨7,5⟩,71,12,.up,1⟩ (.node 3 ⟨⟨4,1⟩,64,19,.up,5⟩ (.node 2 ⟨⟨0,0⟩,59,24,.up,4⟩ (.node 1 ⟨⟨7,6⟩,75,11,.left,2⟩ .nil .nil) (.node 1 ⟨⟨3,2⟩,65,19,.left,1⟩ .nil .nil)) (.node 2 ⟨⟨9,9⟩,77,6,.left,1⟩ (.node 1 ⟨⟨1,8⟩,74,15,.left,3⟩ .nil .nil) (.node 1 ⟨⟨5,10⟩,79,9,.right,1⟩ .nil .nil))) (.node 2 ⟨⟨6,8⟩,73,10,.right,1⟩ (.node 2 ⟨⟨0,1⟩,62,23,.left,4⟩ (.node 1 ⟨⟨6,2⟩,69,16,.right,2⟩ (.node 1 ⟨⟨3,9⟩,74,12,.left,1⟩ (.node 1 ⟨⟨2,9⟩,75,13,.left,2⟩ .nil .nil) .nil) .nil) (.node 1 ⟨⟨5,6⟩,77,13,.up,3⟩ .nil .nil)) (.node 1 ⟨⟨7,9⟩,75,8,.up,1⟩ (.node 1 ⟨⟨4,11⟩,76,9,.down,6⟩ (.node 1 ⟨⟨9,6⟩,77,9,.down,2⟩ .nil .nil) .nil) .nil))) (.node 3 ⟨⟨3,12⟩,74,9,.left,1⟩ (.node 3 ⟨⟨7,8⟩,74,9,.right,1⟩ (.node 4 ⟨⟨7,7⟩,73,10,.right,3⟩ (.node 3 ⟨⟨11,5⟩,75,8,.down,1⟩ (.node 2 ⟨⟨0,0⟩,59,24,.left,4⟩ (.node 2 ⟨⟨7,9⟩,75,8,.right,7⟩ (.node 2 ⟨⟨9,8⟩,77,7,.right,1⟩ (.node 1 ⟨⟨8,7⟩,75,9,.left,2⟩ (.node 2 ⟨⟨9,3⟩,72,12,.up,1⟩ (.node 1 ⟨⟨5,5⟩,71,14,.left,2⟩ (.node 1 ⟨⟨5,5⟩,72,14,.left,3⟩ .nil .nil) .nil) (.node 1 ⟨⟨9,5⟩,75,10,.down,1⟩ .nil .nil)) .nil) (.node 1 ⟨⟨7,8⟩,80,9,.left,1⟩ .nil .nil)) (.node 1 ⟨⟨6,4⟩,70,14,.left,4⟩ (.node 1 ⟨⟨12,8⟩,82,4,.right,2⟩ .nil .nil) .nil)) (.node 1 ⟨⟨10,3⟩,74,11,.up,1⟩ .nil .nil)) (.node 2 ⟨⟨12,4⟩,76,8,.right,8⟩ (.node 1 ⟨⟨10,7⟩,78,7,.right,2⟩ (.node 1 ⟨⟨0,3⟩,65,21,.up,1⟩ .nil .nil) .nil) (.node 1 ⟨⟨5,11⟩,77,8,.down,4⟩ .nil .nil))) (.node 3 ⟨⟨10,5⟩,74,9,.down,1⟩ (.node 3 ⟨⟨11,6⟩,77,7,.down,2⟩ (.node 2 ⟨⟨6,8⟩,74,10,.up,2⟩ (.node 2 ⟨⟨11,7⟩,78,6,.right,2⟩ (.node 1 ⟨⟨11,3⟩,75,10,.up,1⟩ (.node 1 ⟨⟨0,1⟩,63,23,.up,4⟩ .nil .nil) .nil) (.node 1 ⟨⟨6,9⟩,78,9,.down,3⟩ .nil .nil)) (.node 1 ⟨⟨6,5⟩,73,13,.up,2⟩ .nil .nil)) (.node 2 ⟨⟨1,5⟩,66,18,.left,4⟩ (.node 2 ⟨⟨3,6⟩,73,15,.left,3⟩ (.node 1 ⟨⟨6,5⟩,78,13,.left,4⟩ .nil .nil) (.node 1 ⟨⟨5,5⟩,78,14,.up,3⟩ .nil .nil)) (.node 1 ⟨⟨8,9⟩,79,7,.down,9⟩ (.node 1 ⟨⟨4,8⟩,80,12,.left,2⟩ .nil .nil) .nil))) (.node 2 ⟨⟨1,6⟩,66,17,.down,2⟩ (.node 2 ⟨⟨5,12⟩,79,7,.right,1⟩ (.node 1 ⟨⟨5,10⟩,78,9,.down,5⟩ .nil .nil) (.node 1 ⟨⟨9,10⟩,81,5,.left,1⟩ (.node 1 ⟨⟨0,4⟩,67,20,.up,2⟩ .nil .nil) .nil)) (.node 1 ⟨⟨5,4⟩,69,15,.left,4⟩ .nil .nil)))) (.node 2 ⟨⟨11,3⟩,73,10,.up,1⟩ (.node 1 ⟨⟨2,7⟩,69,15,.down,3⟩ .nil .nil) (.node 1 ⟨⟨8,7⟩,79,9,.down,1⟩ (.node 1 ⟨⟨7,8⟩,81,9,.right,3⟩ .nil .nil) .nil))) (.node 2 ⟨⟨11,5⟩,78,8,.down,1⟩ (.node 2 ⟨⟨10,7⟩,80,7,.down,3⟩ (.node 2 ⟨⟨10,8⟩,81,6,.right,1⟩ (.node 1 ⟨⟨5,10⟩,79,9,.right,1⟩ (.node 1 ⟨⟨8,8⟩,81,8,.left,1⟩ .nil .nil) .nil) (.node 1 ⟨⟨5,4⟩,73,15,.up,3⟩ (.node 1 ⟨⟨8,5⟩,81,11,.up,1⟩ .nil .nil) .nil)) (.node 1 ⟨⟨12,4⟩,79,8,.right,7⟩ .nil .nil)) (.node 1 ⟨⟨4,9⟩,76,11,.left,1⟩ (.node 1 ⟨⟨11,3⟩,78,10,.up,1⟩ .nil .nil) .nil))))) (.node 3 ⟨⟨6,9⟩,75,9,.down,2⟩ (.node 2 ⟨⟨11,2⟩,76,11,.up,2⟩ (.node 1 ⟨⟨10,4⟩,78,10,.up,1⟩ .nil .nil) (.node 1 ⟨⟨10,6⟩,80,8,.down,1⟩ .nil .nil)) (.node 2 ⟨⟨7,12⟩,80,5,.down,2⟩ (.node 2 ⟨⟨11,5⟩,78,8,.right,5⟩ (.node 1 ⟨⟨6,5⟩,75,13,.left,3⟩ .nil .nil) (.node 1 ⟨⟨7,9⟩,80,8,.down,1⟩ (.node 1 ⟨⟨9,6⟩,79,9,.right,5⟩ (.node 1 ⟨⟨8,7⟩,79,9,.down,1⟩ (.node 1 ⟨⟨3,4⟩,71,17,.left,4⟩ (.node 1 ⟨⟨8,5⟩,81,11,.up,1⟩ .nil .nil) .nil) .nil) .nil) .nil)) (.node 1 ⟨⟨7,7⟩,80,10,.up,1⟩ .nil .nil)))) (.node 3 ⟨⟨12,3⟩,74,9,.up,1⟩ (.node 3 ⟨⟨12,8⟩,80,4,.down,4⟩ (.node 2 ⟨⟨4,5⟩,70,15,.up,3⟩ (.node 2 ⟨⟨6,10⟩,77,8,.down,2⟩ (.node 1 ⟨⟨6,7⟩,79,11,.left,1⟩ .nil .nil) (.node 1 ⟨⟨8,7⟩,79,9,.right,1⟩ .nil .nil)) (.node 1 ⟨⟨5,9⟩,77,10,.right,1⟩ .nil .nil)) (.node 2 ⟨⟨6,4⟩,70,14,.up,2⟩ (.node 2 ⟨⟨9,2⟩,71,13,.up,2⟩ (.node 2 ⟨⟨5,9⟩,75,10,.down,5⟩ (.node 1 ⟨⟨6,8⟩,75,10,.right,1⟩ (.node 1 ⟨⟨7,6⟩,77,11,.left,3⟩ (.node 1 ⟨⟨4,8⟩,77,12,.left,1⟩ .nil .nil) .nil) .nil) (.node 1 ⟨⟨11,3⟩,76,10,.down,3⟩ (.node 1 ⟨⟨4,10⟩,76,10,.down,6⟩ (.node 1 ⟨⟨5,10⟩,77,9,.down,4⟩ (.node 1 ⟨⟨9,6⟩,78,9,.right,2⟩ .nil .nil) .nil) .nil) .nil)) (.node 1 ⟨⟨8,4⟩,73,12,.up,1⟩ (.node 1 ⟨⟨6,9⟩,81,9,.right,2⟩ .nil .nil) .nil)) (.node 1 ⟨⟨8,8⟩,79,8,.right,8⟩ .nil .nil))) (.node 2 ⟨⟨7,7⟩,73,10,.down,1⟩ (.node 1 ⟨⟨8,9⟩,80,7,.up,1⟩ .nil .nil) (.node 1 ⟨⟨8,11⟩,80,5,.down,1⟩ (.node 1 ⟨⟨3,7⟩,75,14,.left,2⟩ .nil .nil) .nil)))) (.node 3 ⟨⟨0,12⟩,71,12,.down,8⟩ (.node 4 ⟨⟨1,9⟩,69,14,.right,1⟩ (.node 3 ⟨⟨8,0⟩,68,16,.up,4⟩ (.node 2 ⟨⟨4,12⟩,77,8,.down,5⟩ (.node 1 ⟨⟨8,6⟩,76,10,.right,3⟩ .nil .nil) (.node 1 ⟨⟨3,11⟩,77,10,.left,1⟩ .nil .nil)) (.node 2 ⟨⟨1,2⟩,64,21,.up,2⟩ (.node 1 ⟨⟨5,3⟩,71,16,.up,3⟩ .nil .nil) (.node 1 ⟨⟨4,0⟩,68,20,.left,2⟩ (.node 1 ⟨⟨6,11⟩,83,7,.right,2⟩ .nil .nil) .nil))) (.node 3 ⟨⟨10,0⟩,69,14,.right,4⟩ (.node 2 ⟨⟨10,5⟩,75,9,.right,3⟩ (.node 2 ⟨⟨9,1⟩,71,14,.down,1⟩ (.node 1 ⟨⟨5,6⟩,78,13,.left,3⟩ .nil .nil) (.node 1 ⟨⟨5,6⟩,76,13,.left,2⟩ .nil .nil)) (.node 1 ⟨⟨12,2⟩,74,10,.down,2⟩ (.node 1 ⟨⟨12,0⟩,72,12,.up,4⟩ (.node 1 ⟨⟨11,10⟩,82,3,.right,1⟩ .nil .nil) .nil) .nil)) (.node 2 ⟨⟨1,11⟩,72,12,.right,1⟩ (.node 1 ⟨⟨2,2⟩,67,20,.up,2⟩ .nil .nil) (.node 1 ⟨⟨11,0⟩,71,13,.right,6⟩ (.node 1 ⟨⟨7,7⟩,76,10,.down,2⟩ (.node 1 ⟨⟨10,1⟩,75,13,.down,1⟩ .nil .nil) .nil) .nil)))) (.node 2 ⟨⟨7,2⟩,68,15,.up,2⟩ (.node 3 ⟨⟨9,6⟩,75,9,.right,3⟩ (.node 2 ⟨⟨9,9⟩,79,6,.down,9⟩ (.node 2 ⟨⟨12,5⟩,78,7,.down,1⟩ (.node 1 ⟨⟨12,3⟩,76,9,.up,1⟩ (.node 1 ⟨⟨8,6⟩,75,10,.down,1⟩ (.node 1 ⟨⟨10,1⟩,75,13,.up,3⟩ .nil .nil) .nil) .nil) (.node 1 ⟨⟨4,6⟩,75,14,.up,3⟩ (.node 1 ⟨⟨6,7⟩,79,11,.left,2⟩ (.node 1 ⟨⟨7,8⟩,81,9,.down,8⟩ .nil .nil) .nil) .nil)) (.node 1 ⟨⟨4,6⟩,75,14,.up,4⟩ .nil .nil)) (.node 2 ⟨⟨8,4⟩,73,12,.up,1⟩ (.node 1 ⟨⟨0,8⟩,69,16,.down,2⟩ (.node 1 ⟨⟨9,5⟩,75,10,.right,9⟩ .nil .nil) .nil) (.node 1 ⟨⟨8,7⟩,79,9,.down,3⟩ (.node 1 ⟨⟨7,3⟩,74,14,.up,2⟩ .nil .nil) .nil))) (.node 1 ⟨⟨6,9⟩,74,9,.down,9⟩ (.node 1 ⟨⟨7,7⟩,83,10,.left,2⟩ .nil .nil) .nil))))

/-- The visited bitmask of the part-2 search on `exampleGrid` after 505
loop iterations. -/
def exampleVisPart2 : Nat :=
  105600560278419071317287883492714818745087423391509046836725950669345089721837859389332515050234832504300971726639153560910726649453006150166862324439108966160664534224694259451334120706933582443762294890264218684146216452799660756575315560975202825178451996267589539354659931772814094583691199881984479040929397446295787187148743181791135545426656002273654603938350936289234008873090081916325735280763749102832578687408033151987347137300660991257030677222777788521327518635852574184228376712290936538980774037130074076291604833444966898871911628918197550146094563075754766186189202688353829959178544396794205353362496219020008695245120851582260208273463324663649628713570432464144491202180457656595172075286175399655451809207299146659712354178825202484846791371522103695181091827050130564290868935610512263768016441506946338564037854273564648235345581124958710785213843755466897504272259228724673583954714767526313416734789158499000237557652288391623337874614278007826163419399557969360464643153410663478359644717438515814353131377389105313800272436460983279818470370894243282300205467652560671764211806488770397763926038285236755316903940543547762359937589369622652681989700590713885318673535062756911761239349951113452395428727903096645786158774982802991342969320775976454417606477905592014888403406159498986993461204179601744764049192318165611810297880564833872947916717695732059147174225630719679794042957035415985516620203730589227521426305761570801096505352797547168122877332170687017924893339076093147095422595566524103896259305498479637726831650076015307384426165262676573326032071014340302647611674295023820535854253372032427261872526198877548059626543297484845262399402558642173219899261254509744884913071837071725299126642027978054926722621066500748097110501104068290149819862514682270594792598281948175605600410291715335703570588523968333567388325377212849048933595773513003760745311570303345124529849781905451311001020570305726136932381010163274626464217775176512663781704214938396566539751774786932631796505775311528683770312186813357889642042454068598844925131353583529215872139203510653320440871532486120661886902369753584013919139515475859806566300552515445009985992448683924608913797572625056815390037489004022882688107343212544799365379658475861564562210935755496699937041254745924112522095500571397616588364306239134132862976

/-! ### Notions used by the verification -/

/-- Heap order: the value at every node is of minimal priority within its
subtree. -/
def Heap.WFH : Heap → Prop
  | .nil => True
  | .node _ v l r =>
    (∀ m ∈ l.elems, v.pri ≤ m.pri) ∧ (∀ m ∈ r.elems, v.pri ≤ m.pri) ∧
      l.WFH ∧ r.WFH

/-- Well-formed visited-set key: in-bounds position, run length between 1 and
`max mx 1`. Every key the search manipulates is of this shape, and `keyIdx`
is injective on such keys. -/
def wfKey (g : Grid) (mx : Nat) (k : Pos × Direction × Nat) : Prop :=
  g.contains k.1 = true ∧ 1 ≤ k.2.2 ∧ k.2.2 ≤ max mx 1

/-- One non-initial transition of the constrained walk, on visited-set keys:
`(p, d, r)` steps to `(q, d', r')` when `q` is the in-bounds neighbor of `p`
in direction `d'`, reversal is excluded, and either the walk continues
straight (`d' = d`, requiring `r < mx`, with `r' = r + 1`) or it turns
(`d' ≠ d`, requiring `mn ≤ r`, with `r' = 1`). -/
def KeyStep (g : Grid) (mn mx : Nat) (k k' : Pos × Direction × Nat) : Prop :=
  k.1.step k'.2.1 = some k'.1 ∧ g.contains k'.1 = true ∧
    k'.2.1 ≠ k.2.1.opposite ∧
    ((k'.2.1 = k.2.1 ∧ k.2.2 < mx ∧ k'.2.2 = k.2.2 + 1) ∨
      (k'.2.1 ≠ k.2.1 ∧ mn ≤ k.2.2 ∧ k'.2.2 = 1))

/-- The invariant tying a loop state (queue `q`, visited bitmask `v`) to the
abstract set `K` of visited keys. Besides well-formedness and the heap
order, it records that every queued node is the endpoint of a valid
constrained walk of its recorded cost, and the two frontier properties of
Dijkstra-style searches: every outgoing edge of a visited key, and every
seed move, whose target key is unvisited has a queued node for that target
whose cost does not exceed the corresponding walk cost. -/
structure SearchInv (g : Grid) (start endP : Pos) (mn mx : Nat)
    (q : Heap) (v : Nat) (K : Finset (Pos × Direction × Nat)) : Prop where
  wfh : q.WFH
  sound : ∀ n ∈ q.elems,
    ReachCost g start mn mx n.pos n.direction n.steps_in_direction n.cost
  heur : ∀ n ∈ q.elems, n.heuristic = n.pos.manhattanDistance endP
  nodeWf : ∀ n ∈ q.elems, wfKey g mx n.key
  visWf : ∀ k ∈ K, wfKey g mx k
  visRep : ∀ k, wfKey g mx k → (visMem g.width mx v k = true ↔ k ∈ K)
  noEnd : ∀ k ∈ K, k.1 ≠ endP
  edgeFrontier : ∀ k ∈ K, ∀ k', KeyStep g mn mx k k' → k' ∉ K →
    ∃ n' ∈ q.elems, n'.key = k' ∧
      ∀ c, ReachCost g start mn mx k.1 k.2.1 k.2.2 c →
        n'.cost ≤ c + (g.get k'.1).cost
  seedFrontier : ∀ d q₀, start.step d = some q₀ → g.contains q₀ = true →
    (q₀, d, 1) ∉ K →
    ∃ n' ∈ q.elems, n'.key = (q₀, d, 1) ∧ n'.cost ≤ (g.get q₀).cost

/-! ### Heap lemmas -/

theorem Heap.elems_mk (v : SearchNode) (l r : Heap) :
    (Heap.mk v l r).elems = v ::ₘ (l.elems + r.elems) := by
  unfold Heap.mk
  split <;> simp [Heap.elems, add_comm]

theorem Heap.elems_mergeFuel_subset (fuel : Nat) (h₁ h₂ : Heap) :
    ∀ m ∈ (Heap.mergeFuel fuel h₁ h₂).elems, m ∈ h₁.elems ∨ m ∈ h₂.elems := by
  induction fuel generalizing h₁ h₂ with
  | zero =>
    cases h₁ <;> cases h₂ <;> simp [Heap.mergeFuel] <;> intro m hm <;> tauto
  | succ f ih =>
    cases h₁ with
    | nil => simp [Heap.mergeFuel]; intro m hm; tauto
    | node ka a al ar =>
      cases h₂ with
      | nil => simp [Heap.mergeFuel]; intro m hm; tauto
      | node kb b bl br =>
        rw [Heap.mergeFuel]
        split <;> intro m hm <;> rw [Heap.elems_mk] at hm <;>
          rcases Multiset.mem_cons.mp hm with h | h
        · exact Or.inl (by simp [Heap.elems, h])
        · rcases Multiset.mem_add.mp h with h | h
          · exact Or.inl (by simp [Heap.elems, h])
          · rcases ih _ _ _ h with h | h
            · exact Or.inl (by simp [Heap.elems, h])
            · exact Or.inr h
        · exact Or.inr (by simp [Heap.elems, h])
        · rcases Multiset.mem_add.mp h with h | h
          · exact Or.inr (by simp [Heap.elems, h])
          · rcases ih _ _ _ h with h | h
            · exact Or.inl h
            · exact Or.inr (by simp [Heap.elems, h])

theorem Heap.elems_mergeFuel (fuel : Nat) (h₁ h₂ : Heap)
    (hs : h₁.size + h₂.size ≤ fuel) :
    (Heap.mergeFuel fuel h₁ h₂).elems = h₁.elems + h₂.elems := by
  induction fuel generalizing h₁ h₂ with
  | zero =>
    cases h₁ with
    | nil => simp [Heap.mergeFuel, Heap.elems]
    | node ka a al ar =>
      cases h₂ with
      | nil => simp [Heap.mergeFuel, Heap.elems]
      | node kb b bl br => simp [Heap.size] at hs
  | succ f ih =>
    cases h₁ with
    | nil => simp [Heap.mergeFuel, Heap.elems]
    | node ka a al ar =>
      cases h₂ with
      | nil => simp [Heap.mergeFuel, Heap.elems]
      | node kb b bl br =>
        rw [Heap.mergeFuel]
        split
        · rw [Heap.elems_mk, ih _ _ (by simp [Heap.size] at hs ⊢; omega)]
          simp only [Heap.elems, ← Multiset.singleton_add]
          abel
        · rw [Heap.elems_mk, ih _ _ (by simp [Heap.size] at hs ⊢; omega)]
          simp only [Heap.elems, ← Multiset.singleton_add]
          abel

theorem Heap.size_eq_card (h : Heap) : h.size = Multiset.card h.elems := by
  induction h with
  | nil => simp [Heap.size, Heap.elems]
  | node k v l r ihl ihr => simp [Heap.size, Heap.elems, ihl, ihr]

theorem Heap.WFH_root_le {k : Nat} {v : SearchNode} {l r : Heap}
    (h : (Heap.node k v l r).WFH) :
    ∀ m ∈ (Heap.node k v l r).elems, v.pri ≤ m.pri := by
  intro m hm
  rw [Heap.elems] at hm
  rcases Multiset.mem_cons.mp hm with h1 | h1
  · exact h1 ▸ le_refl _
  · rcases Multiset.mem_add.mp h1 with h2 | h2
    · exact h.1 m h2
    · exact h.2.1 m h2

theorem Heap.WFH_mk (v : SearchNode) (l r : Heap) (hl : l.WFH) (hr : r.WFH)
    (h1 : ∀ m ∈ l.elems, v.pri ≤ m.pri) (h2 : ∀ m ∈ r.elems, v.pri ≤ m.pri) :
    (Heap.mk v l r).WFH := by
  unfold Heap.mk
  split
  · exact ⟨h1, h2, hl, hr⟩
  · exact ⟨h2, h1, hr, hl⟩

theorem Heap.WFH_mergeFuel (fuel : Nat) (h₁ h₂ : Heap)
    (w₁ : h₁.WFH) (w₂ : h₂.WFH) : (Heap.mergeFuel fuel h₁ h₂).WFH := by
  induction fuel generalizing h₁ h₂ with
  | zero => cases h₁ <;> cases h₂ <;> simp [Heap.mergeFuel] <;> assumption
  | succ f ih =>
    cases h₁ with
    | nil => simpa [Heap.mergeFuel] using w₂
    | node ka a al ar =>
      cases h₂ with
      | nil => simpa [Heap.mergeFuel] using w₁
      | node kb b bl br =>
        rw [Heap.mergeFuel]
        split
        · refine Heap.WFH_mk _ _ _ w₁.2.2.1 (ih _ _ w₁.2.2.2 w₂) w₁.1 ?_
          intro m hm
          rcases Heap.elems_mergeFuel_subset _ _ _ m hm with h | h
          · exact w₁.2.1 m h
          · exact le_trans (by assumption) (Heap.WFH_root_le w₂ m h)
        · refine Heap.WFH_mk _ _ _ w₂.2.2.1 (ih _ _ w₁ w₂.2.2.2) w₂.1 ?_
          intro m hm
          rcases Heap.elems_mergeFuel_subset _ _ _ m hm with h | h
          · exact le_trans (by omega) (Heap.WFH_root_le w₁ m h)
          · exact w₂.2.1 m h

theorem Heap.pop_eq_none_iff (F : Nat) (h : Heap) :
    Heap.pop F h = none ↔ h = .nil := by
  cases h <;> simp [Heap.pop]

theorem Heap.pop_elems (F : Nat) {h : Heap} {n : SearchNode} {h' : Heap}
    (hF : h.size ≤ F + 1) (hp : Heap.pop F h = some (n, h')) :
    h.elems = n ::ₘ h'.elems := by
  cases h with
  | nil => simp [Heap.pop] at hp
  | node k a l r =>
    simp only [Heap.pop, Option.some.injEq, Prod.mk.injEq] at hp
    obtain ⟨rfl, rfl⟩ := hp
    rw [Heap.elems, Heap.elems_mergeFuel F l r (by simp [Heap.size] at hF; omega)]

theorem Heap.pop_min (F : Nat) {h : Heap} {n : SearchNode} {h' : Heap}
    (hw : h.WFH) (hp : Heap.pop F h = some (n, h')) :
    ∀ m ∈ h.elems, n.pri ≤ m.pri := by
  cases h with
  | nil => simp [Heap.pop] at hp
  | node k a l r =>
    simp only [Heap.pop, Option.some.injEq, Prod.mk.injEq] at hp
    obtain ⟨rfl, rfl⟩ := hp
    exact Heap.WFH_root_le hw

theorem Heap.pop_wfh (F : Nat) {h : Heap} {n : SearchNode} {h' : Heap}
    (hw : h.WFH) (hp : Heap.pop F h = some (n, h')) : h'.WFH := by
  cases h with
  | nil => simp [Heap.pop] at hp
  | node k a l r =>
    simp only [Heap.pop, Option.some.injEq, Prod.mk.injEq] at hp
    obtain ⟨rfl, rfl⟩ := hp
    exact Heap.WFH_mergeFuel F l r hw.2.2.1 hw.2.2.2

theorem Heap.elems_push (F : Nat) (s : SearchNode) (h : Heap)
    (hs : h.size + 1 ≤ F) : (Heap.push F s h).elems = s ::ₘ h.elems := by
  unfold Heap.push
  rw [Heap.elems_mergeFuel F _ h (by simp [Heap.size]; omega)]
  simp [Heap.elems]

theorem Heap.wfh_push (F : Nat) (s : SearchNode) (h : Heap) (hw : h.WFH) :
    (Heap.push F s h).WFH :=
  Heap.WFH_mergeFuel F _ h ⟨by simp [Heap.elems], by simp [Heap.elems],
    trivial, trivial⟩ hw

theorem Heap.size_push (F : Nat) (s : SearchNode) (h : Heap)
    (hs : h.size + 1 ≤ F) : (Heap.push F s h).size = h.size + 1 := by
  rw [Heap.size_eq_card, Heap.elems_push F s h hs, Multiset.card_cons,
    ← Heap.size_eq_card]

theorem Heap.elems_foldl_push (F : Nat) (l : List SearchNode) (h : Heap)
    (hs : h.size + l.length ≤ F) :
    (l.foldl (fun q s => Heap.push F s q) h).elems = h.elems + ↑l := by
  induction l generalizing h with
  | nil => simp
  | cons s t ih =>
    have h1 : h.size + 1 ≤ F := by simp at hs; omega
    rw [List.foldl_cons,
      ih _ (by rw [Heap.size_push F s h h1]; simp at hs ⊢; omega),
      Heap.elems_push F s h h1]
    rw [show ((s :: t : List SearchNode) : Multiset SearchNode)
        = s ::ₘ (t : Multiset SearchNode) from rfl,
      Multiset.add_cons, Multiset.cons_add]

theorem Heap.wfh_foldl_push (F : Nat) (l : List SearchNode) (h : Heap)
    (hw : h.WFH) : (l.foldl (fun q s => Heap.push F s q) h).WFH := by
  induction l generalizing h with
  | nil => exact hw
  | cons s t ih => exact ih _ (Heap.wfh_push F s h hw)

/-! ### Visited-set encoding lemmas -/

theorem Grid.contains_iff (g : Grid) (p : Pos) :
    g.contains p = true ↔ p.x < g.width ∧ p.y < g.height := by
  simp [Grid.contains]

theorem Direction.idx_lt_four (d : Direction) : d.idx < 4 := by
  cases d <;> simp [Direction.idx]

theorem Direction.idx_inj {d d' : Direction} (h : d.idx = d'.idx) : d = d' := by
  cases d <;> cases d' <;> simp_all [Direction.idx]

theorem digit_inj {B a a' b b' : Nat} (ha : a < B) (ha' : a' < B)
    (h : a + B * b = a' + B * b') : a = a' ∧ b = b' := by
  have hm : (a + B * b) % B = (a' + B * b') % B := by rw [h]
  rw [Nat.add_mul_mod_self_left, Nat.add_mul_mod_self_left,
    Nat.mod_eq_of_lt ha, Nat.mod_eq_of_lt ha'] at hm
  subst hm
  refine ⟨rfl, ?_⟩
  have hb : B * b = B * b' := by omega
  exact Nat.eq_of_mul_eq_mul_left (by omega) hb

theorem keyIdx_inj (g : Grid) (mx : Nat) {k k' : Pos × Direction × Nat}
    (hk : wfKey g mx k) (hk' : wfKey g mx k')
    (h : keyIdx g.width mx k = keyIdx g.width mx k') : k = k' := by
  obtain ⟨⟨x, y⟩, d, s⟩ := k
  obtain ⟨⟨x', y'⟩, d', s'⟩ := k'
  obtain ⟨hc, hs1, hs2⟩ := hk
  obtain ⟨hc', hs1', hs2'⟩ := hk'
  have hcc : ({ x := x, y := y } : Pos).x < g.width ∧
      ({ x := x, y := y } : Pos).y < g.height := (Grid.contains_iff _ _).mp hc
  have hcc' : ({ x := x', y := y' } : Pos).x < g.width ∧
      ({ x := x', y := y' } : Pos).y < g.height := (Grid.contains_iff _ _).mp hc'
  have hx : x < g.width := hcc.1
  have hy : y < g.height := hcc.2
  have hx' : x' < g.width := hcc'.1
  have hy' : y' < g.height := hcc'.2
  have hs1c : 1 ≤ s := hs1
  have hs2c : s ≤ max mx 1 := hs2
  have hs1c' : 1 ≤ s' := hs1'
  have hs2c' : s' ≤ max mx 1 := hs2'
  have hidx : s + (mx + 2) * (d.idx + 4 * (x + g.width * y)) =
      s' + (mx + 2) * (d'.idx + 4 * (x' + g.width * y')) := h
  clear h hc hc' hs1 hs2 hs1' hs2' hcc hcc'
  have hsB : s < mx + 2 := by omega
  have hsB' : s' < mx + 2 := by omega
  obtain ⟨rfl, h2⟩ := digit_inj hsB hsB' hidx
  have hdB := Direction.idx_lt_four d
  have hdB' := Direction.idx_lt_four d'
  obtain ⟨hd, h3⟩ := digit_inj hdB hdB' h2
  obtain rfl := Direction.idx_inj hd
  obtain ⟨rfl, rfl⟩ := digit_inj hx hx' h3
  rfl

theorem visMem_zero (w mx : Nat) (k : Pos × Direction × Nat) :
    visMem w mx 0 k = false := by
  simp [visMem]

theorem visMem_insert (w mx v : Nat) (k k' : Pos × Direction × Nat) :
    visMem w mx (visInsert w mx v k) k' = true ↔
      visMem w mx v k' = true ∨ keyIdx w mx k' = keyIdx w mx k := by
  simp only [visMem, visInsert, Nat.one_shiftLeft, Nat.testBit_lor,
    Bool.or_eq_true]
  by_cases h : keyIdx w mx k' = keyIdx w mx k
  · rw [h]
    simp [Nat.testBit_two_pow_self]
  · rw [Nat.testBit_two_pow_of_ne (fun he => h he.symm)]
    simp [h]

theorem visMem_insert_wf (g : Grid) (mx : Nat) (v : Nat)
    {k k' : Pos × Direction × Nat} (hk : wfKey g mx k) (hk' : wfKey g mx k') :
    visMem g.width mx (visInsert g.width mx v k) k' = true ↔
      visMem g.width mx v k' = true ∨ k' = k := by
  rw [visMem_insert]
  constructor
  · rintro (h | h)
    · exact Or.inl h
    · exact Or.inr (keyIdx_inj g mx hk' hk h)
  · rintro (h | rfl)
    · exact Or.inl h
    · exact Or.inr rfl

theorem wfKey_mem_allKeys (g : Grid) (mx : Nat)
    {k : Pos × Direction × Nat} (hk : wfKey g mx k) : k ∈ allKeys g mx := by
  obtain ⟨⟨x, y⟩, d, s⟩ := k
  obtain ⟨hc, hs1, hs2⟩ := hk
  rw [Grid.contains_iff] at hc
  rw [allKeys, Finset.mem_image]
  refine ⟨((x, y), d, s), ?_, rfl⟩
  rw [Finset.mem_product]
  constructor
  · rw [Finset.mem_product]
    exact ⟨Finset.mem_range.mpr hc.1, Finset.mem_range.mpr hc.2⟩
  · rw [Finset.mem_product]
    refine ⟨?_, Finset.mem_Icc.mpr ⟨hs1, hs2⟩⟩
    cases d <;> simp

theorem allKeys_card_le (g : Grid) (mx : Nat) :
    (allKeys g mx).card ≤ g.width * g.height * (4 * (mx + 1)) := by
  refine le_trans (Finset.card_image_le) ?_
  rw [Finset.card_product, Finset.card_product, Finset.card_product,
    Finset.card_range, Finset.card_range, Nat.card_Icc]
  have h4 : ({Direction.up, .down, .left, .right} : Finset Direction).card = 4 := by
    decide
  rw [h4]
  have : max mx 1 + 1 - 1 ≤ mx + 1 := by omega
  calc g.width * g.height * (4 * (max mx 1 + 1 - 1))
      ≤ g.width * g.height * (4 * (mx + 1)) := by
        exact Nat.mul_le_mul_left _ (Nat.mul_le_mul_left _ this)

/-! ### Neighbors, successors and walk-semantics lemmas -/

theorem Direction.opposite_opposite (d : Direction) : d.opposite.opposite = d := by
  cases d <;> rfl

theorem Direction.eq_opposite_comm {a b : Direction} :
    a = b.opposite ↔ b = a.opposite := by
  cases a <;> cases b <;> simp [Direction.opposite]

theorem Grid.mem_neighbors (g : Grid) (p : Pos) (d : Direction) (q : Pos)
    (c : Cell) :
    (d, q, c) ∈ g.neighbors p ↔
      p.step d = some q ∧ g.contains q = true ∧ c = g.get q := by
  simp only [Grid.neighbors, List.mem_filterMap]
  constructor
  · rintro ⟨d₀, _, hf⟩
    cases hstep : p.step d₀ with
    | none => rw [hstep] at hf; simp at hf
    | some q₀ =>
      simp only [hstep] at hf
      by_cases hc : g.contains q₀ = true
      · rw [if_pos hc] at hf
        simp only [Option.some.injEq, Prod.mk.injEq] at hf
        obtain ⟨rfl, rfl, rfl⟩ := hf
        exact ⟨hstep, hc, rfl⟩
      · rw [if_neg hc] at hf; simp at hf
  · rintro ⟨h1, h2, rfl⟩
    refine ⟨d, ?_, ?_⟩
    · cases d <;> simp [Direction.all]
    · rw [h1]; simp [h2]

theorem mem_successors (g : Grid) (endP : Pos) (mn mx : Nat)
    (n s : SearchNode) :
    s ∈ successors g endP mn mx n ↔
      ∃ d q, n.pos.step d = some q ∧ g.contains q = true ∧
        n.direction ≠ d.opposite ∧
        ((d = n.direction ∧ n.steps_in_direction < mx ∧
            s = { pos := q, cost := n.cost + (g.get q).cost,
                  heuristic := q.manhattanDistance endP, direction := d,
                  steps_in_direction := n.steps_in_direction + 1 }) ∨
          (d ≠ n.direction ∧ mn ≤ n.steps_in_direction ∧
            s = { pos := q, cost := n.cost + (g.get q).cost,
                  heuristic := q.manhattanDistance endP, direction := d,
                  steps_in_direction := 1 })) := by
  simp only [successors, List.mem_filterMap]
  constructor
  · rintro ⟨⟨d, q, c⟩, hmem, hf⟩
    rw [Grid.mem_neighbors] at hmem
    obtain ⟨h1, h2, rfl⟩ := hmem
    dsimp only at hf
    by_cases hop : n.direction = d.opposite
    · rw [if_pos hop] at hf; simp at hf
    · rw [if_neg hop] at hf
      by_cases hd : n.direction = d
      · rw [if_pos hd] at hf
        by_cases hmx : mx ≤ n.steps_in_direction
        · rw [if_pos hmx] at hf; simp at hf
        · rw [if_neg hmx] at hf
          simp only [Option.some.injEq] at hf
          exact ⟨d, q, h1, h2, hop, Or.inl ⟨hd.symm, by omega, hf.symm⟩⟩
      · rw [if_neg hd] at hf
        by_cases hmn : mn ≤ n.steps_in_direction
        · rw [if_pos hmn] at hf
          simp only [Option.some.injEq] at hf
          exact ⟨d, q, h1, h2, hop,
            Or.inr ⟨fun he => hd he.symm, hmn, hf.symm⟩⟩
        · rw [if_neg hmn] at hf; simp at hf
  · rintro ⟨d, q, h1, h2, hop, hcase⟩
    refine ⟨(d, q, g.get q),
      (Grid.mem_neighbors g n.pos d q _).mpr ⟨h1, h2, rfl⟩, ?_⟩
    dsimp only
    rw [if_neg hop]
    rcases hcase with ⟨hd, hmx, rfl⟩ | ⟨hd, hmn, rfl⟩
    · rw [if_pos hd.symm, if_neg (by omega)]
    · rw [if_neg (fun he => hd he.symm), if_pos hmn]

theorem ReachCost_of_successor {g : Grid} {start endP : Pos} {mn mx : Nat}
    {n s : SearchNode}
    (hn : ReachCost g start mn mx n.pos n.direction n.steps_in_direction n.cost)
    (hs : s ∈ successors g endP mn mx n) :
    ReachCost g start mn mx s.pos s.direction s.steps_in_direction s.cost := by
  rw [mem_successors] at hs
  obtain ⟨d, q, h1, h2, hop, hcase⟩ := hs
  rcases hcase with ⟨hd, hmx, rfl⟩ | ⟨hd, hmn, rfl⟩
  · subst hd
    exact ReachCost.straight _ _ _ _ _ hn h1 h2 hmx
  · refine ReachCost.turn _ _ _ _ _ _ hn h1 h2 hd ?_ hmn
    intro he
    exact hop (Direction.eq_opposite_comm.mp he)

theorem wfKey_successor {g : Grid} {endP : Pos} {mn mx : Nat}
    {n s : SearchNode} (hs : s ∈ successors g endP mn mx n) :
    wfKey g mx s.key := by
  rw [mem_successors] at hs
  obtain ⟨d, q, h1, h2, hop, hcase⟩ := hs
  rcases hcase with ⟨hd, hmx, rfl⟩ | ⟨hd, hmn, rfl⟩ <;>
    refine ⟨h2, ?_, ?_⟩ <;> (simp [SearchNode.key]; try omega)

theorem heur_successor {g : Grid} {endP : Pos} {mn mx : Nat}
    {n s : SearchNode} (hs : s ∈ successors g endP mn mx n) :
    s.heuristic = s.pos.manhattanDistance endP := by
  rw [mem_successors] at hs
  obtain ⟨d, q, h1, h2, hop, hcase⟩ := hs
  rcases hcase with ⟨hd, hmx, rfl⟩ | ⟨hd, hmn, rfl⟩ <;> rfl

theorem keyStep_of_successor {g : Grid} {endP : Pos} {mn mx : Nat}
    {n s : SearchNode} (hs : s ∈ successors g endP mn mx n) :
    KeyStep g mn mx n.key s.key ∧ s.cost = n.cost + (g.get s.pos).cost := by
  rw [mem_successors] at hs
  obtain ⟨d, q, h1, h2, hop, hcase⟩ := hs
  rcases hcase with ⟨hd, hmx, rfl⟩ | ⟨hd, hmn, rfl⟩
  · subst hd
    exact ⟨⟨h1, h2, fun he => hop (Direction.eq_opposite_comm.mp he),
      Or.inl ⟨rfl, hmx, rfl⟩⟩, rfl⟩
  · exact ⟨⟨h1, h2, fun he => hop (Direction.eq_opposite_comm.mp he),
      Or.inr ⟨hd, hmn, rfl⟩⟩, rfl⟩

theorem successor_of_keyStep {g : Grid} (endP : Pos) {mn mx : Nat}
    {n : SearchNode} {k' : Pos × Direction × Nat}
    (hk : KeyStep g mn mx n.key k') :
    ∃ s ∈ successors g endP mn mx n, s.key = k' ∧
      s.cost = n.cost + (g.get k'.1).cost := by
  obtain ⟨q, d', r'⟩ := k'
  obtain ⟨h1, h2, hop, hcase⟩ := hk
  dsimp only [SearchNode.key] at h1 h2 hop hcase
  have hop' : n.direction ≠ d'.opposite :=
    fun he => hop (Direction.eq_opposite_comm.mp he)
  rcases hcase with ⟨hd, hmx, hr⟩ | ⟨hd, hmn, hr⟩
  · refine ⟨{ pos := q, cost := n.cost + (g.get q).cost,
              heuristic := q.manhattanDistance endP, direction := d',
              steps_in_direction := n.steps_in_direction + 1 }, ?_, ?_, rfl⟩
    · rw [mem_successors]
      exact ⟨d', q, h1, h2, hop', Or.inl ⟨hd, hmx, rfl⟩⟩
    · simp only [SearchNode.key, Prod.mk.injEq]
      exact ⟨trivial, trivial, hr.symm⟩
  · refine ⟨{ pos := q, cost := n.cost + (g.get q).cost,
              heuristic := q.manhattanDistance endP, direction := d',
              steps_in_direction := 1 }, ?_, ?_, rfl⟩
    · rw [mem_successors]
      exact ⟨d', q, h1, h2, hop', Or.inr ⟨hd, hmn, rfl⟩⟩
    · simp only [SearchNode.key, Prod.mk.injEq]
      exact ⟨trivial, trivial, hr.symm⟩

theorem ReachCost.step_key {g : Grid} {start : Pos} {mn mx : Nat}
    {k k' : Pos × Direction × Nat} {c : Nat} (h : KeyStep g mn mx k k')
    (hr : ReachCost g start mn mx k.1 k.2.1 k.2.2 c) :
    ReachCost g start mn mx k'.1 k'.2.1 k'.2.2 (c + (g.get k'.1).cost) := by
  obtain ⟨p, d, r⟩ := k
  obtain ⟨q, d', r'⟩ := k'
  obtain ⟨h1, h2, hop, hcase⟩ := h
  rcases hcase with ⟨hd, hmx, hr'⟩ | ⟨hd, hmn, hr'⟩
  · dsimp only at *
    subst hd; subst hr'
    exact ReachCost.straight _ _ _ _ _ hr h1 h2 hmx
  · dsimp only at *
    subst hr'
    exact ReachCost.turn _ _ _ _ _ _ hr h1 h2 hd hop hmn

theorem successors_length_le (g : Grid) (endP : Pos) (mn mx : Nat)
    (n : SearchNode) : (successors g endP mn mx n).length ≤ 3 := by
  have hsub : ∀ l : List Direction,
      (l.filterMap fun d =>
        match n.pos.step d with
        | none => none
        | some q =>
          if g.contains q then some (d, q, g.get q) else none).length ≤
        l.length :=
    fun l => List.length_filterMap_le _ l
  have heq : successors g endP mn mx n =
      (g.neighbors n.pos).filterMap fun dpc =>
        if n.direction = dpc.1.opposite then none
        else if n.direction = dpc.1 then
          if mx ≤ n.steps_in_direction then none
          else some { pos := dpc.2.1, cost := n.cost + dpc.2.2.cost,
                      heuristic := dpc.2.1.manhattanDistance endP,
                      direction := dpc.1,
                      steps_in_direction := n.steps_in_direction + 1 }
        else if mn ≤ n.steps_in_direction then
          some { pos := dpc.2.1, cost := n.cost + dpc.2.2.cost,
                 heuristic := dpc.2.1.manhattanDistance endP,
                 direction := dpc.1, steps_in_direction := 1 }
        else none := rfl
  rw [heq, Grid.neighbors, List.filterMap_filterMap]
  set F : Direction → Option SearchNode := fun d =>
    Option.bind
      (match n.pos.step d with
       | none => none
       | some q => if g.contains q then some (d, q, g.get q) else none)
      fun dpc =>
        if n.direction = dpc.1.opposite then none
        else if n.direction = dpc.1 then
          if mx ≤ n.steps_in_direction then none
          else some { pos := dpc.2.1, cost := n.cost + dpc.2.2.cost,
                      heuristic := dpc.2.1.manhattanDistance endP,
                      direction := dpc.1,
                      steps_in_direction := n.steps_in_direction + 1 }
        else if mn ≤ n.steps_in_direction then
          some { pos := dpc.2.1, cost := n.cost + dpc.2.2.cost,
                 heuristic := dpc.2.1.manhattanDistance endP,
                 direction := dpc.1, steps_in_direction := 1 }
        else none
    with hF
  have hopp : F n.direction.opposite = none := by
    simp only [hF]
    cases hstep : n.pos.step n.direction.opposite with
    | none => simp [hstep]
    | some q =>
      by_cases hc : g.contains q = true
      · simp [hstep, hc, Direction.opposite_opposite]
      · simp [hstep, hc]
  have hbound : ∀ u v : List Direction, (u ++ n.direction.opposite :: v).filterMap F
      = u.filterMap F ++ v.filterMap F := by
    intro u v
    rw [List.filterMap_append]
    congr 1
    simp [List.filterMap_cons, hopp]
  have hsplit : ∀ u v : List Direction,
      Direction.all = u ++ n.direction.opposite :: v →
      (Direction.all.filterMap F).length ≤ 3 := by
    intro u v huv
    rw [huv, hbound u v, List.length_append]
    have h1 := List.length_filterMap_le F u
    have h2 := List.length_filterMap_le F v
    have h3 : u.length + v.length + 1 = 4 := by
      have := congrArg List.length huv
      simp [Direction.all] at this
      omega
    omega
  cases hd : n.direction
  · exact hsplit [.up] [.left, .right] (by simp [Direction.all, hd, Direction.opposite])
  · exact hsplit [] [.down, .left, .right] (by simp [Direction.all, hd, Direction.opposite])
  · exact hsplit [.up, .down, .left] [] (by simp [Direction.all, hd, Direction.opposite])
  · exact hsplit [.up, .down] [.right] (by simp [Direction.all, hd, Direction.opposite])

theorem Pos.manhattanDistance_self (p : Pos) : p.manhattanDistance p = 0 := by
  simp [Pos.manhattanDistance, Nat.dist]

theorem manhattan_step_le {p q : Pos} {d : Direction}
    (h : p.step d = some q) (e : Pos) :
    p.manhattanDistance e ≤ q.manhattanDistance e + 1 := by
  cases d <;> simp only [Pos.step] at h
  · split at h
    · simp at h
    · injection h with h
      subst h
      simp only [Pos.manhattanDistance, Nat.dist]
      omega
  · injection h with h
    subst h
    simp only [Pos.manhattanDistance, Nat.dist]
    omega
  · split at h
    · simp at h
    · injection h with h
      subst h
      simp only [Pos.manhattanDistance, Nat.dist]
      omega
  · injection h with h
    subst h
    simp only [Pos.manhattanDistance, Nat.dist]
    omega

/-! ### Replaying the loop in slices, and parsing lemmas -/

theorem findPathAux_eq_searchGo (g : Grid) (endP : Pos) (mn mx F : Nat)
    (k m : Nat) (q : Heap) (v : Nat) :
    findPathAux g endP mn mx F (k + m) q v =
      match searchGo g endP mn mx F k q v with
      | .inl (q', v') => findPathAux g endP mn mx F m q' v'
      | .inr r => r := by
  induction k generalizing q v with
  | zero =>
    rw [searchGo]
    dsimp only
    rw [Nat.zero_add]
  | succ k ih =>
    rw [searchGo, show k + 1 + m = (k + m) + 1 from by omega, findPathAux]
    cases hp : Heap.pop F q with
    | none => rfl
    | some nq =>
      obtain ⟨n, q'⟩ := nq
      dsimp only
      by_cases he : n.pos = endP
      · rw [if_pos he, if_pos he]
      · rw [if_neg he, if_neg he]
        by_cases hv : visMem g.width mx v n.key = true
        · rw [if_pos hv, if_pos hv, ih]
        · rw [if_neg hv, if_neg hv, ih]

theorem mapM_except_error_iff {α β ε : Type} (f : α → Except ε β)
    (l : List α) :
    (∃ e, l.mapM f = .error e) ↔ ∃ x ∈ l, ∃ e, f x = .error e := by
  induction l with
  | nil =>
    constructor
    · rintro ⟨e, he⟩
      have he2 : (Except.ok ([] : List β) : Except ε (List β)) =
          Except.error e := he
      simp at he2
    · rintro ⟨x, hx, _⟩
      simp at hx
  | cons x t ih =>
    rw [List.mapM_cons]
    cases hf : f x with
    | error e =>
      constructor
      · intro _
        exact ⟨x, List.mem_cons_self x t, e, hf⟩
      · intro _
        exact ⟨e, rfl⟩
    | ok b =>
      cases hm : t.mapM f with
      | error e =>
        constructor
        · intro _
          obtain ⟨y, hy, e', he'⟩ := ih.mp ⟨e, hm⟩
          exact ⟨y, List.mem_cons_of_mem x hy, e', he'⟩
        · intro _
          exact ⟨e, rfl⟩
      | ok bs =>
        constructor
        · rintro ⟨e, he⟩
          have he3 : (Except.ok (b :: bs) : Except ε (List β)) =
              Except.error e := he
          simp at he3
        · rintro ⟨y, hy, e', he'⟩
          rcases List.mem_cons.mp hy with rfl | hy2
          · rw [hf] at he'
            simp at he'
          · obtain ⟨e, he⟩ := ih.mpr ⟨y, hy2, e', he'⟩
            rw [hm] at he
            simp at he

theorem gridLike_error_iff (input : List Nat) :
    (∃ e, gridLike Cell.tryFrom input = .error e) ↔
      ∃ c ∈ (asciiLines input).flatten, ¬(48 ≤ c ∧ c ≤ 57) := by
  have hstep : ∀ c : Nat,
      (∃ e, Cell.tryFrom c = .error e) ↔ ¬(48 ≤ c ∧ c ≤ 57) := by
    intro c
    unfold Cell.tryFrom
    split
    · simp_all
    · simp_all
  constructor
  · rintro ⟨e, he⟩
    by_cases hm : ∃ e', ((asciiLines input).flatten).mapM Cell.tryFrom = .error e'
    · obtain ⟨x, hx, e'', he''⟩ := (mapM_except_error_iff _ _).mp hm
      exact ⟨x, hx, (hstep x).mp ⟨e'', he''⟩⟩
    · exfalso
      cases hmm : ((asciiLines input).flatten).mapM Cell.tryFrom with
      | error e' => exact hm ⟨e', hmm⟩
      | ok cells =>
        unfold gridLike at he
        rw [hmm] at he
        exact absurd he (by simp [Bind.bind, Except.bind, pure, Except.pure])
  · rintro ⟨c, hc, hbad⟩
    obtain ⟨e, he⟩ := (hstep c).mpr hbad
    obtain ⟨e', he'⟩ := (mapM_except_error_iff Cell.tryFrom _).mpr ⟨c, hc, e, he⟩
    refine ⟨e', ?_⟩
    unfold gridLike
    rw [he']
    rfl

/-! ### Claim theorems (part 1) -/

set_option maxRecDepth 4000000
set_option maxHeartbeats 1000000000

/-- C2: for every node expanded by `find_path` with arrival direction `d` and
run-length `r`, and each candidate direction `d'`, the generated successors
are exactly: no successor in the reversal direction; a straight successor
(run `r + 1`) exactly when `r < max_steps_in_direction`; a turn successor
(run 1) exactly when `r ≥ min_steps_in_direction` — always into an in-bounds
neighbor, with the entered cell's cost added. -/
theorem successors_expansion_rule (g : Grid) (endP : Pos) (mn mx : Nat)
    (n s : SearchNode) :
    s ∈ successors g endP mn mx n ↔
      ∃ d q, n.pos.step d = some q ∧ g.contains q = true ∧
        n.direction ≠ d.opposite ∧
        ((d = n.direction ∧ n.steps_in_direction < mx ∧
            s = { pos := q, cost := n.cost + (g.get q).cost,
                  heuristic := q.manhattanDistance endP, direction := d,
                  steps_in_direction := n.steps_in_direction + 1 }) ∨
          (d ≠ n.direction ∧ mn ≤ n.steps_in_direction ∧
            s = { pos := q, cost := n.cost + (g.get q).cost,
                  heuristic := q.manhattanDistance endP, direction := d,
                  steps_in_direction := 1 })) :=
  mem_successors g endP mn mx n s

/-- C3 (amended): before the search loop begins, the first expansion from the
start node seeds exactly one node per direction whose step from `start` stays
inside the grid (up to all 4), each with run-length 1 and that neighbor's
cell cost, regardless of `min_steps_in_direction` (which the seeding never
consults). -/
theorem initQueue_seeds_inbounds_directions (g : Grid) (start endP : Pos)
    (mx : Nat) :
    (initQueue g start endP (searchFuel g mx)).elems =
      ↑((g.neighbors start).map fun dpc =>
        ({ pos := dpc.2.1, cost := dpc.2.2.cost,
           heuristic := dpc.2.1.manhattanDistance endP, direction := dpc.1,
           steps_in_direction := 1 } : SearchNode)) := by
  have hconv : ∀ (l : List (Direction × Pos × Cell)) (h : Heap),
      l.foldl (fun q dpc =>
        Heap.push (searchFuel g mx)
          { pos := dpc.2.1, cost := dpc.2.2.cost,
            heuristic := dpc.2.1.manhattanDistance endP, direction := dpc.1,
            steps_in_direction := 1 } q) h =
      (l.map fun dpc =>
        ({ pos := dpc.2.1, cost := dpc.2.2.cost,
           heuristic := dpc.2.1.manhattanDistance endP, direction := dpc.1,
           steps_in_direction := 1 } : SearchNode)).foldl
        (fun q s => Heap.push (searchFuel g mx) s q) h := by
    intro l
    induction l with
    | nil => intro h; rfl
    | cons a t ih => intro h; simp only [List.foldl_cons, List.map_cons, ih]
  unfold initQueue
  rw [hconv]
  rw [Heap.elems_foldl_push]
  · simp [Heap.elems]
  · simp only [Heap.size, List.length_map]
    have h1 : (g.neighbors start).length ≤ 4 := by
      unfold Grid.neighbors
      exact List.length_filterMap_le _ _
    have h2 : 8 ≤ searchFuel g mx := by
      unfold searchFuel
      omega
    omega

/-- C3 is refuted as literally stated: with the start at the top-left corner
of a 2×2 grid, only 2 directions (down and right) are seeded, not all 4. -/
theorem initQueue_corner_counterexample :
    (Multiset.card (initQueue squareGrid ⟨0, 0⟩ ⟨1, 1⟩
        (searchFuel squareGrid 3)).elems = 2) ∧
      ∀ n ∈ (initQueue squareGrid ⟨0, 0⟩ ⟨1, 1⟩
          (searchFuel squareGrid 3)).elems,
        n.direction ≠ Direction.up ∧ n.direction ≠ Direction.left := by
  decide

/-- C4 is refuted as stated: on the 1×1 grid (the degenerate case the claim
singles out), the search from the only cell to itself returns `none`, not
`Some 0`. -/
theorem find_path_one_cell_counterexample :
    find_path (oneCellGrid 5) ⟨0, 0⟩ ⟨0, 0⟩ 1 3 = none := by
  decide

/-- C4 (amended): when start equals end the search never recognises the
empty path: the start cell is only reached by a non-empty closed walk. On a
1×1 grid no move at all is possible, so `find_path` returns `none` — not
cost 0 — for every cell cost and every parameter pair. -/
theorem find_path_one_cell_none (c mn mx : Nat) :
    find_path (oneCellGrid c) ⟨0, 0⟩ ⟨0, 0⟩ mn mx = none := by
  show findPathAux _ _ _ _ _ _ (initQueue _ _ _ _) 0 = none
  have h : initQueue (oneCellGrid c) ⟨0, 0⟩ ⟨0, 0⟩
      (searchFuel (oneCellGrid c) mx) = .nil := rfl
  rw [h, findPathAux]
  rfl

/-- C5 is refuted as stated: with `min_steps_in_direction = 5 >
max_steps_in_direction = 2` the pathfinder does not fail before the search —
it runs and produces a result (`Some 2` on a 1×3 grid of 1-cost cells). -/
theorem find_path_inverted_bounds_counterexample :
    find_path threeCellGrid ⟨0, 0⟩ ⟨2, 0⟩ 5 2 = some 2 := by
  decide

/-- C5 (amended): `find_path` performs no configuration validation and its
return type has no error channel: with `min = 0`, or `min > max`, the search
still runs and can produce a result (here `Some 2` on a 1×3 grid of 1-cost
cells). -/
theorem find_path_no_config_validation :
    find_path threeCellGrid ⟨0, 0⟩ ⟨2, 0⟩ 0 2 = some 2 ∧
      find_path threeCellGrid ⟨0, 0⟩ ⟨2, 0⟩ 7 3 = some 2 := by
  decide

/-- C6 is refuted as stated: the empty input and non-rectangular rows do not
make parsing fail — the empty input parses to an empty 0×0 grid, and the
ragged input `"10\n1"` parses without error to a grid whose declared shape
(2×2) does not match its 3 cells. -/
theorem parse_accepts_empty_and_ragged :
    parse [] = .ok { cells := [], width := 0, height := 0 } ∧
      parse [49, 48, 10, 49] =
        .ok { cells := [⟨1⟩, ⟨0⟩, ⟨1⟩], width := 2, height := 2 } :=
  ⟨rfl, rfl⟩

/-- C6 (amended): parsing fails (with an `InvalidCharacter` error) exactly
when some byte of some line is outside the digit alphabet `'0'..'9'`
(newlines are consumed as line separators first); empty input and
non-rectangular rows are accepted without error. -/
theorem parse_error_iff_bad_digit (input : List Nat) :
    (∃ e, parse input = .error e) ↔
      ∃ c ∈ (asciiLines input).flatten, ¬(48 ≤ c ∧ c ≤ 57) := by
  rw [← gridLike_error_iff]
  unfold parse
  constructor
  · rintro ⟨e, he⟩
    cases hg : gridLike Cell.tryFrom input with
    | error e' => exact ⟨e', rfl⟩
    | ok v =>
      rw [hg] at he
      simp [Except.map] at he
  · rintro ⟨e, he⟩
    refine ⟨e, ?_⟩
    rw [he]
    rfl

/-- C10: `find_path` accepts a popped node as the final answer whenever its
position equals the end position, without testing that node's run-length;
consequently on the 1×2 grid of 1-cost cells with `min = 2 > 1`, the
returned cost 1 is that of the walk whose final (only) straight run into the
end cell has length 1 < min. -/
theorem find_path_accepts_end_ignoring_min_run :
    (∀ (g : Grid) (endP : Pos) (mn mx F fuel rk : Nat) (n : SearchNode)
        (l r : Heap) (v : Nat), n.pos = endP →
        findPathAux g endP mn mx F (fuel + 1) (Heap.node rk n l r) v =
          some n.cost) ∧
      (find_path twoCellGrid ⟨0, 0⟩ ⟨1, 0⟩ 2 3 = some 1 ∧
        ReachCost twoCellGrid ⟨0, 0⟩ 2 3 ⟨1, 0⟩ .right 1 1 ∧ 1 < 2) := by
  constructor
  · intro g endP mn mx F fuel rk n l r v he
    rw [findPathAux]
    dsimp only [Heap.pop]
    rw [if_pos he]
  · exact ⟨by decide, ReachCost.seed .right ⟨1, 0⟩ rfl rfl, by decide⟩

/-- Witness for `find_path_accepts_end_ignoring_min_run`: its general part
applied at a concrete popped node standing at the end position. -/
theorem find_path_accepts_end_ignoring_min_run_witness :
    findPathAux twoCellGrid ⟨1, 0⟩ 2 3 5 5
      (Heap.node 1 { pos := ⟨1, 0⟩, cost := 1, heuristic := 0,
                     direction := .right, steps_in_direction := 1 }
        .nil .nil) 0 = some 1 :=
  find_path_accepts_end_ignoring_min_run.1 twoCellGrid ⟨1, 0⟩ 2 3 5 4 1 _
    .nil .nil 0 rfl

/-- C1 is refuted as stated in two ways: (a) on a 1×1 grid with start = end
(in-bounds, `1 ≤ min ≤ max`) there is a valid path — the empty one, of cost
0 — yet `find_path` returns `none`; (b) on a 2×3 grid containing 0-cost
cells (rows `01 / 00 / 00`, from (0,2) to (0,0), `min = max = 1`) the
Manhattan heuristic is inadmissible and `find_path` returns `Some 1`
although a valid constrained walk of cost 0 reaches the end (right, up,
left, up through the 0-cost cells). -/
theorem find_path_optimality_counterexample :
    (find_path (oneCellGrid 3) ⟨0, 0⟩ ⟨0, 0⟩ 1 1 = none) ∧
      (find_path zeroCostGrid ⟨0, 2⟩ ⟨0, 0⟩ 1 1 = some 1 ∧
        ReachCost zeroCostGrid ⟨0, 2⟩ 1 1 ⟨0, 0⟩ .up 1 0 ∧ 0 < 1) := by
  have d1 : ReachCost zeroCostGrid ⟨0, 2⟩ 1 1 ⟨1, 2⟩ .right 1
      ((zeroCostGrid.get ⟨1, 2⟩).cost) := ReachCost.seed .right ⟨1, 2⟩ rfl rfl
  have d2 := ReachCost.turn _ _ _ _ .up ⟨1, 1⟩ d1 rfl rfl (by decide)
    (by decide) (by decide)
  have d3 := ReachCost.turn _ _ _ _ .left ⟨0, 1⟩ d2 rfl rfl (by decide)
    (by decide) (by decide)
  have d4 := ReachCost.turn _ _ _ _ .up ⟨0, 0⟩ d3 rfl rfl (by decide)
    (by decide) (by decide)
  exact ⟨by decide, by decide, d4, by decide⟩

/-- C8 is refuted as stated: on the 4×2 grid `0020 / 1002` (which contains
0-cost cells), from (3,0) to (0,0) with `min = 1`, raising
`max_steps_in_direction` from 1 to 2 raises the returned cost from `Some 2`
to `Some 3`. -/
theorem find_path_monotonicity_counterexample :
    find_path monoGrid ⟨3, 0⟩ ⟨0, 0⟩ 1 1 = some 2 ∧
      find_path monoGrid ⟨3, 0⟩ ⟨0, 0⟩ 1 2 = some 3 ∧ 2 < 3 := by
  refine ⟨by decide, by decide, by decide⟩

/-! ### Replaying the example searches in bounded-depth slices -/

theorem searchGo_example_slice1 :
    searchGo exampleGrid ⟨12, 12⟩ 1 3 (425 + 10399) 425
      (initQueue exampleGrid ⟨0, 0⟩ ⟨12, 12⟩ (425 + 10399)) 0 =
      .inl (exampleHeap425, exampleVis425) := by
  decide

theorem searchGo_example_slice2 :
    searchGo exampleGrid ⟨12, 12⟩ 1 3 (425 + 10399) 425
      exampleHeap425 exampleVis425 =
      .inl (exampleHeap850, exampleVis850) := by
  decide

theorem searchGo_example_slice3 :
    searchGo exampleGrid ⟨12, 12⟩ 1 3 (425 + 10399) 425
      exampleHeap850 exampleVis850 =
      .inl (exampleHeap1275, exampleVis1275) := by
  decide

theorem searchGo_example_slice4 :
    searchGo exampleGrid ⟨12, 12⟩ 1 3 (425 + 10399) 425
      exampleHeap1275 exampleVis1275 =
      .inl (exampleHeap1700, exampleVis1700) := by
  decide

theorem searchGo_example_slice5 :
    searchGo exampleGrid ⟨12, 12⟩ 1 3 (425 + 10399) 425
      exampleHeap1700 exampleVis1700 =
      .inl (exampleHeap2125, exampleVis2125) := by
  decide

theorem searchGo_example_slice6 :
    searchGo exampleGrid ⟨12, 12⟩ 1 3 (425 + 10399) 425
      exampleHeap2125 exampleVis2125 =
      .inl (exampleHeap2550, exampleVis2550) := by
  decide

theorem searchGo_example_slice7 :
    searchGo exampleGrid ⟨12, 12⟩ 1 3 (425 + 10399) 425
      exampleHeap2550 exampleVis2550 =
      .inl (exampleHeap2975, exampleVis2975) := by
  decide

theorem searchGo_example_slice8 :
    searchGo exampleGrid ⟨12, 12⟩ 1 3 (425 + 10399) 425
      exampleHeap2975 exampleVis2975 =
      .inr (some 102) := by
  decide

theorem searchGo_example_part2_slice1 :
    searchGo exampleGrid ⟨12, 12⟩ 4 10 (505 + 29247) 505
      (initQueue exampleGrid ⟨0, 0⟩ ⟨12, 12⟩ (505 + 29247)) 0 =
      .inl (exampleHeapPart2, exampleVisPart2) := by
  decide

theorem searchGo_example_part2_slice2 :
    searchGo exampleGrid ⟨12, 12⟩ 4 10 (505 + 29247) 505
      exampleHeapPart2 exampleVisPart2 = .inr (some 94) := by
  decide

/-- C7: on the worked 13×13 example grid of digit costs, `find_path` from
top-left to bottom-right returns 102 with `min = 1, max = 3` (part 1) and 94
with `min = 4, max = 10` (part 2); the uniform 4×4 all-1 grid with
`min = 1, max = 3` gives 6; and the two-row pattern `"911111\n119991"`
repeated 4 times gives 17. The long runs are replayed in bounded-depth
slices through the recorded intermediate states. -/
theorem find_path_example_values :
    (parse exampleInput).map part1 = .ok (some 102) ∧
      (parse exampleInput).map part2 = .ok (some 94) ∧
      (parse uniformInput).map part1 = .ok (some 6) ∧
      (parse forcedTurnInput).map
        (fun g => find_path g ⟨0, 0⟩ ⟨g.width - 1, g.height - 1⟩ 1 3) =
        .ok (some 17) := by
  have hg : parse exampleInput = .ok exampleGrid := rfl
  refine ⟨?_, ?_, ?_, ?_⟩
  · rw [hg]
    show Except.ok (part1 exampleGrid) = Except.ok (some 102)
    have hmain : part1 exampleGrid = some 102 := by
      show find_path exampleGrid ⟨0, 0⟩ ⟨12, 12⟩ 1 3 = some 102
      unfold find_path
      have hsf : searchFuel exampleGrid 3 = 425 + 10399 := by decide
      rw [hsf, findPathAux_eq_searchGo, searchGo_example_slice1]
      show findPathAux exampleGrid ⟨12, 12⟩ 1 3 (425 + 10399) (425 + 9974)
        exampleHeap425 exampleVis425 = some 102
      rw [findPathAux_eq_searchGo, searchGo_example_slice2]
      show findPathAux exampleGrid ⟨12, 12⟩ 1 3 (425 + 10399) (425 + 9549)
        exampleHeap850 exampleVis850 = some 102
      rw [findPathAux_eq_searchGo, searchGo_example_slice3]
      show findPathAux exampleGrid ⟨12, 12⟩ 1 3 (425 + 10399) (425 + 9124)
        exampleHeap1275 exampleVis1275 = some 102
      rw [findPathAux_eq_searchGo, searchGo_example_slice4]
      show findPathAux exampleGrid ⟨12, 12⟩ 1 3 (425 + 10399) (425 + 8699)
        exampleHeap1700 exampleVis1700 = some 102
      rw [findPathAux_eq_searchGo, searchGo_example_slice5]
      show findPathAux exampleGrid ⟨12, 12⟩ 1 3 (425 + 10399) (425 + 8274)
        exampleHeap2125 exampleVis2125 = some 102
      rw [findPathAux_eq_searchGo, searchGo_example_slice6]
      show findPathAux exampleGrid ⟨12, 12⟩ 1 3 (425 + 10399) (425 + 7849)
        exampleHeap2550 exampleVis2550 = some 102
      rw [findPathAux_eq_searchGo, searchGo_example_slice7]
      show findPathAux exampleGrid ⟨12, 12⟩ 1 3 (425 + 10399) (425 + 7424)
        exampleHeap2975 exampleVis2975 = some 102
      rw [findPathAux_eq_searchGo, searchGo_example_slice8]
    rw [hmain]
  · rw [hg]
    show Except.ok (part2 exampleGrid) = Except.ok (some 94)
    have hmain : part2 exampleGrid = some 94 := by
      show find_path exampleGrid ⟨0, 0⟩ ⟨12, 12⟩ 4 10 = some 94
      unfold find_path
      have hsf : searchFuel exampleGrid 10 = 505 + 29247 := by decide
      rw [hsf, findPathAux_eq_searchGo, searchGo_example_part2_slice1]
      show findPathAux exampleGrid ⟨12, 12⟩ 4 10 (505 + 29247) (505 + 28742)
        exampleHeapPart2 exampleVisPart2 = some 94
      rw [findPathAux_eq_searchGo, searchGo_example_part2_slice2]
    rw [hmain]
  · rfl
  · rfl

/-! ### Unconditional membership lemmas and initial-queue helpers -/

theorem Direction.ne_opposite_self (d : Direction) : d ≠ d.opposite := by
  cases d <;> simp [Direction.opposite]

theorem Heap.mem_push_subset (F : Nat) (s : SearchNode) (h : Heap) :
    ∀ m ∈ (Heap.push F s h).elems, m = s ∨ m ∈ h.elems := by
  intro m hm
  rcases Heap.elems_mergeFuel_subset F _ h m hm with h1 | h1
  · left
    simpa [Heap.elems] using h1
  · right
    exact h1

theorem Heap.mem_foldl_push_subset (F : Nat) (l : List SearchNode) (h : Heap) :
    ∀ m ∈ (l.foldl (fun q s => Heap.push F s q) h).elems,
      m ∈ h.elems ∨ m ∈ l := by
  induction l generalizing h with
  | nil => intro m hm; exact Or.inl hm
  | cons s t ih =>
    intro m hm
    rw [List.foldl_cons] at hm
    rcases ih (Heap.push F s h) m hm with h1 | h1
    · rcases Heap.mem_push_subset F s h m h1 with h2 | h2
      · exact Or.inr (h2 ▸ List.mem_cons_self s t)
      · exact Or.inl h2
    · exact Or.inr (List.mem_cons_of_mem s h1)

theorem Heap.pop_mem_subset (F : Nat) {h : Heap} {n : SearchNode} {h' : Heap}
    (hp : Heap.pop F h = some (n, h')) :
    n ∈ h.elems ∧ ∀ m ∈ h'.elems, m ∈ h.elems := by
  cases h with
  | nil => simp [Heap.pop] at hp
  | node k a l r =>
    simp only [Heap.pop, Option.some.injEq, Prod.mk.injEq] at hp
    obtain ⟨rfl, rfl⟩ := hp
    constructor
    · simp [Heap.elems]
    · intro m hm
      rcases Heap.elems_mergeFuel_subset F l r m hm with h1 | h1 <;>
        simp [Heap.elems, h1]

theorem initQueue_eq_foldl_map (g : Grid) (start endP : Pos) (F : Nat) :
    initQueue g start endP F =
      ((g.neighbors start).map fun dpc =>
        ({ pos := dpc.2.1, cost := dpc.2.2.cost,
           heuristic := dpc.2.1.manhattanDistance endP, direction := dpc.1,
           steps_in_direction := 1 } : SearchNode)).foldl
        (fun q s => Heap.push F s q) .nil := by
  unfold initQueue
  have hgen : ∀ (l : List (Direction × Pos × Cell)) (h : Heap),
      l.foldl (fun q dpc =>
        Heap.push F { pos := dpc.2.1, cost := dpc.2.2.cost,
                      heuristic := dpc.2.1.manhattanDistance endP,
                      direction := dpc.1, steps_in_direction := 1 } q) h =
      (l.map fun dpc =>
        ({ pos := dpc.2.1, cost := dpc.2.2.cost,
           heuristic := dpc.2.1.manhattanDistance endP, direction := dpc.1,
           steps_in_direction := 1 } : SearchNode)).foldl
        (fun q s => Heap.push F s q) h := by
    intro l
    induction l with
    | nil => intro h; rfl
    | cons a t ih => intro h; simp only [List.foldl_cons, List.map_cons, ih]
  exact hgen (g.neighbors start) .nil

theorem initQueue_elems (g : Grid) (start endP : Pos) (F : Nat)
    (hF : 4 ≤ F) :
    (initQueue g start endP F).elems =
      ↑((g.neighbors start).map fun dpc =>
        ({ pos := dpc.2.1, cost := dpc.2.2.cost,
           heuristic := dpc.2.1.manhattanDistance endP, direction := dpc.1,
           steps_in_direction := 1 } : SearchNode)) := by
  rw [initQueue_eq_foldl_map]
  rw [Heap.elems_foldl_push]
  · simp [Heap.elems]
  · simp only [Heap.size, List.length_map]
    have h1 : (g.neighbors start).length ≤ 4 := by
      unfold Grid.neighbors
      exact List.length_filterMap_le _ _
    omega

theorem initQueue_wfh (g : Grid) (start endP : Pos) (F : Nat) :
    (initQueue g start endP F).WFH := by
  rw [initQueue_eq_foldl_map]
  exact Heap.wfh_foldl_push F _ .nil trivial

/-! ### The frontier bound: every unvisited reachable state is covered by a
queued node whose priority is at most the walk's cost plus the heuristic at
the walk's endpoint (this is where consistency of the heuristic — valid only
when every cell costs at least 1 — enters). -/

theorem frontier_bound {g : Grid} {start endP : Pos} {mn mx : Nat}
    {q : Heap} {v : Nat} {K : Finset (Pos × Direction × Nat)}
    (inv : SearchInv g start endP mn mx q v K)
    (hpos : ∀ p : Pos, g.contains p = true → 1 ≤ (g.get p).cost) :
    ∀ (p : Pos) (d : Direction) (r c : Nat),
      ReachCost g start mn mx p d r c → (p, d, r) ∉ K →
      ∃ n' ∈ q.elems, n'.pri ≤ c + p.manhattanDistance endP := by
  intro p d r c hrc
  induction hrc with
  | seed d₁ q₁ hstep hcont =>
    intro hK
    obtain ⟨n', hn', hkey, hcost⟩ := inv.seedFrontier d₁ q₁ hstep hcont hK
    refine ⟨n', hn', ?_⟩
    have hh := inv.heur n' hn'
    have hp : n'.pos = q₁ := congrArg Prod.fst hkey
    simp only [SearchNode.pri, hh, hp]
    exact Nat.add_le_add_right hcost _
  | straight p₁ d₁ r₁ c₁ q₁ hrc hstep hcont hlt ih =>
    intro hK
    by_cases hK0 : (p₁, d₁, r₁) ∈ K
    · have hks : KeyStep g mn mx (p₁, d₁, r₁) (q₁, d₁, r₁ + 1) :=
        ⟨hstep, hcont, Direction.ne_opposite_self d₁,
          Or.inl ⟨rfl, hlt, rfl⟩⟩
      obtain ⟨n', hn', hkey, hbound⟩ :=
        inv.edgeFrontier (p₁, d₁, r₁) hK0 (q₁, d₁, r₁ + 1) hks hK
      refine ⟨n', hn', ?_⟩
      have hh := inv.heur n' hn'
      have hp : n'.pos = q₁ := congrArg Prod.fst hkey
      have hb := hbound c₁ hrc
      simp only [SearchNode.pri, hh, hp]
      exact Nat.add_le_add_right hb _
    · obtain ⟨n', hn', hle⟩ := ih hK0
      refine ⟨n', hn', ?_⟩
      have hcons : p₁.manhattanDistance endP ≤
          q₁.manhattanDistance endP + 1 := manhattan_step_le hstep endP
      have hw : 1 ≤ (g.get q₁).cost := hpos q₁ hcont
      omega
  | turn p₁ d₁ r₁ c₁ d' q₁ hrc hstep hcont hne hneop hmn ih =>
    intro hK
    by_cases hK0 : (p₁, d₁, r₁) ∈ K
    · have hks : KeyStep g mn mx (p₁, d₁, r₁) (q₁, d', 1) :=
        ⟨hstep, hcont, hneop, Or.inr ⟨hne, hmn, rfl⟩⟩
      obtain ⟨n', hn', hkey, hbound⟩ :=
        inv.edgeFrontier (p₁, d₁, r₁) hK0 (q₁, d', 1) hks hK
      refine ⟨n', hn', ?_⟩
      have hh := inv.heur n' hn'
      have hp : n'.pos = q₁ := congrArg Prod.fst hkey
      have hb := hbound c₁ hrc
      simp only [SearchNode.pri, hh, hp]
      exact Nat.add_le_add_right hb _
    · obtain ⟨n', hn', hle⟩ := ih hK0
      refine ⟨n', hn', ?_⟩
      have hcons : p₁.manhattanDistance endP ≤
          q₁.manhattanDistance endP + 1 := manhattan_step_le hstep endP
      have hw : 1 ≤ (g.get q₁).cost := hpos q₁ hcont
      omega

/-! ### The main loop theorem

With every cell cost at least 1 the heuristic is consistent, and the loop is
an exact A* search: starting from any state satisfying `SearchInv` with
enough fuel, it returns the minimum `ReachCost` of the end position, or
`none` exactly when no valid constrained walk reaches the end. -/

theorem findPathAux_spec (g : Grid) (start endP : Pos) (mn mx F : Nat)
    (hpos : ∀ p : Pos, g.contains p = true → 1 ≤ (g.get p).cost) :
    ∀ (fuel : Nat) (q : Heap) (v : Nat) (K : Finset (Pos × Direction × Nat)),
      SearchInv g start endP mn mx q v K →
      Multiset.card q.elems + 3 * Finset.card (allKeys g mx \ K) + 4 ≤ fuel →
      fuel ≤ F →
      (∃ c, findPathAux g endP mn mx F fuel q v = some c ∧
          (∃ d r, ReachCost g start mn mx endP d r c) ∧
          ∀ (d : Direction) (r c' : Nat),
            ReachCost g start mn mx endP d r c' → c ≤ c') ∨
        (findPathAux g endP mn mx F fuel q v = none ∧
          ∀ (d : Direction) (r c : Nat), ¬ReachCost g start mn mx endP d r c) := by
  intro fuel
  induction fuel with
  | zero =>
    intro q v K _ hpot _
    exfalso
    omega
  | succ fuel ih =>
    intro q v K inv hpot hFle
    rw [findPathAux]
    cases hp : Heap.pop F q with
    | none =>
      have hq : q = .nil := (Heap.pop_eq_none_iff F q).mp hp
      refine Or.inr ⟨rfl, ?_⟩
      intro d r c hrc
      by_cases hK : (endP, d, r) ∈ K
      · exact inv.noEnd _ hK rfl
      · obtain ⟨m, hm, _⟩ := frontier_bound inv hpos endP d r c hrc hK
        rw [hq] at hm
        simp [Heap.elems] at hm
    | some nq =>
      obtain ⟨n, q'⟩ := nq
      dsimp only
      have hsizeq : q.size ≤ F + 1 := by
        rw [Heap.size_eq_card]
        omega
      have helems : q.elems = n ::ₘ q'.elems := Heap.pop_elems F hsizeq hp
      have hn_mem : n ∈ q.elems := by
        rw [helems]
        exact Multiset.mem_cons_self n q'.elems
      have hcard : Multiset.card q.elems = Multiset.card q'.elems + 1 := by
        rw [helems, Multiset.card_cons]
      by_cases he : n.pos = endP
      · rw [if_pos he]
        refine Or.inl ⟨n.cost, rfl, ?_, ?_⟩
        · have hs := inv.sound n hn_mem
          rw [he] at hs
          exact ⟨n.direction, n.steps_in_direction, hs⟩
        · intro d r c hrc
          by_cases hK : (endP, d, r) ∈ K
          · exact absurd rfl (inv.noEnd _ hK)
          · obtain ⟨m, hm, hle⟩ := frontier_bound inv hpos endP d r c hrc hK
            have hmin := Heap.pop_min F inv.wfh hp m hm
            have hheur := inv.heur n hn_mem
            have hself : endP.manhattanDistance endP = 0 :=
              Pos.manhattanDistance_self endP
            have hpri : n.pri = n.cost + n.heuristic := rfl
            have hmpri : m.pri = m.cost + m.heuristic := rfl
            omega
      · rw [if_neg he]
        have hwfn : wfKey g mx n.key := inv.nodeWf n hn_mem
        have hsub : ∀ m ∈ q'.elems, m ∈ q.elems := by
          intro m hm
          rw [helems]
          exact Multiset.mem_cons_of_mem hm
        by_cases hv : visMem g.width mx v n.key = true
        · rw [if_pos hv]
          have hkK : n.key ∈ K := (inv.visRep n.key hwfn).mp hv
          have inv2 : SearchInv g start endP mn mx q' v K :=
            { wfh := Heap.pop_wfh F inv.wfh hp
              sound := fun m hm => inv.sound m (hsub m hm)
              heur := fun m hm => inv.heur m (hsub m hm)
              nodeWf := fun m hm => inv.nodeWf m (hsub m hm)
              visWf := inv.visWf
              visRep := inv.visRep
              noEnd := inv.noEnd
              edgeFrontier := by
                intro k hk k' hks hk'
                obtain ⟨m, hm, hmkey, hb⟩ := inv.edgeFrontier k hk k' hks hk'
                refine ⟨m, ?_, hmkey, hb⟩
                rw [helems] at hm
                rcases Multiset.mem_cons.mp hm with rfl | h
                · exact absurd (hmkey ▸ hkK) hk'
                · exact h
              seedFrontier := by
                intro d q₀ hstep hcont hKn
                obtain ⟨m, hm, hmkey, hb⟩ :=
                  inv.seedFrontier d q₀ hstep hcont hKn
                refine ⟨m, ?_, hmkey, hb⟩
                rw [helems] at hm
                rcases Multiset.mem_cons.mp hm with rfl | h
                · exact absurd (hmkey ▸ hkK) hKn
                · exact h }
          exact ih _ _ _ inv2 (by omega) (by omega)
        · rw [if_neg hv]
          have hnK : n.key ∉ K := fun h => hv ((inv.visRep n.key hwfn).mpr h)
          have hrcn : ReachCost g start mn mx n.pos n.direction
              n.steps_in_direction n.cost := inv.sound n hn_mem
          have hexact : ∀ c, ReachCost g start mn mx n.pos n.direction
              n.steps_in_direction c → n.cost ≤ c := by
            intro c hrc
            obtain ⟨m, hm, hle⟩ :=
              frontier_bound inv hpos n.pos n.direction n.steps_in_direction
                c hrc hnK
            have hmin := Heap.pop_min F inv.wfh hp m hm
            have hheur := inv.heur n hn_mem
            have hpri : n.pri = n.cost + n.heuristic := rfl
            have hmpri : m.pri = m.cost + m.heuristic := rfl
            omega
          have hlen : (successors g endP mn mx n).length ≤ 3 :=
            successors_length_le g endP mn mx n
          have hq'size : q'.size + (successors g endP mn mx n).length ≤ F := by
            rw [Heap.size_eq_card]
            omega
          have helems2 : ((successors g endP mn mx n).foldl
                (fun q s => Heap.push F s q) q').elems =
              q'.elems + ↑(successors g endP mn mx n) :=
            Heap.elems_foldl_push F _ q' hq'size
          have hmem2 : ∀ m, m ∈ ((successors g endP mn mx n).foldl
                (fun q s => Heap.push F s q) q').elems ↔
              m ∈ q'.elems ∨ m ∈ successors g endP mn mx n := by
            intro m
            rw [helems2, Multiset.mem_add, Multiset.mem_coe]
          have inv2 : SearchInv g start endP mn mx
              ((successors g endP mn mx n).foldl
                (fun q s => Heap.push F s q) q')
              (visInsert g.width mx v n.key) (insert n.key K) :=
            { wfh := Heap.wfh_foldl_push F _ q' (Heap.pop_wfh F inv.wfh hp)
              sound := by
                intro m hm
                rcases (hmem2 m).mp hm with h | h
                · exact inv.sound m (hsub m h)
                · exact ReachCost_of_successor hrcn h
              heur := by
                intro m hm
                rcases (hmem2 m).mp hm with h | h
                · exact inv.heur m (hsub m h)
                · exact heur_successor h
              nodeWf := by
                intro m hm
                rcases (hmem2 m).mp hm with h | h
                · exact inv.nodeWf m (hsub m h)
                · exact wfKey_successor h
              visWf := by
                intro k hk
                rcases Finset.mem_insert.mp hk with rfl | h
                · exact hwfn
                · exact inv.visWf k h
              visRep := by
                intro k hkwf
                rw [visMem_insert_wf g mx v hwfn hkwf, inv.visRep k hkwf,
                  Finset.mem_insert]
                tauto
              noEnd := by
                intro k hk
                rcases Finset.mem_insert.mp hk with rfl | h
                · exact he
                · exact inv.noEnd k h
              edgeFrontier := by
                intro k hk k' hks hk'
                have hk2 : k' ∉ K := fun h => hk' (Finset.mem_insert_of_mem h)
                have hk3 : k' ≠ n.key :=
                  fun h => hk' (h ▸ Finset.mem_insert_self n.key K)
                rcases Finset.mem_insert.mp hk with rfl | hkK
                · obtain ⟨s, hs, hskey, hscost⟩ := successor_of_keyStep endP hks
                  refine ⟨s, (hmem2 s).mpr (Or.inr hs), hskey, ?_⟩
                  intro c hrc
                  rw [hscost]
                  exact Nat.add_le_add_right (hexact c hrc) _
                · obtain ⟨m, hm, hmkey, hb⟩ := inv.edgeFrontier k hkK k' hks hk2
                  refine ⟨m, (hmem2 m).mpr (Or.inl ?_), hmkey, hb⟩
                  rw [helems] at hm
                  rcases Multiset.mem_cons.mp hm with rfl | h
                  · exact absurd hmkey.symm hk3
                  · exact h
              seedFrontier := by
                intro d q₀ hstep hcont hKn
                have hk2 : (q₀, d, 1) ∉ K :=
                  fun h => hKn (Finset.mem_insert_of_mem h)
                have hk3 : (q₀, d, 1) ≠ n.key :=
                  fun h => hKn (h ▸ Finset.mem_insert_self n.key K)
                obtain ⟨m, hm, hmkey, hb⟩ :=
                  inv.seedFrontier d q₀ hstep hcont hk2
                refine ⟨m, (hmem2 m).mpr (Or.inl ?_), hmkey, hb⟩
                rw [helems] at hm
                rcases Multiset.mem_cons.mp hm with rfl | h
                · exact absurd hmkey.symm hk3
                · exact h }
          have hin : n.key ∈ allKeys g mx \ K :=
            Finset.mem_sdiff.mpr ⟨wfKey_mem_allKeys g mx hwfn, hnK⟩
          have hR2 : (allKeys g mx \ insert n.key K).card =
              (allKeys g mx \ K).card - 1 := by
            rw [Finset.sdiff_insert, Finset.card_erase_of_mem hin]
          have hR1 : 0 < (allKeys g mx \ K).card :=
            Finset.card_pos.mpr ⟨n.key, hin⟩
          have hcard2 : Multiset.card ((successors g endP mn mx n).foldl
                (fun q s => Heap.push F s q) q').elems ≤
              Multiset.card q'.elems + 3 := by
            rw [helems2, Multiset.card_add, Multiset.coe_card]
            omega
          exact ih _ _ _ inv2 (by rw [hR2]; omega) (by omega)

/-! ### Instantiating the loop theorem at the initial state of `find_path` -/

theorem find_path_characterization (g : Grid) (start endP : Pos) (mn mx : Nat)
    (hrect : g.cells.length = g.width * g.height)
    (hcells : ∀ cell ∈ g.cells, 1 ≤ cell.cost) :
    (∃ c, find_path g start endP mn mx = some c ∧
        (∃ d r, ReachCost g start mn mx endP d r c) ∧
        ∀ (d : Direction) (r c' : Nat),
          ReachCost g start mn mx endP d r c' → c ≤ c') ∨
      (find_path g start endP mn mx = none ∧
        ∀ (d : Direction) (r c : Nat),
          ¬ReachCost g start mn mx endP d r c) := by
  have hpos : ∀ p : Pos, g.contains p = true → 1 ≤ (g.get p).cost := by
    intro p hc
    rw [Grid.contains_iff] at hc
    have hidx : p.y * g.width + p.x < g.cells.length := by
      rw [hrect]
      have h2 : (p.y + 1) * g.width ≤ g.height * g.width :=
        Nat.mul_le_mul_right _ (by omega)
      have h3 : (p.y + 1) * g.width = p.y * g.width + g.width := by ring
      have h4 : g.width * g.height = g.height * g.width := Nat.mul_comm _ _
      omega
    have hget : 1 ≤ (g.cells.getD (p.y * g.width + p.x) ⟨0⟩).cost := by
      rw [List.getD_eq_getElem g.cells ⟨0⟩ hidx]
      exact hcells _ (List.getElem_mem hidx)
    exact hget
  have hF8 : 8 ≤ searchFuel g mx := by
    unfold searchFuel
    omega
  have helems := initQueue_elems g start endP (searchFuel g mx) (by omega)
  have hmemInit : ∀ n,
      n ∈ (initQueue g start endP (searchFuel g mx)).elems ↔
        ∃ dpc ∈ g.neighbors start,
          ({ pos := dpc.2.1, cost := dpc.2.2.cost,
             heuristic := dpc.2.1.manhattanDistance endP, direction := dpc.1,
             steps_in_direction := 1 } : SearchNode) = n := by
    intro n
    rw [helems, Multiset.mem_coe, List.mem_map]
  have inv0 : SearchInv g start endP mn mx
      (initQueue g start endP (searchFuel g mx)) 0 ∅ :=
    { wfh := initQueue_wfh g start endP _
      sound := by
        intro n hn
        obtain ⟨dpc, hdpc, rfl⟩ := (hmemInit n).mp hn
        obtain ⟨d, p, c⟩ := dpc
        rw [Grid.mem_neighbors] at hdpc
        obtain ⟨hstep, hcont, rfl⟩ := hdpc
        exact ReachCost.seed d p hstep hcont
      heur := by
        intro n hn
        obtain ⟨dpc, hdpc, rfl⟩ := (hmemInit n).mp hn
        rfl
      nodeWf := by
        intro n hn
        obtain ⟨dpc, hdpc, rfl⟩ := (hmemInit n).mp hn
        obtain ⟨d, p, c⟩ := dpc
        rw [Grid.mem_neighbors] at hdpc
        exact ⟨hdpc.2.1, le_refl 1, le_max_right mx 1⟩
      visWf := fun k hk => absurd hk (Finset.not_mem_empty k)
      visRep := by
        intro k _
        rw [visMem_zero]
        simp
      noEnd := fun k hk => absurd hk (Finset.not_mem_empty k)
      edgeFrontier := fun k hk => absurd hk (Finset.not_mem_empty k)
      seedFrontier := by
        intro d q₀ hstep hcont _
        refine ⟨⟨q₀, (g.get q₀).cost, q₀.manhattanDistance endP, d, 1⟩,
          ?_, rfl, le_refl _⟩
        exact (hmemInit _).mpr ⟨(d, q₀, g.get q₀),
          (Grid.mem_neighbors g start d q₀ (g.get q₀)).mpr
            ⟨hstep, hcont, rfl⟩, rfl⟩ }
  have hcardInit :
      Multiset.card (initQueue g start endP (searchFuel g mx)).elems ≤ 4 := by
    rw [helems, Multiset.coe_card, List.length_map]
    have h1 : (g.neighbors start).length ≤ 4 := by
      unfold Grid.neighbors
      exact List.length_filterMap_le _ _
    omega
  have hKcard : (allKeys g mx \ ∅).card ≤
      g.width * g.height * (4 * (mx + 1)) := by
    rw [Finset.sdiff_empty]
    exact allKeys_card_le g mx
  have hfuel :
      Multiset.card (initQueue g start endP (searchFuel g mx)).elems +
        3 * Finset.card (allKeys g mx \ ∅) + 4 ≤ searchFuel g mx := by
    have hsf : searchFuel g mx = 16 * (g.width * g.height * (mx + 1)) + 8 := by
      unfold searchFuel
      ring
    have e1 : g.width * g.height * (4 * (mx + 1)) =
        4 * (g.width * g.height * (mx + 1)) := by ring
    omega
  exact findPathAux_spec g start endP mn mx (searchFuel g mx) hpos
    (searchFuel g mx) (initQueue g start endP (searchFuel g mx)) 0 ∅
    inv0 hfuel (le_refl _)

/-! ### Monotonicity of the walk semantics in the straight-run cap -/

theorem ReachCost.mono_mx {g : Grid} {start : Pos} {mn mx₁ mx₂ : Nat}
    {p : Pos} {d : Direction} {r c : Nat} (hle : mx₁ ≤ mx₂)
    (h : ReachCost g start mn mx₁ p d r c) :
    ReachCost g start mn mx₂ p d r c := by
  induction h with
  | seed d q hstep hcont => exact ReachCost.seed d q hstep hcont
  | straight p d r c q h hstep hcont hlt ih =>
    exact ReachCost.straight p d r c q ih hstep hcont (by omega)
  | turn p d r c d₂ q h hstep hcont hne hneop hmn ih =>
    exact ReachCost.turn p d r c d₂ q ih hstep hcont hne hneop hmn

/-! ### Run-length bounds for generated successors, and preservation along
the loop -/

theorem steps_bound_successor {g : Grid} {endP : Pos} {mn mx : Nat}
    {n s : SearchNode} (hmx : 1 ≤ mx) (hs : s ∈ successors g endP mn mx n) :
    1 ≤ s.steps_in_direction ∧ s.steps_in_direction ≤ mx := by
  rw [mem_successors] at hs
  obtain ⟨d, q, h1, h2, hop, hcase⟩ := hs
  rcases hcase with ⟨hd, hlt, rfl⟩ | ⟨hd, hmn2, rfl⟩
  · refine ⟨Nat.le_add_left 1 n.steps_in_direction, ?_⟩
    show n.steps_in_direction + 1 ≤ mx
    omega
  · exact ⟨le_refl 1, hmx⟩

theorem searchGo_preserves (g : Grid) (start endP : Pos) (mn mx F : Nat)
    (hmx : 1 ≤ mx) :
    ∀ (k : Nat) (q₀ : Heap) (v₀ : Nat),
      (∀ n ∈ q₀.elems,
        (1 ≤ n.steps_in_direction ∧ n.steps_in_direction ≤ mx) ∧
          ReachCost g start mn mx n.pos n.direction n.steps_in_direction
            n.cost) →
      ∀ (q : Heap) (v : Nat),
        searchGo g endP mn mx F k q₀ v₀ = .inl (q, v) →
        ∀ n ∈ q.elems,
          (1 ≤ n.steps_in_direction ∧ n.steps_in_direction ≤ mx) ∧
            ReachCost g start mn mx n.pos n.direction n.steps_in_direction
              n.cost := by
  intro k
  induction k with
  | zero =>
    intro q₀ v₀ hP q v hgo
    rw [searchGo] at hgo
    injection hgo with h
    rw [Prod.mk.injEq] at h
    obtain ⟨rfl, rfl⟩ := h
    exact hP
  | succ k ih =>
    intro q₀ v₀ hP q v hgo
    rw [searchGo] at hgo
    cases hp : Heap.pop F q₀ with
    | none =>
      simp only [hp] at hgo
      exact Sum.noConfusion hgo
    | some nq =>
      obtain ⟨n, q'⟩ := nq
      simp only [hp] at hgo
      have hn0 : n ∈ q₀.elems := (Heap.pop_mem_subset F hp).1
      have hsub : ∀ m ∈ q'.elems, m ∈ q₀.elems :=
        (Heap.pop_mem_subset F hp).2
      by_cases he : n.pos = endP
      · rw [if_pos he] at hgo
        exact Sum.noConfusion hgo
      · rw [if_neg he] at hgo
        by_cases hv : visMem g.width mx v₀ n.key = true
        · rw [if_pos hv] at hgo
          exact ih q' v₀ (fun m hm => hP m (hsub m hm)) q v hgo
        · rw [if_neg hv] at hgo
          refine ih _ _ ?_ q v hgo
          intro m hm
          rcases Heap.mem_foldl_push_subset F _ q' m hm with h1 | h1
          · exact hP m (hsub m h1)
          · exact ⟨steps_bound_successor hmx h1,
              ReachCost_of_successor (hP n hn0).2 h1⟩

/-- C1 (amended): under the additional hypotheses that the cell list matches
the declared `width * height` shape and that every cell cost is at least 1
(the heuristic is inadmissible on 0-cost cells, which `parse` accepts — see
the counterexample), and reading "valid path" as a non-empty valid
constrained walk (the empty path at start = end is never recognised, per the
C4 correction), `find_path` is correct and complete: it returns `some c`
with `c` the minimum total cost over all valid constrained walks from
`start` to `endP`, and returns `none` exactly when no such walk exists. -/
theorem find_path_optimal (g : Grid) (start endP : Pos) (mn mx : Nat)
    (hmn : 1 ≤ mn) (hmx : mn ≤ mx)
    (hrect : g.cells.length = g.width * g.height)
    (hcells : ∀ cell ∈ g.cells, 1 ≤ cell.cost) :
    (∃ c, find_path g start endP mn mx = some c ∧
        (∃ d r, ReachCost g start mn mx endP d r c) ∧
        ∀ (d : Direction) (r c' : Nat),
          ReachCost g start mn mx endP d r c' → c ≤ c') ∨
      (find_path g start endP mn mx = none ∧
        ∀ (d : Direction) (r c : Nat),
          ¬ReachCost g start mn mx endP d r c) :=
  find_path_characterization g start endP mn mx hrect hcells

/-- Witness for `find_path_optimal`: the 1x2 grid of 1-cost cells with
`min = max = 1`, all hypotheses discharged concretely. -/
theorem find_path_optimal_witness :
    ((1 : Nat) ≤ 1 ∧ (1 : Nat) ≤ 1 ∧
        twoCellGrid.cells.length = twoCellGrid.width * twoCellGrid.height ∧
        ∀ cell ∈ twoCellGrid.cells, 1 ≤ cell.cost) ∧
      ((∃ c, find_path twoCellGrid ⟨0, 0⟩ ⟨1, 0⟩ 1 1 = some c ∧
          (∃ d r, ReachCost twoCellGrid ⟨0, 0⟩ 1 1 ⟨1, 0⟩ d r c) ∧
          ∀ (d : Direction) (r c' : Nat),
            ReachCost twoCellGrid ⟨0, 0⟩ 1 1 ⟨1, 0⟩ d r c' → c ≤ c') ∨
        (find_path twoCellGrid ⟨0, 0⟩ ⟨1, 0⟩ 1 1 = none ∧
          ∀ (d : Direction) (r c : Nat),
            ¬ReachCost twoCellGrid ⟨0, 0⟩ 1 1 ⟨1, 0⟩ d r c)) :=
  ⟨⟨le_refl 1, le_refl 1, by decide, by decide⟩,
    find_path_optimal twoCellGrid ⟨0, 0⟩ ⟨1, 0⟩ 1 1 (le_refl 1) (le_refl 1)
      (by decide) (by decide)⟩

/-- C8 (amended): under the additional hypotheses that the cell list matches
the declared shape and every cell cost is at least 1 (without which the
returned value can increase — see the counterexample), raising
`max_steps_in_direction` from `mx₁` to `mx₂ ≥ mx₁` preserves reachability
and never increases the returned minimum cost. -/
theorem find_path_monotone (g : Grid) (start endP : Pos) (mn mx₁ mx₂ : Nat)
    (hle : mx₁ ≤ mx₂) (hmn : mn ≤ mx₁)
    (hrect : g.cells.length = g.width * g.height)
    (hcells : ∀ cell ∈ g.cells, 1 ≤ cell.cost) :
    ∀ c₁, find_path g start endP mn mx₁ = some c₁ →
      ∃ c₂, find_path g start endP mn mx₂ = some c₂ ∧ c₂ ≤ c₁ := by
  intro c₁ h1
  rcases find_path_characterization g start endP mn mx₁ hrect hcells with
    ⟨c, hc, ⟨d, r, hrc⟩, hmin⟩ | ⟨hn, _⟩
  · rw [h1] at hc
    injection hc with hc
    subst hc
    rcases find_path_characterization g start endP mn mx₂ hrect hcells with
      ⟨c₂, hc₂, _, hmin₂⟩ | ⟨_, hnone₂⟩
    · exact ⟨c₂, hc₂, hmin₂ d r c₁ (ReachCost.mono_mx hle hrc)⟩
    · exact absurd (ReachCost.mono_mx hle hrc) (hnone₂ d r c₁)
  · rw [h1] at hn
    exact Option.noConfusion hn

/-- Witness for `find_path_monotone`: the 1x3 grid of 1-cost cells with
`min = 1`, caps 1 and 2, all hypotheses discharged concretely. -/
theorem find_path_monotone_witness :
    ((1 : Nat) ≤ 2 ∧ (1 : Nat) ≤ 1 ∧
        threeCellGrid.cells.length =
          threeCellGrid.width * threeCellGrid.height ∧
        ∀ cell ∈ threeCellGrid.cells, 1 ≤ cell.cost) ∧
      ∀ c₁, find_path threeCellGrid ⟨0, 0⟩ ⟨2, 0⟩ 1 1 = some c₁ →
        ∃ c₂, find_path threeCellGrid ⟨0, 0⟩ ⟨2, 0⟩ 1 2 = some c₂ ∧ c₂ ≤ c₁ :=
  ⟨⟨by decide, le_refl 1, by decide, by decide⟩,
    find_path_monotone threeCellGrid ⟨0, 0⟩ ⟨2, 0⟩ 1 1 2 (by decide)
      (le_refl 1) (by decide) (by decide)⟩

/-- C9: throughout any run of `find_path` (under the source's parameter
contract `1 ≤ max_steps_in_direction`), every node live in the priority
queue after any number `k` of loop iterations has its run-length counter in
`[1, max_steps_in_direction]`, and was only enqueued respecting the
run-length and reversal constraints: it is the endpoint of a valid
constrained walk from `start` (`ReachCost`), whose moves never reverse and
respect the straight-run window by construction. -/
theorem live_nodes_run_length_invariant (g : Grid) (start endP : Pos)
    (mn mx : Nat) (hmx : 1 ≤ mx) (k : Nat) (q : Heap) (v : Nat)
    (hgo : searchGo g endP mn mx (searchFuel g mx) k
      (initQueue g start endP (searchFuel g mx)) 0 = .inl (q, v)) :
    ∀ n ∈ q.elems,
      (1 ≤ n.steps_in_direction ∧ n.steps_in_direction ≤ mx) ∧
        ReachCost g start mn mx n.pos n.direction n.steps_in_direction
          n.cost := by
  refine searchGo_preserves g start endP mn mx (searchFuel g mx) hmx k
    (initQueue g start endP (searchFuel g mx)) 0 ?_ q v hgo
  intro n hn
  have hF8 : 8 ≤ searchFuel g mx := by
    unfold searchFuel
    omega
  rw [initQueue_elems g start endP (searchFuel g mx) (by omega),
    Multiset.mem_coe, List.mem_map] at hn
  obtain ⟨dpc, hdpc, rfl⟩ := hn
  obtain ⟨d, p, c⟩ := dpc
  rw [Grid.mem_neighbors] at hdpc
  obtain ⟨hstep, hcont, rfl⟩ := hdpc
  exact ⟨⟨le_refl 1, hmx⟩, ReachCost.seed d p hstep hcont⟩

/-- Witness for `live_nodes_run_length_invariant`: the state after 0
iterations on the 1x3 grid, with both hypotheses discharged concretely. -/
theorem live_nodes_run_length_invariant_witness :
    ((1 : Nat) ≤ 3 ∧
        searchGo threeCellGrid ⟨2, 0⟩ 1 3 (searchFuel threeCellGrid 3) 0
          (initQueue threeCellGrid ⟨0, 0⟩ ⟨2, 0⟩ (searchFuel threeCellGrid 3))
          0 =
        .inl (initQueue threeCellGrid ⟨0, 0⟩ ⟨2, 0⟩
          (searchFuel threeCellGrid 3), 0)) ∧
      ∀ n ∈ (initQueue threeCellGrid ⟨0, 0⟩ ⟨2, 0⟩
          (searchFuel threeCellGrid 3)).elems,
        (1 ≤ n.steps_in_direction ∧ n.steps_in_direction ≤ 3) ∧
          ReachCost threeCellGrid ⟨0, 0⟩ 1 3 n.pos n.direction
            n.steps_in_direction n.cost :=
  ⟨⟨by decide, rfl⟩,
    live_nodes_run_length_invariant threeCellGrid ⟨0, 0⟩ ⟨2, 0⟩ 1 3
      (by decide) 0 _ 0 rfl⟩

end Day17

end Aoc2023
